import Mathlib

/-!
# V2Ray-Desktop: the server configuration helper

A shallow embedding of `src/serverconfighelper.cpp` (class `ServerConfigHelper`):
the protocol dispatcher, the per-protocol validators, the share-link parsers,
the importer of engine configuration documents and the renderers.

Layout of the development:

* the Qt value types the helper works on (`QString`, `QByteArray`, `QJsonValue`,
  `QJsonObject`) and the Qt library calls it makes (`mid`, `left`, `indexOf`,
  `split`, `toInt`, `QByteArray::fromBase64`, `QUrl::fromPercentEncoding`,
  `QUrlQuery::queryItems`, `QJsonDocument::fromJson`);
* the collaborators of `utility.cpp` and `constants.h`, which are not among the
  sources and are modelled from the specification;
* the functions of `ServerConfigHelper`, one definition per C++ function, with
  the C++ names;
* the theorems.

Conventions. A `QString` is the list of its characters. A `QByteArray` is the
list of its bytes, each a natural number below 256. Indices and lengths are
`Int`, as the C++ `int` (`-1` is "not found"). A JSON number is an integer here:
numbers with a fraction or an exponent are outside the model.
-/

set_option autoImplicit false

/-! ## QString -/

/-- A `QString`, as the list of its characters. -/
abbrev QString := List Char

/-- A `QByteArray`, as the list of its bytes (each below 256). -/
abbrev QByteArray := List Nat

/-- `QChar::isSpace`: the ASCII blanks (tab, line feed, vertical tab, form feed,
carriage return, space), U+0085, U+00A0 and the Unicode separators. -/
def QChar.isSpace (c : Char) : Bool :=
  let n := c.toNat
  (9 ≤ n && n ≤ 13) || n == 32 || n == 0x85 || n == 0xA0 || n == 0x1680
    || (0x2000 ≤ n && n ≤ 0x200A) || n == 0x2028 || n == 0x2029 || n == 0x202F
    || n == 0x205F || n == 0x3000

/-- `QChar::toLower` on the ASCII letters; other characters are left as they are. -/
def QChar.toLower (c : Char) : Char :=
  if 65 ≤ c.toNat ∧ c.toNat ≤ 90 then Char.ofNat (c.toNat + 32) else c

/-- `QString::toLower`. -/
def QString.toLower (s : QString) : QString := s.map QChar.toLower

/-- `QString::trimmed`: whitespace removed from both ends. -/
def QString.trimmed (s : QString) : QString :=
  ((s.dropWhile QChar.isSpace).reverse.dropWhile QChar.isSpace).reverse

/-- Position of the first element satisfying `p`, counted from `i`; `-1` when none. -/
def QString.indexFrom (p : Char → Bool) : QString → Nat → Int
  | [], _ => -1
  | c :: cs, i => if p c then (i : Int) else QString.indexFrom p cs (i + 1)

/-- `QString::indexOf(QChar)`: index of the first occurrence, `-1` when absent. -/
def QString.indexOf (s : QString) (c : Char) : Int :=
  QString.indexFrom (fun x => x == c) s 0

/-- Search loop of `QString::indexOf(const QString &)`. -/
def QString.indexOfStrFrom (pat : QString) : QString → Nat → Int
  | [], i => if pat.isEmpty then (i : Int) else -1
  | c :: cs, i =>
    if pat.isPrefixOf (c :: cs) then (i : Int) else QString.indexOfStrFrom pat cs (i + 1)

/-- `QString::indexOf(const QString &)`: index of the first occurrence of `pat`. -/
def QString.indexOfStr (s pat : QString) : Int := QString.indexOfStrFrom pat s 0

/-- `QString::mid(position, n)`, after `QContainerImplHelper::mid`: a position past
the end gives the null string, a negative position is clipped to the start (the
length shrinking with it), and a negative or too large `n` takes all that is
left. -/
def QString.mid (s : QString) (position n : Int) : QString :=
  let len : Int := s.length
  if position > len then []
  else if position < 0 then
    if n < 0 ∨ n + position ≥ len then s
    else if n + position ≤ 0 then []
    else s.take (n + position).toNat
  else if n < 0 ∨ n > len - position then s.drop position.toNat
  else (s.drop position.toNat).take n.toNat

/-- `QString::mid(position)`: the length defaults to `-1`. -/
def QString.midFrom (s : QString) (position : Int) : QString := QString.mid s position (-1)

/-- `QString::left(n)`: the whole string when `n` is negative or at least the size. -/
def QString.left (s : QString) (n : Int) : QString :=
  if n < 0 ∨ n ≥ (s.length : Int) then s else s.take n.toNat

/-- `QString::split(QChar)` with the default `KeepEmptyParts`: the empty string
splits into one empty part. -/
def QString.split : QString → Char → List QString
  | [], _ => [[]]
  | c :: cs, sep =>
    if c = sep then [] :: QString.split cs sep
    else
      match QString.split cs sep with
      | [] => [[c]]
      | p :: ps => (c :: p) :: ps

/-- `QString::startsWith`. -/
def QString.startsWith (s p : QString) : Bool := p.isPrefixOf s

/-- `QString::replace(QChar, QChar)`. -/
def QString.replace (s : QString) (before after : Char) : QString :=
  s.map (fun c => if c = before then after else c)

/-- `QString::number(int)`: the decimal digits, with a leading minus sign. -/
def QString.number (n : Int) : QString :=
  if n < 0 then '-' :: Nat.toDigits 10 n.natAbs else Nat.toDigits 10 n.natAbs

/-- Value of a string of decimal digits; `none` when it is empty or holds
another character. -/
def QString.digitsValue : QString → Nat → Option Nat
  | [], acc => some acc
  | c :: cs, acc =>
    if 48 ≤ c.toNat ∧ c.toNat ≤ 57 then QString.digitsValue cs (acc * 10 + (c.toNat - 48))
    else none

/-- Integer read by `QString::toLongLong` in the C locale: surrounding whitespace
is skipped, one sign is allowed, then decimal digits only. -/
def QString.parseInteger (s : QString) : Option Int :=
  match QString.trimmed s with
  | [] => none
  | '-' :: ds => if ds.isEmpty then none else (QString.digitsValue ds 0).map (fun v => - (v : Int))
  | '+' :: ds => if ds.isEmpty then none else (QString.digitsValue ds 0).map (fun v => (v : Int))
  | ds => (QString.digitsValue ds 0).map (fun v => (v : Int))

/-- `QString::toInt()`: `0` when the text is not a decimal integer or does not
fit a 32-bit `int`. -/
def QString.toInt (s : QString) : Int :=
  match QString.parseInteger s with
  | some v => if -2147483648 ≤ v ∧ v ≤ 2147483647 then v else 0
  | none => 0

/-- Lexicographic order on strings by character code (the key order of a
`QJsonObject`). -/
def QString.lt : QString → QString → Bool
  | _, [] => false
  | [], _ :: _ => true
  | a :: as, b :: bs => a.toNat < b.toNat || (a == b && QString.lt as bs)

/-- Replacement of the place markers of `QString::arg`, in one pass: marker `%k`
(`k` from 1 to 9) becomes the `k`-th argument, and a marker with no argument is
left. The templates of the helper have the markers `%1` .. `%n`, each followed
by a character that is no digit, and are given `n` arguments. -/
def QString.multiArg : QString → List QString → QString
  | [], _ => []
  | [c], _ => [c]
  | '%' :: d :: rest, args =>
    if 49 ≤ d.toNat ∧ d.toNat ≤ 57 then
      match args.get? (d.toNat - 49) with
      | some a => a ++ QString.multiArg rest args
      | none => '%' :: d :: QString.multiArg rest args
    else '%' :: QString.multiArg (d :: rest) args
  | c :: d :: rest, args => c :: QString.multiArg (d :: rest) args

/-! ## Bytes: UTF-8, base64, percent-encoding -/

/-- UTF-8 encoding of one character. -/
def QChar.toUtf8 (c : Char) : QByteArray :=
  let n := c.toNat
  if n < 0x80 then [n]
  else if n < 0x800 then [0xC0 + n / 64, 0x80 + n % 64]
  else if n < 0x10000 then [0xE0 + n / 4096, 0x80 + (n / 64) % 64, 0x80 + n % 64]
  else [0xF0 + n / 262144, 0x80 + (n / 4096) % 64, 0x80 + (n / 64) % 64, 0x80 + n % 64]

/-- `QString::toUtf8`. -/
def QString.toUtf8 (s : QString) : QByteArray := s.flatMap QChar.toUtf8

/-- A UTF-8 continuation byte. -/
def QByteArray.isContinuation (b : Nat) : Bool := 0x80 ≤ b && b ≤ 0xBF

/-- Decoding of one UTF-8 sequence with lead byte `b0`: the character and the
number of continuation bytes it takes from `rest`. `none` for a malformed,
truncated, overlong or surrogate sequence. -/
def QByteArray.utf8DecodeOne (b0 : Nat) (rest : QByteArray) : Option (Char × Nat) :=
  if b0 < 0x80 then some (Char.ofNat b0, 0)
  else if 0xC2 ≤ b0 ∧ b0 ≤ 0xDF then
    match rest with
    | b1 :: _ =>
      if QByteArray.isContinuation b1 then some (Char.ofNat ((b0 - 0xC0) * 64 + (b1 - 0x80)), 1)
      else none
    | _ => none
  else if 0xE0 ≤ b0 ∧ b0 ≤ 0xEF then
    match rest with
    | b1 :: b2 :: _ =>
      let v := (b0 - 0xE0) * 4096 + (b1 - 0x80) * 64 + (b2 - 0x80)
      if QByteArray.isContinuation b1 ∧ QByteArray.isContinuation b2 ∧ 0x800 ≤ v
          ∧ ¬ (0xD800 ≤ v ∧ v ≤ 0xDFFF) then some (Char.ofNat v, 2)
      else none
    | _ => none
  else if 0xF0 ≤ b0 ∧ b0 ≤ 0xF4 then
    match rest with
    | b1 :: b2 :: b3 :: _ =>
      let v := (b0 - 0xF0) * 262144 + (b1 - 0x80) * 4096 + (b2 - 0x80) * 64 + (b3 - 0x80)
      if QByteArray.isContinuation b1 ∧ QByteArray.isContinuation b2
          ∧ QByteArray.isContinuation b3 ∧ 0x10000 ≤ v ∧ v ≤ 0x10FFFF then some (Char.ofNat v, 3)
      else none
    | _ => none
  else none

/-- Loop of `QString::fromUtf8`; `skip` counts the bytes already consumed as
continuation bytes. A byte that starts no well-formed sequence becomes U+FFFD. -/
def QString.fromUtf8Aux : QByteArray → Nat → QString
  | [], _ => []
  | _ :: rest, skip + 1 => QString.fromUtf8Aux rest skip
  | b :: rest, 0 =>
    match QByteArray.utf8DecodeOne b rest with
    | some (c, k) => c :: QString.fromUtf8Aux rest k
    | none => Char.ofNat 0xFFFD :: QString.fromUtf8Aux rest 0

/-- `QString::fromUtf8(const char *, int size)`; a byte order mark at the start
is skipped. -/
def QString.fromUtf8 (ba : QByteArray) : QString :=
  match ba with
  | 0xEF :: 0xBB :: 0xBF :: rest => QString.fromUtf8Aux rest 0
  | _ => QString.fromUtf8Aux ba 0

/-- The conversion `QString(const QByteArray &)` of Qt 5: the bytes up to the
first NUL, decoded as UTF-8. -/
def QString.fromByteArray (ba : QByteArray) : QString :=
  QString.fromUtf8 (ba.takeWhile (fun b => b != 0))

/-- Value of a character of the standard base64 alphabet (`A-Z a-z 0-9 + /`). -/
def QByteArray.base64Digit (ch : Nat) : Option Nat :=
  if 65 ≤ ch ∧ ch ≤ 90 then some (ch - 65)
  else if 97 ≤ ch ∧ ch ≤ 122 then some (ch - 97 + 26)
  else if 48 ≤ ch ∧ ch ≤ 57 then some (ch - 48 + 52)
  else if ch = 43 then some 62
  else if ch = 47 then some 63
  else none

/-- The decoding loop of `QByteArray::fromBase64` under
`AbortOnBase64DecodingErrors`, at input index `i` with `nbits` pending bits in
`buf`. `none` is an aborted decoding: a character outside the alphabet, or an
`=` that is not the one or two padding characters closing an input whose length
is a multiple of four. -/
def QByteArray.fromBase64Loop (inputSize : Nat) : QByteArray → Nat → Nat → Nat → Option QByteArray
  | [], _, _, _ => some []
  | ch :: rest, i, buf, nbits =>
    match QByteArray.base64Digit ch with
    | some d =>
      let buf1 := buf * 64 + d
      if nbits + 6 ≥ 8 then
        (QByteArray.fromBase64Loop inputSize rest (i + 1) (buf1 % 2 ^ (nbits + 6 - 8))
            (nbits + 6 - 8)).map
          (fun out => (buf1 / 2 ^ (nbits + 6 - 8)) % 256 :: out)
      else QByteArray.fromBase64Loop inputSize rest (i + 1) buf1 (nbits + 6)
    | none =>
      if ch = 61 then
        if inputSize % 4 ≠ 0 then none
        else if i + 1 = inputSize ∨ (i + 2 = inputSize ∧ rest.head? = some 61) then some []
        else none
      else none

/-- `QByteArray::fromBase64(base64, QByteArray::AbortOnBase64DecodingErrors)`:
the decoded bytes, or the empty array when the decoding is aborted. -/
def QByteArray.fromBase64 (base64 : QByteArray) : QByteArray :=
  (QByteArray.fromBase64Loop base64.length base64 0 0 0).getD []

/-- Hexadecimal value of a digit character, as `q_fromPercentEncoding` reads it:
a character that is no hex digit keeps its code. -/
def QByteArray.hexOrSelf (a : Nat) : Nat :=
  if 48 ≤ a ∧ a ≤ 57 then a - 48
  else if 97 ≤ a ∧ a ≤ 102 then a - 97 + 10
  else if 65 ≤ a ∧ a ≤ 70 then a - 65 + 10
  else a

/-- Loop of `QByteArray::fromPercentEncoding`: a `%` with at least two bytes after
it is replaced by the byte `(a << 4) | b`; `skip` counts bytes already consumed. -/
def QByteArray.fromPercentEncodingAux : QByteArray → Nat → QByteArray
  | [], _ => []
  | _ :: rest, skip + 1 => QByteArray.fromPercentEncodingAux rest skip
  | c :: rest, 0 =>
    match rest with
    | a :: b :: _ =>
      if c = 37 then
        ((QByteArray.hexOrSelf a * 16) ||| QByteArray.hexOrSelf b) % 256
          :: QByteArray.fromPercentEncodingAux rest 2
      else c :: QByteArray.fromPercentEncodingAux rest 0
    | _ => c :: QByteArray.fromPercentEncodingAux rest 0

/-- `QUrl::fromPercentEncoding`: percent-decoding, then UTF-8 decoding. -/
def QUrl.fromPercentEncoding (input : QByteArray) : QString :=
  QString.fromUtf8 (QByteArray.fromPercentEncodingAux input 0)

/-! ## QUrlQuery -/

/-- Value of a hexadecimal digit. -/
def QUrlQuery.hexValue (c : Char) : Option Nat :=
  let n := c.toNat
  if 48 ≤ n ∧ n ≤ 57 then some (n - 48)
  else if 97 ≤ n ∧ n ≤ 102 then some (n - 97 + 10)
  else if 65 ≤ n ∧ n ≤ 70 then some (n - 65 + 10)
  else none

/-- The upper-case hexadecimal digit of a value below 16. -/
def QUrlQuery.hexDigit (v : Nat) : Char :=
  if v < 10 then Char.ofNat (48 + v) else Char.ofNat (55 + v)

/-- Every `%` of the text is followed by two hexadecimal digits. -/
def QUrlQuery.escapesValid : QString → Bool
  | [] => true
  | '%' :: a :: b :: rest =>
    (QUrlQuery.hexValue a).isSome && (QUrlQuery.hexValue b).isSome && QUrlQuery.escapesValid rest
  | '%' :: _ => false
  | _ :: rest => QUrlQuery.escapesValid rest

/-- The characters whose escapes `QUrlQuery` decodes when it stores a query:
the unreserved characters, the space, the characters `"<>\^{|}` and the backtick
(`QUrl::DecodeReserved`), and the three delimiters `&`, `=`, `#`. The other
delimiters keep their escapes, as does `%`. -/
def QUrlQuery.decodesEscape (d : Nat) : Bool :=
  (48 ≤ d && d ≤ 57) || (65 ≤ d && d ≤ 90) || (97 ≤ d && d ≤ 122)
    || d == 45 || d == 46 || d == 95 || d == 126
    || d == 32 || d == 34 || d == 60 || d == 62 || d == 92 || d == 94 || d == 96
    || d == 123 || d == 124 || d == 125
    || d == 38 || d == 61 || d == 35

/-- The bytes of up to `n` escapes `%XX` at the head of the text. -/
def QUrlQuery.escapedBytes : Nat → QString → QByteArray
  | n + 1, '%' :: a :: b :: rest =>
    match QUrlQuery.hexValue a, QUrlQuery.hexValue b with
    | some x, some y => (x * 16 + y) :: QUrlQuery.escapedBytes n rest
    | _, _ => []
  | _, _ => []

/-- The loop of `qt_urlRecode` as `QUrlQuery` calls it. With `retry` (the text
holds a malformed escape) every `%` is written `%25`. Otherwise an escape is
decoded when its character is one of `decodesEscape` or when it starts a
well-formed UTF-8 sequence of escapes, and is kept, in upper case, when not.
Control characters and DEL are escaped; `skip` counts characters already
consumed. -/
def QUrlQuery.recodeAux (retry : Bool) : QString → Nat → QString
  | [], _ => []
  | _ :: rest, skip + 1 => QUrlQuery.recodeAux retry rest skip
  | c :: rest, 0 =>
    if c = '%' then
      if retry then '%' :: '2' :: '5' :: QUrlQuery.recodeAux retry rest 0
      else
        match rest with
        | a :: b :: rest2 =>
          let d := (QUrlQuery.hexValue a).getD 0 * 16 + (QUrlQuery.hexValue b).getD 0
          let kept := '%' :: QUrlQuery.hexDigit (d / 16) :: QUrlQuery.hexDigit (d % 16)
            :: QUrlQuery.recodeAux retry rest 2
          if d ≥ 0x80 then
            match QByteArray.utf8DecodeOne d (QUrlQuery.escapedBytes 3 rest2) with
            | some (ch, k) => ch :: QUrlQuery.recodeAux retry rest (2 + 3 * k)
            | none => kept
          else if QUrlQuery.decodesEscape d then Char.ofNat d :: QUrlQuery.recodeAux retry rest 2
          else kept
        | _ => '%' :: '2' :: '5' :: QUrlQuery.recodeAux retry rest 0
    else if c.toNat < 0x20 ∨ c.toNat = 0x7F then
      '%' :: QUrlQuery.hexDigit (c.toNat / 16) :: QUrlQuery.hexDigit (c.toNat % 16)
        :: QUrlQuery.recodeAux retry rest 0
    else c :: QUrlQuery.recodeAux retry rest 0

/-- The form in which `QUrlQuery` stores, and `queryItems()` returns, a key or a
value. -/
def QUrlQuery.recode (s : QString) : QString :=
  QUrlQuery.recodeAux (!QUrlQuery.escapesValid s) s 0

/-- The pairs of a query string: the pieces between the pair delimiters `&`. The
empty string has no pair, and a trailing `&` opens none. -/
def QUrlQuery.pairs : QString → List QString
  | [] => []
  | c :: cs =>
    if c = '&' then [] :: QUrlQuery.pairs cs
    else
      match QUrlQuery.pairs cs with
      | [] => [[c]]
      | p :: ps => (c :: p) :: ps

/-- Key and value of one pair: split at the first value delimiter `=`; a pair
with no `=` has a null value. -/
def QUrlQuery.item (pair : QString) : QString × QString :=
  (QUrlQuery.recode (pair.takeWhile (fun c => c != '=')),
    QUrlQuery.recode ((pair.dropWhile (fun c => c != '=')).drop 1))

/-- `QUrlQuery(query).queryItems()`: the ordered list of key and value pairs,
repeated keys kept. -/
def QUrlQuery.queryItems (query : QString) : List (QString × QString) :=
  (QUrlQuery.pairs query).map QUrlQuery.item

/-! ## QJsonValue and QJsonObject -/

/-- A `QJsonValue`. `undefined` is the value of a missing key or index. -/
inductive QJsonValue where
  | null
  | bool (b : Bool)
  | double (n : Int)
  | string (s : QString)
  | array (a : List QJsonValue)
  | object (o : List (QString × QJsonValue))
  | undefined

/-- A `QJsonObject`, as the list of its entries; the operations below keep the
keys unique and in increasing order. -/
abbrev QJsonObject := List (QString × QJsonValue)

/-- A `QJsonArray`. -/
abbrev QJsonArray := List QJsonValue

mutual
/-- Decision of equality of two JSON values. -/
def QJsonValue.decEq : (a b : QJsonValue) → Decidable (a = b)
  | .null, .null => isTrue rfl
  | .undefined, .undefined => isTrue rfl
  | .bool a, .bool b =>
    if h : a = b then isTrue (h ▸ rfl) else isFalse (fun e => h (QJsonValue.bool.inj e))
  | .double a, .double b =>
    if h : a = b then isTrue (h ▸ rfl) else isFalse (fun e => h (QJsonValue.double.inj e))
  | .string a, .string b =>
    if h : a = b then isTrue (h ▸ rfl) else isFalse (fun e => h (QJsonValue.string.inj e))
  | .array a, .array b =>
    match QJsonValue.decEqArray a b with
    | isTrue h => isTrue (h ▸ rfl)
    | isFalse h => isFalse (fun e => h (QJsonValue.array.inj e))
  | .object a, .object b =>
    match QJsonValue.decEqObject a b with
    | isTrue h => isTrue (h ▸ rfl)
    | isFalse h => isFalse (fun e => h (QJsonValue.object.inj e))
  | .null, .bool _ | .null, .double _ | .null, .string _ | .null, .array _ | .null, .object _
  | .null, .undefined => isFalse nofun
  | .bool _, .null | .bool _, .double _ | .bool _, .string _ | .bool _, .array _
  | .bool _, .object _ | .bool _, .undefined => isFalse nofun
  | .double _, .null | .double _, .bool _ | .double _, .string _ | .double _, .array _
  | .double _, .object _ | .double _, .undefined => isFalse nofun
  | .string _, .null | .string _, .bool _ | .string _, .double _ | .string _, .array _
  | .string _, .object _ | .string _, .undefined => isFalse nofun
  | .array _, .null | .array _, .bool _ | .array _, .double _ | .array _, .string _
  | .array _, .object _ | .array _, .undefined => isFalse nofun
  | .object _, .null | .object _, .bool _ | .object _, .double _ | .object _, .string _
  | .object _, .array _ | .object _, .undefined => isFalse nofun
  | .undefined, .null | .undefined, .bool _ | .undefined, .double _ | .undefined, .string _
  | .undefined, .array _ | .undefined, .object _ => isFalse nofun
/-- Decision of equality of two JSON arrays. -/
def QJsonValue.decEqArray : (a b : List QJsonValue) → Decidable (a = b)
  | [], [] => isTrue rfl
  | [], _ :: _ => isFalse nofun
  | _ :: _, [] => isFalse nofun
  | x :: xs, y :: ys =>
    match QJsonValue.decEq x y, QJsonValue.decEqArray xs ys with
    | isTrue h, isTrue t => isTrue (h ▸ t ▸ rfl)
    | isFalse h, _ => isFalse (fun e => h (List.cons.inj e).1)
    | _, isFalse t => isFalse (fun e => t (List.cons.inj e).2)
/-- Decision of equality of two lists of JSON object entries. -/
def QJsonValue.decEqObject : (a b : List (QString × QJsonValue)) → Decidable (a = b)
  | [], [] => isTrue rfl
  | [], _ :: _ => isFalse nofun
  | _ :: _, [] => isFalse nofun
  | (k, x) :: xs, (l, y) :: ys =>
    if hk : k = l then
      match QJsonValue.decEq x y, QJsonValue.decEqObject xs ys with
      | isTrue h, isTrue t => isTrue (hk ▸ h ▸ t ▸ rfl)
      | isFalse h, _ => isFalse (fun e => h (Prod.mk.inj (List.cons.inj e).1).2)
      | _, isFalse t => isFalse (fun e => t (List.cons.inj e).2)
    else isFalse (fun e => hk (Prod.mk.inj (List.cons.inj e).1).1)
end

instance : DecidableEq QJsonValue := QJsonValue.decEq

/-- `QJsonValue::toString()`: the string, or the null string for another type. -/
def QJsonValue.toString : QJsonValue → QString
  | .string s => s
  | _ => []

/-- `QJsonValue::isString()`. -/
def QJsonValue.isString : QJsonValue → Bool
  | .string _ => true
  | _ => false

/-- `QJsonValue::toBool()`: `false` for a value that is not a boolean. -/
def QJsonValue.toBool : QJsonValue → Bool
  | .bool b => b
  | _ => false

/-- `QJsonValue::toInt()`: the number when it fits an `int`, else `0`. -/
def QJsonValue.toInt : QJsonValue → Int
  | .double n => if -2147483648 ≤ n ∧ n ≤ 2147483647 then n else 0
  | _ => 0

/-- `QJsonValue::toObject()`: the empty object for another type. -/
def QJsonValue.toObject : QJsonValue → QJsonObject
  | .object o => o
  | _ => []

/-- `QJsonValue::toArray()`: the empty array for another type. -/
def QJsonValue.toArray : QJsonValue → QJsonArray
  | .array a => a
  | _ => []

/-- Conversion of a 64-bit integer to `int`: the low 32 bits, two's complement. -/
def QVariant.wrapInt (v : Int) : Int :=
  (v + 2147483648) % 4294967296 - 2147483648

/-- `QJsonValue::toVariant().toInt()`: a number or a boolean converts to its
value, a string to the integer it spells (`0` when it spells none, or one that
does not fit 64 bits), anything else to `0`; the 64-bit value is then cut to an
`int`. -/
def QJsonValue.toVariantToInt : QJsonValue → Int
  | .bool b => if b then 1 else 0
  | .double n => QVariant.wrapInt n
  | .string s =>
    match QString.parseInteger s with
    | some v =>
      if -9223372036854775808 ≤ v ∧ v ≤ 9223372036854775807 then QVariant.wrapInt v else 0
    | none => 0
  | _ => 0

/-- `QJsonArray::at(i)`: `undefined` when the index is out of range. -/
def QJsonArray.at (a : QJsonArray) (i : Nat) : QJsonValue := (a.get? i).getD .undefined

/-- `QJsonObject::contains`. -/
def QJsonObject.contains (o : QJsonObject) (key : QString) : Bool := (o.lookup key).isSome

/-- `QJsonObject::value`, which is also the `const` subscript `o[key]`:
`undefined` for a missing key. -/
def QJsonObject.value (o : QJsonObject) (key : QString) : QJsonValue :=
  (o.lookup key).getD .undefined

/-- `QJsonObject::remove`. -/
def QJsonObject.remove (o : QJsonObject) (key : QString) : QJsonObject :=
  o.filter (fun e => e.1 != key)

/-- Placement of an entry: an existing key keeps its place and takes the new
value, a new key goes before the first larger key. -/
def QJsonObject.insertEntry : QJsonObject → QString → QJsonValue → QJsonObject
  | [], key, v => [(key, v)]
  | (k, w) :: rest, key, v =>
    if key = k then (key, v) :: rest
    else if QString.lt key k then (key, v) :: (k, w) :: rest
    else (k, w) :: QJsonObject.insertEntry rest key v

/-- `QJsonObject::insert`, which is also the assignment `o[key] = v`: inserting
`undefined` removes the key. -/
def QJsonObject.insert (o : QJsonObject) (key : QString) (v : QJsonValue) : QJsonObject :=
  if v = .undefined then QJsonObject.remove o key else QJsonObject.insertEntry o key v

/-- Effect on the object of reading through the non-`const` subscript `o[key]`:
a missing key is created with the value `null`. -/
def QJsonObject.touch (o : QJsonObject) (key : QString) : QJsonObject :=
  if QJsonObject.contains o key then o else QJsonObject.insertEntry o key .null

/-- Value read through the non-`const` subscript `o[key]`: `null` for a key that
was missing. -/
def QJsonObject.refValue (o : QJsonObject) (key : QString) : QJsonValue :=
  QJsonObject.value (QJsonObject.touch o key) key

/-- The constructor `QJsonObject { {k1, v1}, ... }`: the pairs inserted in order. -/
def QJsonObject.ofList (entries : List (QString × QJsonValue)) : QJsonObject :=
  entries.foldl (fun o e => QJsonObject.insert o e.1 e.2) []

/-- `QJsonObject::keys`. -/
def QJsonObject.keys (o : QJsonObject) : List QString := o.map Prod.fst

/-! ## QJsonDocument::fromJson -/

/-- JSON whitespace skipped. -/
def QJsonDocument.skipWs : QByteArray → QByteArray
  | [] => []
  | b :: rest =>
    if b = 32 ∨ b = 9 ∨ b = 10 ∨ b = 13 then QJsonDocument.skipWs rest else b :: rest

/-- Value of four hexadecimal digits given by their byte codes. -/
def QJsonDocument.hex4 (a b c d : Nat) : Option Nat :=
  match QUrlQuery.hexValue (Char.ofNat a), QUrlQuery.hexValue (Char.ofNat b),
    QUrlQuery.hexValue (Char.ofNat c), QUrlQuery.hexValue (Char.ofNat d) with
  | some w, some x, some y, some z => some (w * 4096 + x * 256 + y * 16 + z)
  | _, _, _, _ => none

/-- The body of a JSON string, after its opening quote: the UTF-8 bytes of the
text with the escapes resolved, and the input after the closing quote. `skip`
counts bytes already consumed by an escape. -/
def QJsonDocument.parseStringBody : QByteArray → Nat → Option (QByteArray × QByteArray)
  | [], _ => none
  | _ :: rest, skip + 1 => QJsonDocument.parseStringBody rest skip
  | b :: rest, 0 =>
    if b = 34 then some ([], rest)
    else if b < 32 then none
    else if b = 92 then
      match rest with
      | 117 :: h1 :: h2 :: h3 :: h4 :: _ =>
        match QJsonDocument.hex4 h1 h2 h3 h4 with
        | some v =>
          (QJsonDocument.parseStringBody rest 5).map
            (fun r => (QChar.toUtf8 (Char.ofNat v) ++ r.1, r.2))
        | none => none
      | e :: _ =>
        let plain : Option Nat :=
          if e = 34 ∨ e = 92 ∨ e = 47 then some e
          else if e = 98 then some 8
          else if e = 102 then some 12
          else if e = 110 then some 10
          else if e = 114 then some 13
          else if e = 116 then some 9
          else none
        match plain with
        | some v => (QJsonDocument.parseStringBody rest 1).map (fun r => (v :: r.1, r.2))
        | none => none
      | [] => none
    else (QJsonDocument.parseStringBody rest 0).map (fun r => (b :: r.1, r.2))

/-- A JSON string, after its opening quote. -/
def QJsonDocument.parseString (input : QByteArray) : Option (QString × QByteArray) :=
  (QJsonDocument.parseStringBody input 0).map (fun r => (QString.fromUtf8 r.1, r.2))

/-- The decimal digits at the head of the input, and what follows them. -/
def QJsonDocument.takeDigits : QByteArray → QByteArray × QByteArray
  | [] => ([], [])
  | b :: rest =>
    if 48 ≤ b ∧ b ≤ 57 then
      ((b :: (QJsonDocument.takeDigits rest).1), (QJsonDocument.takeDigits rest).2)
    else ([], b :: rest)

/-- A JSON number without fraction and exponent: an optional minus sign, then
`0` or digits that do not start with `0`. A number followed by `.`, `e` or `E` is
outside the model and is not parsed. -/
def QJsonDocument.parseNumber (input : QByteArray) : Option (Int × QByteArray) :=
  let neg := input.head? = some 45
  let body := if neg then input.drop 1 else input
  let ds := (QJsonDocument.takeDigits body).1
  let rest := (QJsonDocument.takeDigits body).2
  if ds.isEmpty ∨ (ds.head? = some 48 ∧ ds.length > 1) then none
  else if rest.head? = some 46 ∨ rest.head? = some 101 ∨ rest.head? = some 69 then none
  else
    let v : Int := (ds.foldl (fun acc b => acc * 10 + (b - 48)) 0 : Nat)
    some (if neg then -v else v, rest)

mutual
/-- A JSON value; `fuel` bounds the depth of the recursion. -/
def QJsonDocument.parseValue : Nat → QByteArray → Option (QJsonValue × QByteArray)
  | 0, _ => none
  | fuel + 1, input =>
    match QJsonDocument.skipWs input with
    | 123 :: rest =>
      match QJsonDocument.skipWs rest with
      | 125 :: rest2 => some (.object [], rest2)
      | rest2 => (QJsonDocument.parseMembers fuel rest2 []).map (fun r => (.object r.1, r.2))
    | 91 :: rest =>
      match QJsonDocument.skipWs rest with
      | 93 :: rest2 => some (.array [], rest2)
      | rest2 => (QJsonDocument.parseElements fuel rest2).map (fun r => (.array r.1, r.2))
    | 34 :: rest => (QJsonDocument.parseString rest).map (fun r => (.string r.1, r.2))
    | 116 :: 114 :: 117 :: 101 :: rest => some (.bool true, rest)
    | 102 :: 97 :: 108 :: 115 :: 101 :: rest => some (.bool false, rest)
    | 110 :: 117 :: 108 :: 108 :: rest => some (.null, rest)
    | rest => (QJsonDocument.parseNumber rest).map (fun r => (.double r.1, r.2))
/-- The members of a JSON object up to its closing brace, added to `acc`; a
repeated key keeps its last value. -/
def QJsonDocument.parseMembers : Nat → QByteArray → QJsonObject → Option (QJsonObject × QByteArray)
  | 0, _, _ => none
  | fuel + 1, input, acc =>
    match QJsonDocument.skipWs input with
    | 34 :: rest =>
      match QJsonDocument.parseString rest with
      | some (key, rest1) =>
        match QJsonDocument.skipWs rest1 with
        | 58 :: rest2 =>
          match QJsonDocument.parseValue fuel rest2 with
          | some (v, rest3) =>
            match QJsonDocument.skipWs rest3 with
            | 44 :: rest4 => QJsonDocument.parseMembers fuel rest4 (QJsonObject.insert acc key v)
            | 125 :: rest4 => some (QJsonObject.insert acc key v, rest4)
            | _ => none
          | none => none
        | _ => none
      | none => none
    | _ => none
/-- The elements of a JSON array up to its closing bracket. -/
def QJsonDocument.parseElements : Nat → QByteArray → Option (QJsonArray × QByteArray)
  | 0, _ => none
  | fuel + 1, input =>
    match QJsonDocument.parseValue fuel input with
    | some (v, rest) =>
      match QJsonDocument.skipWs rest with
      | 44 :: rest1 => (QJsonDocument.parseElements fuel rest1).map (fun r => (v :: r.1, r.2))
      | 93 :: rest1 => some ([v], rest1)
      | _ => none
    | none => none
end

/-- `QJsonDocument::fromJson(json).object()`: the object the text spells (after a
byte order mark, if any), and the empty object when the text is not valid JSON,
has text after the value, or spells something that is not an object. -/
def QJsonDocument.fromJsonObject (json : QByteArray) : QJsonObject :=
  let text :=
    match json with
    | 0xEF :: 0xBB :: 0xBF :: rest => rest
    | _ => json
  match QJsonDocument.parseValue (text.length + 1) text with
  | some (.object o, rest) => if (QJsonDocument.skipWs rest).isEmpty then o else []
  | _ => []

/-! ## Collaborators outside the sources: `utility.cpp`, `constants.h`, `tr` -/

/-- The translation collaborator `tr`: the source string itself (no translation
is loaded). -/
def tr (source : QString) : QString := source

/-- Modelled from the spec: the collaborators behind `Utility`, whose file
`utility.cpp` is not among the sources. Spec 4.2 names the predicates
`is_ipv4_or_ipv6_literal`, `is_domain_name` and `is_server_name_not_used` (the last
"delegated to collaborator") without fixing them, and says of the diagnostics
only what produces them, so the predicates and the texts are fields here:
`missingError label` for a field that is missing, not a string, or empty though
required; `invalidError label` for the generic "invalid label" message;
`customError template label value` for the custom template interpolated when no
predicate holds; `numericError label` for a number that is out of range or not
numeric. -/
structure Utility where
  isServerNameNotUsed : QString → Bool
  isIpAddrValid : QString → Bool
  isDomainNameValid : QString → Bool
  missingError : QString → QString
  invalidError : QString → QString
  customError : QString → QString → QString → QString
  numericError : QString → QString

/-- Modelled from the spec: `Utility::getStringConfigError` (`utility.cpp` is not
among the sources), spec 4.2 `string_field_error(doc, key, label, predicates,
optional, custom_template)`: "returns empty on success. Failure conditions and
their priority order: (1) field missing or not a string; (2) field empty and
optional=false; (3) no predicate in predicates returns true on the value. When
(3) fires and custom_template is set, the template is interpolated with the
value; otherwise a generic invalid label message." A call that passes no
predicate checks presence only, as the call sites for `id`, `security` or
`password` in `serverconfighelper.cpp` require. -/
def Utility.getStringConfigError (U : Utility) (config : QJsonObject) (key label : QString)
    (predicates : List (QString → Bool)) (optional : Bool) (customTemplate : Option QString) :
    QString :=
  match QJsonObject.value config key with
  | .string v =>
    if v.isEmpty ∧ optional = false then U.missingError label
    else if predicates.isEmpty = false ∧ predicates.all (fun p => p v = false) then
      match customTemplate with
      | some t => U.customError t label v
      | none => U.invalidError label
    else []
  | _ => U.missingError label

/-- The integer a JSON value spells, when it is "integer or numeric string"
(spec 3, `serverPort`). -/
def Utility.numericValue : QJsonValue → Option Int
  | .double n => some n
  | .string s => QString.parseInteger s
  | _ => none

/-- Modelled from the spec: `Utility::getNumericConfigError` (`utility.cpp` is not
among the sources), spec 4.2 `numeric_field_error(doc, key, label, min, max)`:
"returns empty on success; reports out-of-range or non-numeric". -/
def Utility.getNumericConfigError (U : Utility) (config : QJsonObject) (key label : QString)
    (min max : Int) : QString :=
  match Utility.numericValue (QJsonObject.value config key) with
  | some n => if min ≤ n ∧ n ≤ max then [] else U.numericError label
  | none => U.numericError label

/-- Modelled from the spec: `Utility::getAlpn` (`utility.cpp` is not among the
sources), spec 4.6: the stored `alpn` is "comma-split to array of tokens". -/
def Utility.getAlpn (alpn : QString) : List QString := QString.split alpn ','

/-- Modelled from the spec: `Utility::isAlpnValid` (`utility.cpp` is not among the
sources), spec 4.2 `is_alpn_token`: "each comma-separated element ∈
{h2,http/1.1}". -/
def Utility.isAlpnValid (alpn : QString) : Bool :=
  (Utility.getAlpn alpn).all (fun t => t == "h2".toList || t == "http/1.1".toList)

/-- Modelled from the spec: `DEFAULT_TROJRAN_SNI` of `constants.h` (not among the
sources), spec 4.4: "Defaults when absent: sni=empty". -/
def DEFAULT_TROJRAN_SNI : QJsonValue := .string []

/-- Modelled from the spec: `DEFAULT_TROJRAN_ENABLE_UDP` of `constants.h` (not
among the sources), spec 4.4: "udp=false". -/
def DEFAULT_TROJRAN_ENABLE_UDP : QJsonValue := .bool false

/-- Modelled from the spec: `DEFAULT_TROJRAN_ALPN` of `constants.h` (not among the
sources), spec 4.4: "alpn=h2,http/1.1". -/
def DEFAULT_TROJRAN_ALPN : QJsonValue := .string "h2,http/1.1".toList

/-- Modelled from the spec: `DEFAULT_TROJRAN_ALLOW_INSECURE` of `constants.h` (not
among the sources), spec 4.4: "allowInsecure=false". -/
def DEFAULT_TROJRAN_ALLOW_INSECURE : QJsonValue := .bool false

/-- Modelled from the spec: the KCP defaults `DEFAULT_V2RAY_KCP_*` of `constants.h`
(not among the sources). Spec 4.5 says "with defaults" and gives no values, so
they are parameters. -/
structure KcpDefaults where
  DEFAULT_V2RAY_KCP_MTU : Int
  DEFAULT_V2RAY_KCP_TTI : Int
  DEFAULT_V2RAY_KCP_UP_CAPACITY : Int
  DEFAULT_V2RAY_KCP_DOWN_CAPACITY : Int
  DEFAULT_V2RAY_KCP_READ_BUF_SIZE : Int

/-- A sample of the collaborators, for evaluating the validators on concrete
records: the names in use are listed, an address is valid when it is not empty,
each plain diagnostic is a short text that starts with its kind, and a custom
template is interpolated with the value, as spec 4.2 has it. -/
def Utility.sample (used : List QString) : Utility where
  isServerNameNotUsed := fun s => !used.contains s
  isIpAddrValid := fun _ => false
  isDomainNameValid := fun s => !s.isEmpty
  missingError := fun label => "missing:".toList ++ label
  invalidError := fun label => "invalid:".toList ++ label
  customError := fun t _ v => QString.multiArg t [v]
  numericError := fun label => "number:".toList ++ label

/-! ## ServerConfigHelper -/

namespace ServerConfigHelper

/-- The protocol tag `ServerConfigHelper::Protocol`. -/
inductive Protocol where
  | VMESS
  | SHADOWSOCKS
  | TROJAN
  | UNKNOWN
deriving DecidableEq, Repr

/-- The custom template of the name-uniqueness check. -/
def usedNameTemplate : QString := "The '%1' has been used by another server.".toList

/-- `ServerConfigHelper::getServerNameError`; `pServerName` is the name the
record had before an edit (`none` for the null pointer). -/
def getServerNameError (U : Utility) (serverConfig : QJsonObject)
    (pServerName : Option QString) : QString :=
  let plain := U.getStringConfigError serverConfig "serverName".toList
    (tr "Server Name".toList) [] false none
  let unique := U.getStringConfigError serverConfig "serverName".toList
    (tr "Server Name".toList) [U.isServerNameNotUsed] false (some (tr usedNameTemplate))
  match pServerName with
  | some oldName =>
    if (QJsonObject.value serverConfig "serverName".toList).toString = oldName then plain
    else unique
  | none => unique

/-- `ServerConfigHelper::getProtocol`. -/
def getProtocol (protocol : QString) : Protocol :=
  let protocol := QString.toLower protocol
  if protocol = "vmess".toList ∨ protocol = "v2ray".toList then Protocol.VMESS
  else if protocol = "shadowsocks".toList ∨ protocol = "ss".toList
      ∨ protocol = "shadowsocksr".toList ∨ protocol = "ssr".toList then Protocol.SHADOWSOCKS
  else if protocol = "trojan".toList then Protocol.TROJAN
  else Protocol.UNKNOWN

/-- `ServerConfigHelper::getV2RayStreamSettingsErrors`. -/
def getV2RayStreamSettingsErrors (U : Utility) (serverConfig : QJsonObject)
    (network : QString) : List QString :=
  let errors : List QString := []
  let errors :=
    if network ≠ "tcp".toList ∧ network ≠ "ws".toList then
      errors ++ [QString.multiArg (tr "Unspoorted 'Network': %1.".toList) [network]]
    else errors
  let errors :=
    if network = "ws".toList then
      errors ++ [U.getStringConfigError serverConfig "networkHost".toList (tr "Host".toList)
          [U.isDomainNameValid] true none]
        ++ [U.getStringConfigError serverConfig "networkPath".toList (tr "Path".toList)
          [] true none]
    else errors
  errors

/-- The diagnostics of the VMess field checks in schema order: serverName,
serverAddr, serverPort, id, alterId, security, network, networkSecurity,
tcpHeaderType, then the stream-settings checks. -/
def v2RayChecks (U : Utility) (serverConfig : QJsonObject) (serverName : Option QString) :
    List QString :=
  [getServerNameError U serverConfig serverName,
   U.getStringConfigError serverConfig "serverAddr".toList (tr "Server Address".toList)
     [U.isIpAddrValid, U.isDomainNameValid] false none,
   U.getNumericConfigError serverConfig "serverPort".toList (tr "Server Port".toList) 0 65535,
   U.getStringConfigError serverConfig "id".toList (tr "ID".toList) [] false none,
   U.getNumericConfigError serverConfig "alterId".toList (tr "Alter ID".toList) 0 65535,
   U.getStringConfigError serverConfig "security".toList (tr "Security".toList) [] false none,
   U.getStringConfigError serverConfig "network".toList (tr "Network".toList) [] false none,
   U.getStringConfigError serverConfig "networkSecurity".toList
     (tr "Network Security".toList) [] false none,
   U.getStringConfigError serverConfig "tcpHeaderType".toList (tr "TCP Header".toList)
     [] false none]
  ++ getV2RayStreamSettingsErrors U serverConfig
      (QJsonObject.value serverConfig "network".toList).toString

/-- `QStringList::removeAll("")`. -/
def removeAllEmpty (errors : List QString) : List QString :=
  errors.filter (fun e => e != [])

/-- `ServerConfigHelper::getV2RayServerConfigErrors`: each check is appended to
`errors`, the stream-settings list last, then the empty messages are removed. -/
def getV2RayServerConfigErrors (U : Utility) (serverConfig : QJsonObject)
    (serverName : Option QString) : List QString :=
  let errors : List QString := []
  let errors := errors ++ [getServerNameError U serverConfig serverName]
  let errors := errors ++ [U.getStringConfigError serverConfig "serverAddr".toList
    (tr "Server Address".toList) [U.isIpAddrValid, U.isDomainNameValid] false none]
  let errors := errors ++ [U.getNumericConfigError serverConfig "serverPort".toList
    (tr "Server Port".toList) 0 65535]
  let errors := errors ++ [U.getStringConfigError serverConfig "id".toList (tr "ID".toList)
    [] false none]
  let errors := errors ++ [U.getNumericConfigError serverConfig "alterId".toList
    (tr "Alter ID".toList) 0 65535]
  let errors := errors ++ [U.getStringConfigError serverConfig "security".toList
    (tr "Security".toList) [] false none]
  let errors := errors ++ [U.getStringConfigError serverConfig "network".toList
    (tr "Network".toList) [] false none]
  let errors := errors ++ [U.getStringConfigError serverConfig "networkSecurity".toList
    (tr "Network Security".toList) [] false none]
  let errors := errors ++ [U.getStringConfigError serverConfig "tcpHeaderType".toList
    (tr "TCP Header".toList) [] false none]
  let errors := errors ++ getV2RayStreamSettingsErrors U serverConfig
    (QJsonObject.value serverConfig "network".toList).toString
  removeAllEmpty errors

/-- The diagnostics of the Shadowsocks field checks in schema order: serverName,
serverAddr, serverPort, encryption, password. -/
def shadowsocksChecks (U : Utility) (serverConfig : QJsonObject)
    (pServerName : Option QString) : List QString :=
  [getServerNameError U serverConfig pServerName,
   U.getStringConfigError serverConfig "serverAddr".toList (tr "Server Address".toList)
     [U.isIpAddrValid, U.isDomainNameValid] false none,
   U.getNumericConfigError serverConfig "serverPort".toList (tr "Server Port".toList) 0 65535,
   U.getStringConfigError serverConfig "encryption".toList (tr "Security".toList)
     [] false none,
   U.getStringConfigError serverConfig "password".toList (tr "Password".toList) [] false none]

/-- `ServerConfigHelper::getShadowsocksServerConfigErrors`. -/
def getShadowsocksServerConfigErrors (U : Utility) (serverConfig : QJsonObject)
    (pServerName : Option QString) : List QString :=
  let errors : List QString := []
  let errors := errors ++ [getServerNameError U serverConfig pServerName]
  let errors := errors ++ [U.getStringConfigError serverConfig "serverAddr".toList
    (tr "Server Address".toList) [U.isIpAddrValid, U.isDomainNameValid] false none]
  let errors := errors ++ [U.getNumericConfigError serverConfig "serverPort".toList
    (tr "Server Port".toList) 0 65535]
  let errors := errors ++ [U.getStringConfigError serverConfig "encryption".toList
    (tr "Security".toList) [] false none]
  let errors := errors ++ [U.getStringConfigError serverConfig "password".toList
    (tr "Password".toList) [] false none]
  removeAllEmpty errors

/-- The diagnostics of the Trojan field checks in schema order: serverName,
serverAddr, serverPort, password, sni, alpn. -/
def trojanChecks (U : Utility) (serverConfig : QJsonObject) (pServerName : Option QString) :
    List QString :=
  [getServerNameError U serverConfig pServerName,
   U.getStringConfigError serverConfig "serverAddr".toList (tr "Server Address".toList)
     [U.isIpAddrValid, U.isDomainNameValid] false none,
   U.getNumericConfigError serverConfig "serverPort".toList (tr "Server Port".toList) 0 65535,
   U.getStringConfigError serverConfig "password".toList (tr "Password".toList) [] false none,
   U.getStringConfigError serverConfig "sni".toList (tr "SNI".toList)
     [U.isIpAddrValid, U.isDomainNameValid] true none,
   U.getStringConfigError serverConfig "alpn".toList (tr "ALPN".toList)
     [Utility.isAlpnValid] false none]

/-- `ServerConfigHelper::getTrojanServerConfigErrors`. -/
def getTrojanServerConfigErrors (U : Utility) (serverConfig : QJsonObject)
    (pServerName : Option QString) : List QString :=
  let errors : List QString := []
  let errors := errors ++ [getServerNameError U serverConfig pServerName]
  let errors := errors ++ [U.getStringConfigError serverConfig "serverAddr".toList
    (tr "Server Address".toList) [U.isIpAddrValid, U.isDomainNameValid] false none]
  let errors := errors ++ [U.getNumericConfigError serverConfig "serverPort".toList
    (tr "Server Port".toList) 0 65535]
  let errors := errors ++ [U.getStringConfigError serverConfig "password".toList
    (tr "Password".toList) [] false none]
  let errors := errors ++ [U.getStringConfigError serverConfig "sni".toList
    (tr "SNI".toList) [U.isIpAddrValid, U.isDomainNameValid] true none]
  let errors := errors ++ [U.getStringConfigError serverConfig "alpn".toList
    (tr "ALPN".toList) [Utility.isAlpnValid] false none]
  removeAllEmpty errors

/-- `ServerConfigHelper::getServerConfigErrors`. -/
def getServerConfigErrors (U : Utility) (protocol : Protocol) (serverConfig : QJsonObject)
    (pServerName : Option QString) : List QString :=
  if protocol = Protocol.VMESS then getV2RayServerConfigErrors U serverConfig pServerName
  else if protocol = Protocol.SHADOWSOCKS then
    getShadowsocksServerConfigErrors U serverConfig pServerName
  else if protocol = Protocol.TROJAN then getTrojanServerConfigErrors U serverConfig pServerName
  else [tr "Unknown Server protocol".toList]

/-- The `OPERATING_SYSTEMS` list of `getRandomUserAgents`. -/
def OPERATING_SYSTEMS : List QString :=
  ["Macintosh; Intel Mac OS X 10_15".toList, "X11; Linux x86_64".toList,
   "Windows NT 10.0; Win64; x64".toList]

/-- The user agent template of `getRandomUserAgents`. -/
def userAgentTemplate : QString :=
  ("Mozilla/5.0 (%1) AppleWebKit/537.36 (KHTML, "
    ++ "like Gecko) Chrome/%2.0.%3.%4 Safari/537.36").toList

/-- The loop of `getRandomUserAgents`: `count` iterations are left and `std::rand`
has been called `calls` times; `rand k` is the value of its `k`-th call. -/
def getRandomUserAgentsLoop (rand : Nat → Nat) : Nat → Nat → QJsonArray
  | 0, _ => []
  | count + 1, calls =>
    let osIndex := rand calls % 3
    let chromeMajorVersion := rand (calls + 1) % 30 + 50
    let chromeBuildVersion := rand (calls + 2) % 4000 + 1000
    let chromePatchVersion := rand (calls + 3) % 100
    QJsonValue.string (QString.multiArg userAgentTemplate
        [(OPERATING_SYSTEMS.get? osIndex).getD [], QString.number chromeMajorVersion,
         QString.number chromeBuildVersion, QString.number chromePatchVersion])
      :: getRandomUserAgentsLoop rand count (calls + 4)

/-- `ServerConfigHelper::getRandomUserAgents`, with the random source explicit. -/
def getRandomUserAgents (rand : Nat → Nat) (n : Int) : QJsonArray :=
  getRandomUserAgentsLoop rand n.toNat 0

/-- The host list of the `http-opts` block. -/
def httpHosts : QJsonArray :=
  ["www.baidu.com", "www.bing.com", "www.163.com", "www.netease.com", "www.qq.com",
   "www.tencent.com", "www.taobao.com", "www.tmall.com", "www.alibaba-inc.com",
   "www.aliyun.com", "www.sensetime.com", "www.megvii.com"].map
    (fun h => QJsonValue.string h.toList)

/-- `ServerConfigHelper::getPrettyV2RayConfig`, with the random source explicit. -/
def getPrettyV2RayConfig (rand : Nat → Nat) (serverConfig : QJsonObject) : QJsonObject :=
  let v2RayConfig := QJsonObject.ofList [
    ("autoConnect".toList, .bool (QJsonObject.value serverConfig "autoConnect".toList).toBool),
    ("subscription".toList,
      .string (if QJsonObject.contains serverConfig "subscription".toList
        then (QJsonObject.value serverConfig "subscription".toList).toString else [])),
    ("name".toList, .string (QJsonObject.value serverConfig "serverName".toList).toString),
    ("type".toList, .string "vmess".toList),
    ("udp".toList, .bool (QJsonObject.value serverConfig "udp".toList).toBool),
    ("server".toList, .string (QJsonObject.value serverConfig "serverAddr".toList).toString),
    ("port".toList,
      .double (QJsonObject.value serverConfig "serverPort".toList).toVariantToInt),
    ("uuid".toList, .string (QJsonObject.value serverConfig "id".toList).toString),
    ("alterId".toList,
      .double (QJsonObject.value serverConfig "alterId".toList).toVariantToInt),
    ("cipher".toList,
      .string (QString.toLower (QJsonObject.value serverConfig "security".toList).toString)),
    ("tls".toList,
      .bool (QString.toLower (QJsonObject.value serverConfig "networkSecurity".toList).toString
        == "tls".toList)),
    ("skip-cert-verify".toList,
      .bool (QJsonObject.value serverConfig "allowInsecure".toList).toBool)]
  let network := (QJsonObject.value serverConfig "network".toList).toString
  let tcpHeader := (QJsonObject.value serverConfig "tcpHeaderType".toList).toString
  if network = "ws".toList then
    let v2RayConfig := QJsonObject.insert v2RayConfig "network".toList (.string "ws".toList)
    let v2RayConfig := QJsonObject.insert v2RayConfig "ws-path".toList
      (.string (QJsonObject.value serverConfig "networkPath".toList).toString)
    QJsonObject.insert v2RayConfig "ws-headers".toList
      (.object (QJsonObject.ofList [("Host".toList,
        .string (QJsonObject.value serverConfig "networkHost".toList).toString)]))
  else if network = "tcp".toList ∧ tcpHeader = "none".toList then
    QJsonObject.insert v2RayConfig "network".toList (.string "tcp".toList)
  else if network = "tcp".toList ∧ tcpHeader = "http".toList then
    let v2RayConfig := QJsonObject.insert v2RayConfig "network".toList (.string "http".toList)
    QJsonObject.insert v2RayConfig "http-opts".toList
      (.object (QJsonObject.ofList [
        ("method".toList, .string "GET".toList),
        ("headers".toList, .object (QJsonObject.ofList [
          ("host".toList, .array httpHosts),
          ("User-Agent".toList, .array (getRandomUserAgents rand 24)),
          ("Accept-Encoding".toList, .array [.string "gzip, deflate".toList]),
          ("Connection".toList, .array [.string "keep-alive".toList])]))]))
  else v2RayConfig

/-- The `NETWORK_MAPPER` table of `getV2RayServerConfigFromUrl`. -/
def NETWORK_MAPPER : List (QString × QString) :=
  [("tcp".toList, "tcp".toList), ("kcp".toList, "kcp".toList), ("ws".toList, "ws".toList),
   ("h2".toList, "http".toList), ("quic".toList, "quic".toList)]

/-- The record `getV2RayServerConfigFromUrl` builds from the decoded payload
object. `rawServerConfig` is not `const` in the source, so the unguarded read
`rawServerConfig["port"]` creates the key `port` when it is missing; the later
test `rawServerConfig.contains("port")` sees the object after that read. -/
def getV2RayServerConfigFromRaw (rawServerConfig : QJsonObject) (subscriptionUrl : QString) :
    QJsonObject :=
  let network :=
    if QJsonObject.contains rawServerConfig "net".toList
    then (QJsonObject.value rawServerConfig "net".toList).toString else "tcp".toList
  let serverAddr :=
    if QJsonObject.contains rawServerConfig "add".toList
    then (QJsonObject.value rawServerConfig "add".toList).toString else []
  let rawServerConfig := QJsonObject.touch rawServerConfig "port".toList
  let serverPort :=
    if (QJsonObject.value rawServerConfig "port".toList).isString
    then (QJsonObject.value rawServerConfig "port".toList).toString
    else QString.number (QJsonObject.value rawServerConfig "port".toList).toInt
  let alterId : Int :=
    if QJsonObject.contains rawServerConfig "aid".toList then
      (if (QJsonObject.value rawServerConfig "aid".toList).isString
       then QString.toInt (QJsonObject.value rawServerConfig "aid".toList).toString
       else (QJsonObject.value rawServerConfig "aid".toList).toInt)
    else 0
  QJsonObject.ofList [
    ("autoConnect".toList, .bool false),
    ("serverName".toList,
      .string (if QJsonObject.contains rawServerConfig "ps".toList
        then QString.trimmed (QJsonObject.value rawServerConfig "ps".toList).toString
        else serverAddr)),
    ("serverAddr".toList, .string serverAddr),
    ("serverPort".toList,
      .string (if QJsonObject.contains rawServerConfig "port".toList then serverPort else [])),
    ("subscription".toList, .string subscriptionUrl),
    ("id".toList,
      .string (if QJsonObject.contains rawServerConfig "id".toList
        then (QJsonObject.value rawServerConfig "id".toList).toString else [])),
    ("alterId".toList, .double alterId),
    ("udp".toList, .bool false),
    ("security".toList, .string "auto".toList),
    ("network".toList,
      .string (if (NETWORK_MAPPER.lookup network).isSome
        then (NETWORK_MAPPER.lookup network).getD [] else "tcp".toList)),
    ("networkHost".toList,
      .string (if QJsonObject.contains rawServerConfig "host".toList
        then (QJsonObject.value rawServerConfig "host".toList).toString else [])),
    ("networkPath".toList,
      .string (if QJsonObject.contains rawServerConfig "path".toList
        then (QJsonObject.value rawServerConfig "path".toList).toString else [])),
    ("tcpHeaderType".toList,
      .string (if QJsonObject.contains rawServerConfig "type".toList
        then (QJsonObject.value rawServerConfig "type".toList).toString else [])),
    ("networkSecurity".toList,
      .string (if QJsonObject.contains rawServerConfig "tls".toList
          ∧ (QJsonObject.value rawServerConfig "tls".toList).toString.isEmpty = false
        then "tls".toList else "none".toList))]

/-- `ServerConfigHelper::getV2RayServerConfigFromUrl`: the payload after the eight
characters of `vmess://` is base64-decoded and read as a JSON object. -/
def getV2RayServerConfigFromUrl (server subscriptionUrl : QString) : QJsonObject :=
  getV2RayServerConfigFromRaw
    (QJsonDocument.fromJsonObject
      (QByteArray.fromBase64 (QString.toUtf8 (QString.midFrom server 8))))
    subscriptionUrl

/-- `ServerConfigHelper::isShadowsocksR`. -/
def isShadowsocksR (serverConfig : QJsonObject) : Bool :=
  if QJsonObject.contains serverConfig "plugins".toList = false then false
  else
    let plugins := (QJsonObject.value serverConfig "plugins".toList).toObject
    QJsonObject.contains plugins "protocol".toList

/-- `ServerConfigHelper::getPrettyShadowsocksConfig`. -/
def getPrettyShadowsocksConfig (serverConfig : QJsonObject) : QJsonObject :=
  let isSSR := isShadowsocksR serverConfig
  let prettyServerCfg := QJsonObject.ofList [
    ("autoConnect".toList, .bool (QJsonObject.value serverConfig "autoConnect".toList).toBool),
    ("subscription".toList,
      .string (if QJsonObject.contains serverConfig "subscription".toList
        then (QJsonObject.value serverConfig "subscription".toList).toString else [])),
    ("name".toList, .string (QJsonObject.value serverConfig "serverName".toList).toString),
    ("type".toList, .string (if isSSR then "ssr".toList else "ss".toList)),
    ("server".toList, .string (QJsonObject.value serverConfig "serverAddr".toList).toString),
    ("port".toList,
      .double (QJsonObject.value serverConfig "serverPort".toList).toVariantToInt),
    ("cipher".toList,
      .string (QString.toLower (QJsonObject.value serverConfig "encryption".toList).toString)),
    ("password".toList, .string (QJsonObject.value serverConfig "password".toList).toString)]
  -- Parse Shadowsocks Plugins
  let prettyServerCfg :=
    if isSSR = false ∧ QJsonObject.contains serverConfig "plugins".toList then
      let plugins := (QJsonObject.value serverConfig "plugins".toList).toObject
      if QJsonObject.contains plugins "obfs".toList
          ∧ (QJsonObject.value plugins "obfs".toList).toString.isEmpty = false then
        let prettyServerCfg :=
          QJsonObject.insert prettyServerCfg "plugin".toList (.string "obfs".toList)
        let pluginOpts : QJsonObject := []
        let pluginOpts := QJsonObject.insert pluginOpts "mode".toList
          (.string (QJsonObject.value plugins "obfs".toList).toString)
        let pluginOpts :=
          if QJsonObject.contains plugins "obfs-host".toList
              ∧ (QJsonObject.value plugins "obfs-host".toList).toString.length ≠ 0 then
            QJsonObject.insert pluginOpts "host".toList
              (.string (QJsonObject.value plugins "obfs-host".toList).toString)
          else pluginOpts
        QJsonObject.insert prettyServerCfg "plugin-opts".toList (.object pluginOpts)
      else prettyServerCfg
    else prettyServerCfg
  -- Parse ShadowsocksR (SSR)
  if isSSR then
    let plugins := (QJsonObject.value serverConfig "plugins".toList).toObject
    let prettyServerCfg := QJsonObject.insert prettyServerCfg "obfs".toList
      (.string (QString.toLower (QJsonObject.value plugins "obfs".toList).toString))
    let prettyServerCfg := QJsonObject.insert prettyServerCfg "protocol".toList
      (.string (QString.toLower (QJsonObject.value plugins "protocol".toList).toString))
    let prettyServerCfg :=
      if QJsonObject.contains plugins "obfsparam".toList
          ∧ (QJsonObject.value plugins "obfsparam".toList).toString.length ≠ 0 then
        QJsonObject.insert prettyServerCfg "obfs-param".toList
          (.string (QJsonObject.value plugins "obfsparam".toList).toString)
      else prettyServerCfg
    let prettyServerCfg :=
      if QJsonObject.contains plugins "protoparam".toList
          ∧ (QJsonObject.value plugins "protoparam".toList).toString.length ≠ 0 then
        QJsonObject.insert prettyServerCfg "protocol-param".toList
          (.string (QString.toLower (QJsonObject.value plugins "protoparam".toList).toString))
      else prettyServerCfg
    if QJsonObject.contains plugins "udp".toList then
      QJsonObject.insert prettyServerCfg "udp".toList
        (.bool (QJsonObject.value plugins "udp".toList).toBool)
    else prettyServerCfg
  else prettyServerCfg

/-- The inner loop of `getShadowsocksPlugins`: each option `k=v` (exactly two
parts around `=`) is stored as `plugins[k] = v`. -/
def getShadowsocksPluginOptions (plugins : QJsonObject) (options : List QString) :
    QJsonObject :=
  options.foldl
    (fun plugins o =>
      let t := QString.split o '='
      if t.length = 2 then
        QJsonObject.insert plugins ((t.get? 0).getD []) (.string ((t.get? 1).getD []))
      else plugins)
    plugins

/-- `ServerConfigHelper::getShadowsocksPlugins`. -/
def getShadowsocksPlugins (pluginString : QString) : QJsonObject :=
  (QUrlQuery.queryItems pluginString).foldl
    (fun plugins p =>
      if p.1 = "plugin".toList then
        getShadowsocksPluginOptions plugins
          (QString.split (QUrl.fromPercentEncoding (QString.toUtf8 p.2)) ';')
      else plugins)
    []

/-- `ServerConfigHelper::getShadowsocksServerConfigFromUrl`. -/
def getShadowsocksServerConfigFromUrl (serverUrl subscriptionUrl : QString) : QJsonObject :=
  let serverUrl := QString.midFrom serverUrl 5
  let atIndex := QString.indexOf serverUrl '@'
  let colonIndex := QString.indexOf serverUrl ':'
  let splashIndex := QString.indexOf serverUrl '/'
  let sharpIndex := QString.indexOf serverUrl '#'
  let questionMarkIndex := QString.indexOf serverUrl '?'
  let confidential := QString.fromByteArray
    (QByteArray.fromBase64 (QString.toUtf8 (QString.left serverUrl atIndex)))
  let serverAddr := QString.mid serverUrl (atIndex + 1) (colonIndex - atIndex - 1)
  let serverPort := QString.mid serverUrl (colonIndex + 1)
    (if splashIndex ≠ -1 then splashIndex - colonIndex - 1 else sharpIndex - colonIndex - 1)
  let plugins := QString.mid serverUrl (questionMarkIndex + 1)
    (sharpIndex - questionMarkIndex - 1)
  let serverName := QString.trimmed
    (QUrl.fromPercentEncoding (QString.toUtf8 (QString.midFrom serverUrl (sharpIndex + 1))))
  let colonIndex := QString.indexOf confidential ':'
  let encryption := QString.left confidential colonIndex
  let password := QString.midFrom confidential (colonIndex + 1)
  let serverConfig := QJsonObject.ofList [
    ("serverName".toList, .string serverName),
    ("autoConnect".toList, .bool false),
    ("subscription".toList, .string subscriptionUrl),
    ("serverAddr".toList, .string serverAddr),
    ("serverPort".toList, .string serverPort),
    ("encryption".toList, .string encryption),
    ("password".toList, .string password)]
  let pluginOptions := getShadowsocksPlugins plugins
  if pluginOptions.isEmpty = false then
    QJsonObject.insert serverConfig "plugins".toList (.object pluginOptions)
  else serverConfig

/-- The first statements of `getShadowsocksRServerConfigFromUrl`: the text that
the payload `server` decodes to. When the first decoding gives nothing
("Failed to parse the SSR URL"), the payload is decoded again with every `_`
replaced by `/`. -/
def getShadowsocksRPayloadText (server : QString) : QString :=
  let serverUrl := QString.fromByteArray (QByteArray.fromBase64 (QString.toUtf8 server))
  -- Failed to parse the SSR URL
  if serverUrl.length = 0 then
    QString.fromByteArray
      (QByteArray.fromBase64 (QString.toUtf8 (QString.replace server '_' '/')))
  else serverUrl

/-- The rest of `getShadowsocksRServerConfigFromUrl`, from `int sepIndex` on: the
record for the decoded text `serverUrl`. -/
def getShadowsocksRServerConfigFromText (serverUrl subscriptionUrl : QString) : QJsonObject :=
  let sepIndex := QString.indexOfStr serverUrl "/?".toList
  let essentialServerCfg := QString.split (QString.left serverUrl sepIndex) ':'
  if essentialServerCfg.length ≠ 6 then []
  else
    let serverAddr := (essentialServerCfg.get? 0).getD []
    let serverPort := QString.toInt ((essentialServerCfg.get? 1).getD [])
    let serverName := QString.multiArg "%1:%2".toList [serverAddr, QString.number serverPort]
    let serverConfig := QJsonObject.ofList [
      ("serverName".toList, .string serverName),
      ("autoConnect".toList, .bool false),
      ("subscription".toList, .string subscriptionUrl),
      ("serverAddr".toList, .string serverAddr),
      ("serverPort".toList, .double serverPort),
      ("encryption".toList, .string ((essentialServerCfg.get? 3).getD [])),
      ("password".toList, .string ((essentialServerCfg.get? 5).getD [])),
      ("plugins".toList, .object (QJsonObject.ofList [
        ("obfs".toList, .string ((essentialServerCfg.get? 4).getD [])),
        ("protocol".toList, .string ((essentialServerCfg.get? 2).getD []))]))]
    let optionalServerCfg := QString.midFrom serverUrl (sepIndex + 2)
    (QUrlQuery.queryItems optionalServerCfg).foldl
      (fun serverConfig p => QJsonObject.insert serverConfig p.1 (.string p.2))
      serverConfig

/-- `ServerConfigHelper::getShadowsocksRServerConfigFromUrl`: the payload after
the six characters of `ssr://` is decoded, then read. -/
def getShadowsocksRServerConfigFromUrl (server subscriptionUrl : QString) : QJsonObject :=
  getShadowsocksRServerConfigFromText
    (getShadowsocksRPayloadText (QString.midFrom server 6)) subscriptionUrl

/-- `ServerConfigHelper::getPrettyTrojanConfig`. -/
def getPrettyTrojanConfig (serverConfig : QJsonObject) : QJsonObject :=
  let alpn : QJsonArray :=
    (Utility.getAlpn (QJsonObject.value serverConfig "alpn".toList).toString).map
      QJsonValue.string
  QJsonObject.ofList [
    ("autoConnect".toList, .bool (QJsonObject.value serverConfig "autoConnect".toList).toBool),
    ("subscription".toList,
      .string (if QJsonObject.contains serverConfig "subscription".toList
        then (QJsonObject.value serverConfig "subscription".toList).toString else [])),
    ("name".toList, .string (QJsonObject.value serverConfig "serverName".toList).toString),
    ("type".toList, .string "trojan".toList),
    ("server".toList, .string (QJsonObject.value serverConfig "serverAddr".toList).toString),
    ("port".toList,
      .double (QJsonObject.value serverConfig "serverPort".toList).toVariantToInt),
    ("password".toList, .string (QJsonObject.value serverConfig "password".toList).toString),
    ("sni".toList, .string (QJsonObject.value serverConfig "sni".toList).toString),
    ("udp".toList, .bool (QJsonObject.value serverConfig "udp".toList).toBool),
    ("alpn".toList, .array alpn),
    ("skip-cert-verify".toList,
      .bool (QJsonObject.value serverConfig "allowInsecure".toList).toBool)]

/-- `ServerConfigHelper::getTrojanOptions`. -/
def getTrojanOptions (optionString : QString) : QJsonObject :=
  let options := QJsonObject.ofList [
    ("sni".toList, DEFAULT_TROJRAN_SNI),
    ("udp".toList, DEFAULT_TROJRAN_ENABLE_UDP),
    ("alpn".toList, DEFAULT_TROJRAN_ALPN),
    ("allowInsecure".toList, DEFAULT_TROJRAN_ALLOW_INSECURE)]
  (QUrlQuery.queryItems optionString).foldl
    (fun options p =>
      if QJsonObject.contains options p.1 then QJsonObject.insert options p.1 (.string p.2)
      else options)
    options

/-- `ServerConfigHelper::getTrojanServerConfigFromUrl`. -/
def getTrojanServerConfigFromUrl (serverUrl subscriptionUrl : QString) : QJsonObject :=
  let serverUrl := QString.midFrom serverUrl 9
  let atIndex := QString.indexOf serverUrl '@'
  let colonIndex := QString.indexOf serverUrl ':'
  let sharpIndex := QString.indexOf serverUrl '#'
  let questionMarkIndex :=
    if QString.indexOf serverUrl '?' = -1 then sharpIndex else QString.indexOf serverUrl '?'
  let password := QString.left serverUrl atIndex
  let serverAddr := QString.mid serverUrl (atIndex + 1) (colonIndex - atIndex - 1)
  let serverPort := QString.mid serverUrl (colonIndex + 1) (questionMarkIndex - colonIndex - 1)
  let options := QString.mid serverUrl (questionMarkIndex + 1)
    (sharpIndex - questionMarkIndex - 1)
  let serverName := QString.trimmed
    (QUrl.fromPercentEncoding (QString.toUtf8 (QString.midFrom serverUrl (sharpIndex + 1))))
  let serverConfig := QJsonObject.ofList [
    ("serverName".toList, .string serverName),
    ("autoConnect".toList, .bool false),
    ("subscription".toList, .string subscriptionUrl),
    ("serverAddr".toList, .string serverAddr),
    ("serverPort".toList, .string serverPort),
    ("password".toList, .string password)]
  let serverOptions := getTrojanOptions options
  serverOptions.foldl (fun serverConfig e => QJsonObject.insert serverConfig e.1 e.2)
    serverConfig

/-- `ServerConfigHelper::getV2RayServerSettingsFromConfig`. -/
def getV2RayServerSettingsFromConfig (settings : QJsonObject) : QJsonObject :=
  let server : QJsonObject := []
  let vnext := (QJsonObject.value settings "vnext".toList).toArray
  if vnext.length ≠ 0 then
    let _server := (QJsonArray.at vnext 0).toObject
    let server := QJsonObject.insert server "serverAddr".toList
      (.string (QJsonObject.value _server "address".toList).toString)
    let server := QJsonObject.insert server "serverPort".toList
      (.double (QJsonObject.value _server "port".toList).toVariantToInt)
    let server := QJsonObject.insert server "serverName".toList
      (.string (QString.multiArg "%1:%2".toList
        [(QJsonObject.value server "serverAddr".toList).toString,
         QString.number (QJsonObject.value server "serverPort".toList).toInt]))
    let users := (QJsonObject.value _server "users".toList).toArray
    if users.length ≠ 0 then
      let user := (QJsonArray.at users 0).toObject
      let server := QJsonObject.insert server "id".toList
        (.string (QJsonObject.value user "id".toList).toString)
      let server := QJsonObject.insert server "alterId".toList
        (.double (QJsonObject.value user "alterId".toList).toVariantToInt)
      QJsonObject.insert server "security".toList
        (.string (if QJsonObject.contains user "security".toList
          then (QJsonObject.value user "security".toList).toString else "auto".toList))
    else server
  else server

/-- The integer setting `s[key]` of the KCP block, or its default. -/
def kcpSetting (kcpSettings : QJsonObject) (key : QString) (dflt : Int) : QJsonValue :=
  .double (if QJsonObject.contains kcpSettings key
    then (QJsonObject.value kcpSettings key).toVariantToInt else dflt)

/-- `ServerConfigHelper::getV2RayStreamSettingsFromConfig`, with the parameter
names of the source: the first is called `transport`, the second
`streamSettings`. The settings objects are local and not `const`, so a value
taken by reference (`tlsSettings["allowInsecure"]`, `wsSettings["path"]`) is
`null` when its key is missing. -/
def getV2RayStreamSettingsFromConfig (K : KcpDefaults) (transport streamSettings : QJsonObject) :
    QJsonObject :=
  let _streamSettings := if streamSettings.isEmpty then transport else streamSettings
  let serverStreamSettings : QJsonObject := []
  let network :=
    if QJsonObject.contains _streamSettings "network".toList
    then (QJsonObject.value _streamSettings "network".toList).toString else "tcp".toList
  let serverStreamSettings :=
    QJsonObject.insert serverStreamSettings "network".toList (.string network)
  let serverStreamSettings := QJsonObject.insert serverStreamSettings "networkSecurity".toList
    (.string (if QJsonObject.contains _streamSettings "security".toList
      then (QJsonObject.value _streamSettings "security".toList).toString else "none".toList))
  let serverStreamSettings :=
    QJsonObject.insert serverStreamSettings "allowInsecure".toList (.bool true)
  let serverStreamSettings :=
    if QJsonObject.contains _streamSettings "tlsSettings".toList then
      let tlsSettings := (QJsonObject.value _streamSettings "tlsSettings".toList).toObject
      QJsonObject.insert serverStreamSettings "allowInsecure".toList
        (QJsonObject.refValue tlsSettings "allowInsecure".toList)
    else serverStreamSettings
  if network = "tcp".toList then
    let tcpSettings := (QJsonObject.value _streamSettings "tcpSettings".toList).toObject
    let header := (QJsonObject.value tcpSettings "header".toList).toObject
    QJsonObject.insert serverStreamSettings "tcpHeaderType".toList
      (.string (if QJsonObject.contains header "type".toList
        then (QJsonObject.value header "type".toList).toString else "none".toList))
  else if network = "kcp".toList then
    let kcpSettings := (QJsonObject.value _streamSettings "kcpSettings".toList).toObject
    let header := (QJsonObject.value kcpSettings "header".toList).toObject
    let kcpSettings := QJsonObject.touch kcpSettings "header".toList
    let serverStreamSettings := QJsonObject.insert serverStreamSettings "kcpMtu".toList
      (kcpSetting kcpSettings "mtu".toList K.DEFAULT_V2RAY_KCP_MTU)
    let serverStreamSettings := QJsonObject.insert serverStreamSettings "kcpTti".toList
      (kcpSetting kcpSettings "tti".toList K.DEFAULT_V2RAY_KCP_TTI)
    let serverStreamSettings := QJsonObject.insert serverStreamSettings "kcpUpLink".toList
      (kcpSetting kcpSettings "uplinkCapacity".toList K.DEFAULT_V2RAY_KCP_UP_CAPACITY)
    let serverStreamSettings := QJsonObject.insert serverStreamSettings "kcpDownLink".toList
      (kcpSetting kcpSettings "downlinkCapacity".toList K.DEFAULT_V2RAY_KCP_DOWN_CAPACITY)
    let serverStreamSettings := QJsonObject.insert serverStreamSettings "kcpReadBuffer".toList
      (kcpSetting kcpSettings "readBufferSize".toList K.DEFAULT_V2RAY_KCP_READ_BUF_SIZE)
    let serverStreamSettings := QJsonObject.insert serverStreamSettings "kcpWriteBuffer".toList
      (kcpSetting kcpSettings "writeBufferSize".toList K.DEFAULT_V2RAY_KCP_READ_BUF_SIZE)
    let serverStreamSettings := QJsonObject.insert serverStreamSettings "kcpCongestion".toList
      (.bool (QJsonObject.value kcpSettings "congestion".toList).toBool)
    QJsonObject.insert serverStreamSettings "packetHeader".toList
      (.string (if QJsonObject.contains header "type".toList
        then (QJsonObject.value header "type".toList).toString else "none".toList))
  else if network = "ws".toList then
    let wsSettings := (QJsonObject.value _streamSettings "wsSettings".toList).toObject
    let headers := (QJsonObject.value wsSettings "headers".toList).toObject
    let wsSettings := QJsonObject.touch wsSettings "headers".toList
    let serverStreamSettings := QJsonObject.insert serverStreamSettings "networkHost".toList
      (.string (if QJsonObject.contains headers "host".toList
        then (QJsonObject.value headers "host".toList).toString
        else (QJsonObject.value headers "Host".toList).toString))
    QJsonObject.insert serverStreamSettings "networkPath".toList
      (QJsonObject.refValue wsSettings "path".toList)
  else if network = "http".toList then
    let httpSettings := (QJsonObject.value _streamSettings "httpSettings".toList).toObject
    let serverStreamSettings := QJsonObject.insert serverStreamSettings "networkHost".toList
      (QJsonArray.at (QJsonObject.value httpSettings "host".toList).toArray 0)
    QJsonObject.insert serverStreamSettings "networkPath".toList
      (.string (QJsonObject.value httpSettings "path".toList).toString)
  else if network = "domainsocket".toList then
    let dsSettings := (QJsonObject.value _streamSettings "dsSettings".toList).toObject
    QJsonObject.insert serverStreamSettings "domainSocketFilePath".toList
      (.string (QJsonObject.value dsSettings "path".toList).toString)
  else if network = "quic".toList then
    let quicSettings := (QJsonObject.value _streamSettings "quicSettings".toList).toObject
    let header := (QJsonObject.value quicSettings "header".toList).toObject
    let quicSettings := QJsonObject.touch quicSettings "header".toList
    let serverStreamSettings := QJsonObject.insert serverStreamSettings "quicSecurity".toList
      (.string (if QJsonObject.contains quicSettings "security".toList
        then (QJsonObject.value quicSettings "security".toList).toString else "none".toList))
    let serverStreamSettings := QJsonObject.insert serverStreamSettings "packetHeader".toList
      (.string (if QJsonObject.contains header "type".toList
        then (QJsonObject.value header "type".toList).toString else "none".toList))
    QJsonObject.insert serverStreamSettings "quicKey".toList
      (.string (QJsonObject.value quicSettings "key".toList).toString)
  else serverStreamSettings

/-- The body of the loop of `getServerConfigFromV2RayConfig` for one outbound:
the record it appends to `servers`, if any. -/
def getServerConfigFromOutbound (K : KcpDefaults) (config : QJsonObject) (outbound : QJsonValue) :
    Option QJsonObject :=
  let server := outbound.toObject
  let protocol := (QJsonObject.value server "protocol".toList).toString
  if protocol ≠ "vmess".toList then none
  else
    let serverSettings := getV2RayServerSettingsFromConfig
      (QJsonObject.value server "settings".toList).toObject
    let streamSettings := getV2RayStreamSettingsFromConfig K
      (QJsonObject.value server "streamSettings".toList).toObject
      (QJsonObject.value config "transport".toList).toObject
    if serverSettings.isEmpty = false then
      let serverConfig := serverSettings
      -- Stream Settings
      let serverConfig :=
        streamSettings.foldl (fun serverConfig e => QJsonObject.insert serverConfig e.1 e.2)
          serverConfig
      -- MUX Settings
      let serverConfig :=
        if QJsonObject.contains server "mux".toList then
          let muxObject := (QJsonObject.value server "mux".toList).toObject
          let mux := (QJsonObject.value muxObject "concurrency".toList).toVariantToInt
          if mux > 0 then
            QJsonObject.insert serverConfig "mux".toList (.string (QString.number mux))
          else serverConfig
        else serverConfig
      let serverConfig :=
        if QJsonObject.contains serverConfig "mux".toList = false then
          -- Default value for MUX
          QJsonObject.insert serverConfig "mux".toList (.double (-1))
        else serverConfig
      some serverConfig
    else none

/-- `ServerConfigHelper::getServerConfigFromV2RayConfig`. -/
def getServerConfigFromV2RayConfig (K : KcpDefaults) (config : QJsonObject) :
    List QJsonObject :=
  let serversConfig := (QJsonObject.value config "outbounds".toList).toArray
  serversConfig.filterMap (getServerConfigFromOutbound K config)

/-- `ServerConfigHelper::getPrettyServerConfig`, with the random source explicit. -/
def getPrettyServerConfig (rand : Nat → Nat) (protocol : Protocol)
    (serverConfig : QJsonObject) : QJsonObject :=
  if protocol = Protocol.VMESS then getPrettyV2RayConfig rand serverConfig
  else if protocol = Protocol.SHADOWSOCKS then getPrettyShadowsocksConfig serverConfig
  else if protocol = Protocol.TROJAN then getPrettyTrojanConfig serverConfig
  else []

/-- `ServerConfigHelper::getServerConfigFromUrl`. -/
def getServerConfigFromUrl (protocol : Protocol) (serverUrl subscriptionUrl : QString) :
    QJsonObject :=
  let _serverUrl := QString.trimmed serverUrl
  if protocol = Protocol.VMESS then getV2RayServerConfigFromUrl _serverUrl subscriptionUrl
  else if protocol = Protocol.SHADOWSOCKS then
    if QString.startsWith serverUrl "ssr://".toList then
      getShadowsocksRServerConfigFromUrl _serverUrl subscriptionUrl
    else getShadowsocksServerConfigFromUrl _serverUrl subscriptionUrl
  else if protocol = Protocol.TROJAN then getTrojanServerConfigFromUrl _serverUrl subscriptionUrl
  else []

/-- The diagnostics of the field checks of a protocol, in schema order. -/
def schemaChecks (U : Utility) (protocol : Protocol) (serverConfig : QJsonObject)
    (pServerName : Option QString) : List QString :=
  match protocol with
  | Protocol.VMESS => v2RayChecks U serverConfig pServerName
  | Protocol.SHADOWSOCKS => shadowsocksChecks U serverConfig pServerName
  | Protocol.TROJAN => trojanChecks U serverConfig pServerName
  | Protocol.UNKNOWN => []

end ServerConfigHelper

/-! ## Base64 encoding, for stating properties of the decoders -/

/-- The character of a 6-bit value in the standard base64 alphabet. -/
def QByteArray.base64Char (v : Nat) : Char :=
  let v := v % 64
  if v < 26 then Char.ofNat (65 + v)
  else if v < 52 then Char.ofNat (97 + (v - 26))
  else if v < 62 then Char.ofNat (48 + (v - 52))
  else if v = 62 then '+'
  else '/'

/-- `QByteArray::toBase64`: the standard alphabet, with `=` padding. -/
def QByteArray.toBase64 : QByteArray → QString
  | [] => []
  | [a] => [QByteArray.base64Char (a / 4), QByteArray.base64Char ((a % 4) * 16), '=', '=']
  | [a, b] =>
    [QByteArray.base64Char (a / 4), QByteArray.base64Char ((a % 4) * 16 + b / 16),
     QByteArray.base64Char ((b % 16) * 4), '=']
  | a :: b :: c :: rest =>
    QByteArray.base64Char (a / 4) :: QByteArray.base64Char ((a % 4) * 16 + b / 16)
      :: QByteArray.base64Char ((b % 16) * 4 + c / 64) :: QByteArray.base64Char (c % 64)
      :: QByteArray.toBase64 rest

/-- The URL-safe alphabet: `-` for `+` and `_` for `/`. -/
def QByteArray.urlSafeChar (c : Char) : Char :=
  if c = '+' then '-' else if c = '/' then '_' else c

/-- `QByteArray::toBase64(QByteArray::Base64UrlEncoding)`. -/
def QByteArray.toBase64Url (ba : QByteArray) : QString :=
  (QByteArray.toBase64 ba).map QByteArray.urlSafeChar

/-! ## Theorems -/

open ServerConfigHelper

/-- The body of `getProtocol` as a function of the lower-cased string. -/
theorem getProtocol_unfold (s : QString) :
    getProtocol s =
      (if QString.toLower s = "vmess".toList ∨ QString.toLower s = "v2ray".toList
        then Protocol.VMESS
      else if QString.toLower s = "shadowsocks".toList ∨ QString.toLower s = "ss".toList
          ∨ QString.toLower s = "shadowsocksr".toList ∨ QString.toLower s = "ssr".toList
        then Protocol.SHADOWSOCKS
      else if QString.toLower s = "trojan".toList then Protocol.TROJAN
      else Protocol.UNKNOWN) := rfl

/-- C1. `getProtocol` depends only on the lower-cased protocol string and follows
the alias table: VMESS exactly for `vmess` and `v2ray`, SHADOWSOCKS exactly for
`shadowsocks`, `ss`, `shadowsocksr` and `ssr`, TROJAN exactly for `trojan`, and
UNKNOWN for every other string. -/
theorem getProtocol_alias_table (s : QString) :
    (getProtocol s = Protocol.VMESS ↔
      QString.toLower s = "vmess".toList ∨ QString.toLower s = "v2ray".toList) ∧
    (getProtocol s = Protocol.SHADOWSOCKS ↔
      QString.toLower s = "shadowsocks".toList ∨ QString.toLower s = "ss".toList
        ∨ QString.toLower s = "shadowsocksr".toList ∨ QString.toLower s = "ssr".toList) ∧
    (getProtocol s = Protocol.TROJAN ↔ QString.toLower s = "trojan".toList) ∧
    (getProtocol s = Protocol.UNKNOWN ↔
      ¬ (QString.toLower s = "vmess".toList ∨ QString.toLower s = "v2ray".toList
        ∨ QString.toLower s = "shadowsocks".toList ∨ QString.toLower s = "ss".toList
        ∨ QString.toLower s = "shadowsocksr".toList ∨ QString.toLower s = "ssr".toList
        ∨ QString.toLower s = "trojan".toList)) ∧
    (∀ t : QString, QString.toLower t = QString.toLower s → getProtocol t = getProtocol s) := by
  refine ⟨?_, ?_, ?_, ?_, ?_⟩
  case refine_5 =>
    intro t ht
    rw [getProtocol_unfold, getProtocol_unfold, ht]
  all_goals
    rw [getProtocol_unfold]
    generalize QString.toLower s = l
    by_cases h1 : l = "vmess".toList
    · subst h1; decide
    by_cases h2 : l = "v2ray".toList
    · subst h2; decide
    by_cases h3 : l = "shadowsocks".toList
    · subst h3; decide
    by_cases h4 : l = "ss".toList
    · subst h4; decide
    by_cases h5 : l = "shadowsocksr".toList
    · subst h5; decide
    by_cases h6 : l = "ssr".toList
    · subst h6; decide
    by_cases h7 : l = "trojan".toList
    · subst h7; decide
    simp_all

/-- C1, on concrete strings: the table is case-insensitive. -/
theorem getProtocol_examples :
    getProtocol "VMess".toList = Protocol.VMESS ∧ getProtocol "V2RAY".toList = Protocol.VMESS
      ∧ getProtocol "ShadowsocksR".toList = Protocol.SHADOWSOCKS
      ∧ getProtocol "SS".toList = Protocol.SHADOWSOCKS
      ∧ getProtocol "Trojan".toList = Protocol.TROJAN
      ∧ getProtocol "socks5".toList = Protocol.UNKNOWN
      ∧ getProtocol [] = Protocol.UNKNOWN := by decide

/-- C2. For the UNKNOWN tag the validator returns the single diagnostic
"Unknown Server protocol", the renderer returns the empty mapping and the
share-link parser returns the empty record, whatever the record, the old name,
the URL and the subscription URL are. -/
theorem unknown_protocol_outputs (U : Utility) (rand : Nat → Nat) (serverConfig : QJsonObject)
    (pServerName : Option QString) (serverUrl subscriptionUrl : QString) :
    getServerConfigErrors U Protocol.UNKNOWN serverConfig pServerName
        = ["Unknown Server protocol".toList]
      ∧ (getServerConfigErrors U Protocol.UNKNOWN serverConfig pServerName).length = 1
      ∧ getPrettyServerConfig rand Protocol.UNKNOWN serverConfig = []
      ∧ getServerConfigFromUrl Protocol.UNKNOWN serverUrl subscriptionUrl = [] := by
  refine ⟨rfl, rfl, rfl, rfl⟩

/-- The edit-in-place branch of `getServerNameError`: the old name equals the
record's name, and the check is the plain string check. -/
theorem getServerNameError_same (U : Utility) (serverConfig : QJsonObject) (oldName : QString)
    (h : (QJsonObject.value serverConfig "serverName".toList).toString = oldName) :
    getServerNameError U serverConfig (some oldName)
      = U.getStringConfigError serverConfig "serverName".toList "Server Name".toList
          [] false none := by
  unfold getServerNameError
  dsimp only [tr]
  rw [if_pos h]

/-- The other branch of `getServerNameError`: no old name, or a different one, and
the check carries the uniqueness predicate and its template. -/
theorem getServerNameError_other (U : Utility) (serverConfig : QJsonObject)
    (pServerName : Option QString)
    (h : pServerName ≠ some (QJsonObject.value serverConfig "serverName".toList).toString) :
    getServerNameError U serverConfig pServerName
      = U.getStringConfigError serverConfig "serverName".toList "Server Name".toList
          [U.isServerNameNotUsed] false (some usedNameTemplate) := by
  cases pServerName with
  | none => rfl
  | some oldName =>
    have h2 : ¬ (QJsonObject.value serverConfig "serverName".toList).toString = oldName := by
      intro e; exact h (by rw [e])
    unfold getServerNameError
    dsimp only [tr]
    rw [if_neg h2]

/-- The string check on a present, non-empty string with no predicate passes. -/
theorem getStringConfigError_plain (U : Utility) (config : QJsonObject) (key label v : QString)
    (optional : Bool) (t : Option QString)
    (hv : QJsonObject.value config key = QJsonValue.string v) (hne : v ≠ []) :
    U.getStringConfigError config key label [] optional t = [] := by
  simp [Utility.getStringConfigError, hv, hne]

/-- The string check on a present, non-empty string with one predicate. -/
theorem getStringConfigError_one (U : Utility) (config : QJsonObject) (key label v : QString)
    (p : QString → Bool) (optional : Bool) (t : QString)
    (hv : QJsonObject.value config key = QJsonValue.string v) (hne : v ≠ []) :
    U.getStringConfigError config key label [p] optional (some t)
      = if p v = false then U.customError t label v else [] := by
  simp [Utility.getStringConfigError, hv, hne]

/-- C3. When an old name is given and equals the record's `serverName`,
`getServerNameError` does not consult the uniqueness predicate: its result is the
same for every predicate, and a non-empty name yields no diagnostic, used or
not. In every other case (no old name, or a different one) the predicate is
consulted: a non-empty name that is in use yields exactly the diagnostic of the
template "The '%1' has been used by another server." for the field labelled
"Server Name", and one that is not in use yields none. -/
theorem getServerNameError_uniqueness (U : Utility) (serverConfig : QJsonObject)
    (pServerName : Option QString) :
    (pServerName = some (QJsonObject.value serverConfig "serverName".toList).toString →
      (∀ p : QString → Bool,
        getServerNameError { U with isServerNameNotUsed := p } serverConfig pServerName
          = getServerNameError U serverConfig pServerName)
      ∧ (∀ name : QString, QJsonObject.value serverConfig "serverName".toList = .string name →
          name ≠ [] → getServerNameError U serverConfig pServerName = []))
    ∧ (pServerName ≠ some (QJsonObject.value serverConfig "serverName".toList).toString →
      ∀ name : QString, QJsonObject.value serverConfig "serverName".toList = .string name →
        name ≠ [] →
        (U.isServerNameNotUsed name = false →
          getServerNameError U serverConfig pServerName
            = U.customError "The '%1' has been used by another server.".toList
                "Server Name".toList name)
        ∧ (U.isServerNameNotUsed name = true →
          getServerNameError U serverConfig pServerName = [])) := by
  constructor
  · intro h
    subst h
    constructor
    · intro p
      rw [getServerNameError_same _ _ _ rfl, getServerNameError_same _ _ _ rfl]
      rfl
    · intro name hv hne
      rw [getServerNameError_same _ _ _ rfl]
      exact getStringConfigError_plain U _ _ _ name _ _ hv hne
  · intro h name hv hne
    rw [getServerNameError_other U _ _ h, getStringConfigError_one U _ _ _ name _ _ _ hv hne]
    constructor
    · intro hu; simp [hu, usedNameTemplate]
    · intro hu; simp [hu]

/-- C3 on the scenario of the specification: the name `N` is in use. Validating a
new record named `N` yields the "has been used" diagnostic, and validating an
edit whose old name is `N` yields none. -/
theorem getServerNameError_uniqueness_witness :
    getServerNameError (Utility.sample ["N".toList])
        [("serverName".toList, QJsonValue.string "N".toList)] none
      = "The 'N' has been used by another server.".toList
    ∧ getServerNameError (Utility.sample ["N".toList])
        [("serverName".toList, QJsonValue.string "N".toList)] (some "N".toList) = [] := by
  have h := getServerNameError_uniqueness (Utility.sample ["N".toList])
    [("serverName".toList, QJsonValue.string "N".toList)]
  refine ⟨?_, ?_⟩
  · rw [((h none).2 (by decide) "N".toList (by decide) (by decide)).1 (by decide)]
    decide
  · exact ((h (some "N".toList)).1 (by decide)).2 "N".toList (by decide) (by decide)

/-- What `removeAll("")` leaves of a list of diagnostics: the non-empty ones, in
order; every non-empty diagnostic stays, and nothing is left exactly when all
are empty. -/
theorem removeAllEmpty_spec (checks : List QString) :
    removeAllEmpty checks = checks.filter (fun e => decide (e ≠ []))
      ∧ (∀ e ∈ checks, e ≠ [] → e ∈ removeAllEmpty checks)
      ∧ (∀ e ∈ removeAllEmpty checks, e ≠ [])
      ∧ (removeAllEmpty checks = [] ↔ ∀ e ∈ checks, e = []) := by
  have h : removeAllEmpty checks = checks.filter (fun e => decide (e ≠ [])) := by
    unfold removeAllEmpty
    apply List.filter_congr
    intro e _
    by_cases he : e = [] <;> simp [he]
  refine ⟨h, ?_, ?_, ?_⟩
  · intro e he hne
    rw [h]
    exact List.mem_filter.mpr ⟨he, by simpa using hne⟩
  · intro e he
    rw [h] at he
    simpa using (List.mem_filter.mp he).2
  · rw [h, List.filter_eq_nil_iff]
    constructor
    · intro hall e he
      simpa using hall e he
    · intro hall e he
      simpa using hall e he

/-- Each validator is `removeAll("")` applied to its checks in schema order. -/
theorem getServerConfigErrors_eq (U : Utility) (protocol : Protocol) (serverConfig : QJsonObject)
    (pServerName : Option QString) (hp : protocol ≠ Protocol.UNKNOWN) :
    getServerConfigErrors U protocol serverConfig pServerName
      = removeAllEmpty (schemaChecks U protocol serverConfig pServerName) := by
  cases protocol with
  | VMESS => rfl
  | SHADOWSOCKS => rfl
  | TROJAN => rfl
  | UNKNOWN => exact absurd rfl hp

/-- C4. For VMESS, SHADOWSOCKS and TROJAN the validator returns the diagnostics
of its field checks, taken in schema order, with the empty strings removed:
every failing check contributes its diagnostic (no short-circuit), no element
of the result is empty, and the result is empty exactly when every check
passes. -/
theorem validators_accumulate (U : Utility) (protocol : Protocol) (serverConfig : QJsonObject)
    (pServerName : Option QString) (hp : protocol ≠ Protocol.UNKNOWN) :
    getServerConfigErrors U protocol serverConfig pServerName
        = (schemaChecks U protocol serverConfig pServerName).filter (fun e => decide (e ≠ []))
      ∧ (∀ e ∈ schemaChecks U protocol serverConfig pServerName, e ≠ [] →
          e ∈ getServerConfigErrors U protocol serverConfig pServerName)
      ∧ (∀ e ∈ getServerConfigErrors U protocol serverConfig pServerName, e ≠ [])
      ∧ (getServerConfigErrors U protocol serverConfig pServerName = [] ↔
          ∀ e ∈ schemaChecks U protocol serverConfig pServerName, e = []) := by
  rw [getServerConfigErrors_eq U protocol serverConfig pServerName hp]
  exact removeAllEmpty_spec _

/-- C4 on a concrete record: a VMess record that lacks every field but
`serverName` gets the diagnostics of all the other checks, in schema order, and
a complete Trojan record gets none. -/
theorem validators_accumulate_witness :
    getServerConfigErrors (Utility.sample []) Protocol.VMESS
        [("network".toList, QJsonValue.string "kcp".toList),
         ("serverName".toList, QJsonValue.string "a".toList)] none
      = ["missing:Server Address".toList, "number:Server Port".toList, "missing:ID".toList,
         "number:Alter ID".toList, "missing:Security".toList,
         "missing:Network Security".toList, "missing:TCP Header".toList,
         "Unspoorted 'Network': kcp.".toList]
    ∧ getServerConfigErrors (Utility.sample []) Protocol.TROJAN
        [("alpn".toList, QJsonValue.string "h2,http/1.1".toList),
         ("password".toList, QJsonValue.string "secret".toList),
         ("serverAddr".toList, QJsonValue.string "host.example".toList),
         ("serverName".toList, QJsonValue.string "node".toList),
         ("serverPort".toList, QJsonValue.string "443".toList),
         ("sni".toList, QJsonValue.string "sni.example".toList)] none = [] := by
  refine ⟨?_, ?_⟩
  · rw [(validators_accumulate (Utility.sample []) Protocol.VMESS _ none (by decide)).1]
    decide
  · rw [(validators_accumulate (Utility.sample []) Protocol.TROJAN _ none (by decide)).1]
    decide

/-- The payload of the VMess link of scenario 1 decodes to this JSON object. -/
theorem vmess_scenario_payload :
    QJsonDocument.fromJsonObject (QByteArray.fromBase64 (QString.toUtf8 (QString.midFrom
      ("vmess://eyJwcyI6IkhLLTAxIiwiYWRkIjoiZXhhbXBsZS5jb20iLCJwb3J0IjoiNDQzIiwiaWQiOiJhYWFhYWFhYS1iYmJiLWNjY2MtZGRkZC1lZWVlZWVlZWVlZWUiLCJhaWQiOiIwIiwibmV0Ijoid3MiLCJob3N0IjoiZXhhbXBsZS5jb20iLCJwYXRoIjoiL3dzIiwidGxzIjoidGxzIn0=").toList
      8)))
    = [("add".toList, .string "example.com".toList), ("aid".toList, .string "0".toList),
       ("host".toList, .string "example.com".toList),
       ("id".toList, .string "aaaaaaaa-bbbb-cccc-dddd-eeeeeeeeeeee".toList),
       ("net".toList, .string "ws".toList), ("path".toList, .string "/ws".toList),
       ("port".toList, .string "443".toList), ("ps".toList, .string "HK-01".toList),
       ("tls".toList, .string "tls".toList)] := by decide!

/-- C5. The VMess share link of scenario 1 parses to a record with
serverName `HK-01`, serverAddr `example.com`, serverPort 443 (stored as the
numeric string `443`), id `aaaaaaaa-bbbb-cccc-dddd-eeeeeeeeeeee`, alterId 0,
network `ws`, networkHost `example.com`, networkPath `/ws` and networkSecurity
`tls`, whatever the subscription URL is. -/
theorem vmess_share_link_scenario (subscriptionUrl : QString) :
    getV2RayServerConfigFromUrl
      ("vmess://eyJwcyI6IkhLLTAxIiwiYWRkIjoiZXhhbXBsZS5jb20iLCJwb3J0IjoiNDQzIiwiaWQiOiJhYWFhYWFhYS1iYmJiLWNjY2MtZGRkZC1lZWVlZWVlZWVlZWUiLCJhaWQiOiIwIiwibmV0Ijoid3MiLCJob3N0IjoiZXhhbXBsZS5jb20iLCJwYXRoIjoiL3dzIiwidGxzIjoidGxzIn0=").toList
      subscriptionUrl
    = [("alterId".toList, .double 0), ("autoConnect".toList, .bool false),
       ("id".toList, .string "aaaaaaaa-bbbb-cccc-dddd-eeeeeeeeeeee".toList),
       ("network".toList, .string "ws".toList),
       ("networkHost".toList, .string "example.com".toList),
       ("networkPath".toList, .string "/ws".toList),
       ("networkSecurity".toList, .string "tls".toList),
       ("security".toList, .string "auto".toList),
       ("serverAddr".toList, .string "example.com".toList),
       ("serverName".toList, .string "HK-01".toList),
       ("serverPort".toList, .string "443".toList),
       ("subscription".toList, .string subscriptionUrl),
       ("tcpHeaderType".toList, .string []), ("udp".toList, .bool false)]
    ∧ (QJsonValue.string "443".toList).toVariantToInt = 443 := by
  refine ⟨?_, by decide⟩
  unfold getV2RayServerConfigFromUrl
  rw [vmess_scenario_payload]
  rfl

/-- C6. The Shadowsocks share link of scenario 2 parses to a record with
encryption `aes-256-gcm`, password `pass123`, serverAddr `1.2.3.4`, serverPort
`8388`, serverName `My Node`, and no `plugins` entry, whatever the subscription
URL is. -/
theorem shadowsocks_share_link_scenario (subscriptionUrl : QString) :
    getShadowsocksServerConfigFromUrl
      "ss://YWVzLTI1Ni1nY206cGFzczEyMw==@1.2.3.4:8388#My%20Node".toList subscriptionUrl
    = [("autoConnect".toList, .bool false),
       ("encryption".toList, .string "aes-256-gcm".toList),
       ("password".toList, .string "pass123".toList),
       ("serverAddr".toList, .string "1.2.3.4".toList),
       ("serverName".toList, .string "My Node".toList),
       ("serverPort".toList, .string "8388".toList),
       ("subscription".toList, .string subscriptionUrl)]
    ∧ QJsonObject.contains (getShadowsocksServerConfigFromUrl
        "ss://YWVzLTI1Ni1nY206cGFzczEyMw==@1.2.3.4:8388#My%20Node".toList subscriptionUrl)
        "plugins".toList = false := by
  have h : getShadowsocksServerConfigFromUrl
      "ss://YWVzLTI1Ni1nY206cGFzczEyMw==@1.2.3.4:8388#My%20Node".toList subscriptionUrl
    = [("autoConnect".toList, .bool false),
       ("encryption".toList, .string "aes-256-gcm".toList),
       ("password".toList, .string "pass123".toList),
       ("serverAddr".toList, .string "1.2.3.4".toList),
       ("serverName".toList, .string "My Node".toList),
       ("serverPort".toList, .string "8388".toList),
       ("subscription".toList, .string subscriptionUrl)] := by rfl
  rw [h]
  exact ⟨rfl, rfl⟩

/-- C7, counterexample. The SSR link of scenario 3 carries its tail
`/?remarks=U1NSLU5vZGU=` outside the base64 payload; both decoding attempts are
aborted at the `?`, the decoded text is empty, and the parser returns the empty
record: it has no `serverAddr`, no `password` and no `remarks`. -/
theorem ssr_scenario_counterexample :
    getShadowsocksRServerConfigFromUrl
      ("ssr://MS4yLjMuNDo4Mzg4OmF1dGhfYWVzMTI4X21kNTphZXMtMjU2LWNmYjp0bHMxLjJfdGlja2V0X2F1dGg6Y0dGemMzZHZjbVE9/?remarks=U1NSLU5vZGU=").toList
      [] = []
    ∧ ¬ (QJsonObject.value (getShadowsocksRServerConfigFromUrl
          ("ssr://MS4yLjMuNDo4Mzg4OmF1dGhfYWVzMTI4X21kNTphZXMtMjU2LWNmYjp0bHMxLjJfdGlja2V0X2F1dGg6Y0dGemMzZHZjbVE9/?remarks=U1NSLU5vZGU=").toList
          []) "serverAddr".toList = .string "1.2.3.4".toList
        ∧ QJsonObject.value (getShadowsocksRServerConfigFromUrl
          ("ssr://MS4yLjMuNDo4Mzg4OmF1dGhfYWVzMTI4X21kNTphZXMtMjU2LWNmYjp0bHMxLjJfdGlja2V0X2F1dGg6Y0dGemMzZHZjbVE9/?remarks=U1NSLU5vZGU=").toList
          []) "password".toList = .string "password".toList) := by
  decide!

/-- The text that the payload of the re-encoded SSR link of scenario 3 decodes
to: head and tail together. -/
theorem ssr_scenario_payload :
    getShadowsocksRPayloadText (QString.midFrom
      ("ssr://MS4yLjMuNDo4Mzg4OmF1dGhfYWVzMTI4X21kNTphZXMtMjU2LWNmYjp0bHMxLjJfdGlja2V0X2F1dGg6Y0dGemMzZHZjbVE9Lz9yZW1hcmtzPVUxTlNMVTV2WkdVPQ==").toList
      6)
    = ("1.2.3.4:8388:auth_aes128_md5:aes-256-cfb:tls1.2_ticket_auth:cGFzc3dvcmQ="
        ++ "/?remarks=U1NSLU5vZGU=").toList := by
  decide!

/-- The payload of the SSR link of scenario 3, as given, decodes to nothing. -/
theorem ssr_scenario_payload_aborted :
    getShadowsocksRPayloadText (QString.midFrom
      ("ssr://MS4yLjMuNDo4Mzg4OmF1dGhfYWVzMTI4X21kNTphZXMtMjU2LWNmYjp0bHMxLjJfdGlja2V0X2F1dGg6Y0dGemMzZHZjbVE9/?remarks=U1NSLU5vZGU=").toList
      6) = [] := by
  decide!

/-- C7, amended. The SSR link of scenario 3 parses to the empty record, whatever
the subscription URL is. The link that carries the same text wholly inside its
base64 payload parses to serverAddr `1.2.3.4`, serverPort 8388,
plugins.protocol `auth_aes128_md5`, encryption `aes-256-cfb`, plugins.obfs
`tls1.2_ticket_auth` and serverName `1.2.3.4:8388`; the password field and the
remarks are stored as they stand in the text, not decoded: password
`cGFzc3dvcmQ=`, remarks `U1NSLU5vZGU=`. -/
theorem ssr_scenario_amended (subscriptionUrl : QString) :
    getShadowsocksRServerConfigFromUrl
      ("ssr://MS4yLjMuNDo4Mzg4OmF1dGhfYWVzMTI4X21kNTphZXMtMjU2LWNmYjp0bHMxLjJfdGlja2V0X2F1dGg6Y0dGemMzZHZjbVE9/?remarks=U1NSLU5vZGU=").toList
      subscriptionUrl = []
    ∧ getShadowsocksRServerConfigFromUrl
      ("ssr://MS4yLjMuNDo4Mzg4OmF1dGhfYWVzMTI4X21kNTphZXMtMjU2LWNmYjp0bHMxLjJfdGlja2V0X2F1dGg6Y0dGemMzZHZjbVE9Lz9yZW1hcmtzPVUxTlNMVTV2WkdVPQ==").toList
      subscriptionUrl
    = [("autoConnect".toList, .bool false),
       ("encryption".toList, .string "aes-256-cfb".toList),
       ("password".toList, .string "cGFzc3dvcmQ=".toList),
       ("plugins".toList, .object [("obfs".toList, .string "tls1.2_ticket_auth".toList),
         ("protocol".toList, .string "auth_aes128_md5".toList)]),
       ("remarks".toList, .string "U1NSLU5vZGU=".toList),
       ("serverAddr".toList, .string "1.2.3.4".toList),
       ("serverName".toList, .string "1.2.3.4:8388".toList),
       ("serverPort".toList, .double 8388),
       ("subscription".toList, .string subscriptionUrl)] := by
  unfold getShadowsocksRServerConfigFromUrl
  rw [ssr_scenario_payload, ssr_scenario_payload_aborted]
  exact ⟨rfl, rfl⟩

/-- C8, at the failing input. The link `trojan://secret@host.example:443#sni=evil.example`
has no `?`, so `questionMarkIndex` is `sharpIndex` and the options are read with
`mid(sharpIndex + 1, -1)`: the whole fragment. The fragment `sni=evil.example`
then sets the option `sni`, which is not at its default (the empty string). -/
theorem trojan_fragment_read_as_options :
    getTrojanServerConfigFromUrl "trojan://secret@host.example:443#sni=evil.example".toList []
    = [("allowInsecure".toList, .bool false), ("alpn".toList, .string "h2,http/1.1".toList),
       ("autoConnect".toList, .bool false), ("password".toList, .string "secret".toList),
       ("serverAddr".toList, .string "host.example".toList),
       ("serverName".toList, .string "sni=evil.example".toList),
       ("serverPort".toList, .string "443".toList),
       ("sni".toList, .string "evil.example".toList),
       ("subscription".toList, .string []), ("udp".toList, .bool false)]
    ∧ QJsonObject.value (getTrojanServerConfigFromUrl
        "trojan://secret@host.example:443#sni=evil.example".toList []) "sni".toList
        ≠ DEFAULT_TROJRAN_SNI
    ∧ getTrojanServerConfigFromUrl "trojan://secret@host.example:443#node".toList []
    = [("allowInsecure".toList, .bool false), ("alpn".toList, .string "h2,http/1.1".toList),
       ("autoConnect".toList, .bool false), ("password".toList, .string "secret".toList),
       ("serverAddr".toList, .string "host.example".toList),
       ("serverName".toList, .string "node".toList),
       ("serverPort".toList, .string "443".toList),
       ("sni".toList, .string []),
       ("subscription".toList, .string []), ("udp".toList, .bool false)] := by
  decide!

/-- The engine configuration document of scenario 5: one vmess outbound, no
top-level `transport`. -/
theorem scenario5_document :
    QJsonDocument.fromJsonObject (QString.toUtf8
      ("\x7b\"outbounds\":[\x7b\"protocol\":\"vmess\",\"settings\":\x7b\"vnext\":[\x7b\"address\":\"h\","
        ++ "\"port\":10086,\"users\":[\x7b\"id\":\"U\",\"alterId\":64,\"security\":\"aes-128-gcm\"\x7d]\x7d]\x7d,"
        ++ "\"streamSettings\":\x7b\"network\":\"tcp\",\"security\":\"none\","
        ++ "\"tcpSettings\":\x7b\"header\":\x7b\"type\":\"http\"\x7d\x7d\x7d,"
        ++ "\"mux\":\x7b\"concurrency\":8\x7d\x7d]\x7d").toList)
    = [("outbounds".toList, .array [.object [
        ("mux".toList, .object [("concurrency".toList, .double 8)]),
        ("protocol".toList, .string "vmess".toList),
        ("settings".toList, .object [("vnext".toList, .array [.object [
          ("address".toList, .string "h".toList),
          ("port".toList, .double 10086),
          ("users".toList, .array [.object [
            ("alterId".toList, .double 64),
            ("id".toList, .string "U".toList),
            ("security".toList, .string "aes-128-gcm".toList)]])]])]),
        ("streamSettings".toList, .object [
          ("network".toList, .string "tcp".toList),
          ("security".toList, .string "none".toList),
          ("tcpSettings".toList, .object [("header".toList, .object [
            ("type".toList, .string "http".toList)])])])]])] := by
  decide!

/-- C9. `getServerConfigFromV2RayConfig` applied to the document of scenario 5
returns exactly one record, with serverName `h:10086`, serverAddr `h`,
serverPort 10086, id `U`, alterId 64, security `aes-128-gcm`, network `tcp`,
tcpHeaderType `http` and mux `8` (a string); the record also has
networkSecurity `none` and allowInsecure true. The KCP defaults play no part. -/
theorem engine_config_import_scenario (K : KcpDefaults) :
    getServerConfigFromV2RayConfig K
      [("outbounds".toList, .array [.object [
        ("mux".toList, .object [("concurrency".toList, .double 8)]),
        ("protocol".toList, .string "vmess".toList),
        ("settings".toList, .object [("vnext".toList, .array [.object [
          ("address".toList, .string "h".toList),
          ("port".toList, .double 10086),
          ("users".toList, .array [.object [
            ("alterId".toList, .double 64),
            ("id".toList, .string "U".toList),
            ("security".toList, .string "aes-128-gcm".toList)]])]])]),
        ("streamSettings".toList, .object [
          ("network".toList, .string "tcp".toList),
          ("security".toList, .string "none".toList),
          ("tcpSettings".toList, .object [("header".toList, .object [
            ("type".toList, .string "http".toList)])])])]])]
    = [[("allowInsecure".toList, .bool true), ("alterId".toList, .double 64),
        ("id".toList, .string "U".toList), ("mux".toList, .string "8".toList),
        ("network".toList, .string "tcp".toList),
        ("networkSecurity".toList, .string "none".toList),
        ("security".toList, .string "aes-128-gcm".toList),
        ("serverAddr".toList, .string "h".toList),
        ("serverName".toList, .string "h:10086".toList),
        ("serverPort".toList, .double 10086),
        ("tcpHeaderType".toList, .string "http".toList)]] := by
  rfl

/-- `mid(n)` drops a prefix of length `n`. -/
theorem QString.midFrom_append (a b : QString) :
    QString.midFrom (a ++ b) (a.length : Int) = b := by
  unfold QString.midFrom QString.mid
  have h1 : ¬ ((a.length : Int) > ((a ++ b).length : Int)) := by
    simp only [List.length_append]; omega
  have h2 : ¬ ((a.length : Int) < 0) := by omega
  simp only [h1, h2, if_false]
  simp

/-- A byte outside the base64 alphabet, other than `=`, aborts the decoding loop
wherever it stands in the rest of the input. -/
theorem QByteArray.fromBase64Loop_abort (inputSize bad : Nat)
    (hbad : QByteArray.base64Digit bad = none) (hne : bad ≠ 61) :
    ∀ (input : QByteArray) (i buf nbits : Nat), i + input.length = inputSize → bad ∈ input →
      QByteArray.fromBase64Loop inputSize input i buf nbits = none := by
  intro input
  induction input with
  | nil => intro i buf nbits _ hmem; simp at hmem
  | cons ch rest ih =>
    intro i buf nbits hlen hmem
    have hlen2 : (i + 1) + rest.length = inputSize := by
      simp only [List.length_cons] at hlen; omega
    unfold QByteArray.fromBase64Loop
    cases hd : QByteArray.base64Digit ch with
    | some d =>
      have hmem2 : bad ∈ rest := by
        rcases List.mem_cons.mp hmem with h | h
        · rw [h, hd] at hbad; cases hbad
        · exact h
      simp only []
      split_ifs
      · rw [ih (i + 1) _ _ hlen2 hmem2]; rfl
      · exact ih (i + 1) _ _ hlen2 hmem2
    | none =>
      simp only []
      by_cases h61 : ch = 61
      · have hmem2 : bad ∈ rest := by
          rcases List.mem_cons.mp hmem with h | h
          · exact absurd (h.trans h61) hne
          · exact h
        rw [if_pos h61]
        split_ifs with ha hb
        · rfl
        · exfalso
          rcases hb with hb | ⟨hb, hh⟩
          · have : rest.length = 0 := by omega
            rw [List.length_eq_zero] at this
            rw [this] at hmem2; simp at hmem2
          · have hl : rest.length = 1 := by omega
            match rest, hl, hh, hmem2 with
            | [x], _, hh, hmem2 =>
              simp only [List.head?_cons, Option.some.injEq] at hh
              simp only [List.mem_singleton] at hmem2
              exact hne (hmem2.trans hh)
        · rfl
      · rw [if_neg h61]

/-- `fromBase64` gives the empty array when the input holds a byte outside the
alphabet (other than `=`). -/
theorem QByteArray.fromBase64_abort (input : QByteArray) (bad : Nat)
    (hbad : QByteArray.base64Digit bad = none) (hne : bad ≠ 61) (hmem : bad ∈ input) :
    QByteArray.fromBase64 input = [] := by
  unfold QByteArray.fromBase64
  rw [QByteArray.fromBase64Loop_abort input.length bad hbad hne input 0 0 0 (by simp) hmem]
  rfl

/-- An ASCII character of a string is a byte of its UTF-8 encoding. -/
theorem QString.mem_toUtf8 (s : QString) (c : Char) (hc : c.toNat < 128) (hmem : c ∈ s) :
    c.toNat ∈ QString.toUtf8 s := by
  unfold QString.toUtf8
  rw [List.mem_flatMap]
  refine ⟨c, hmem, ?_⟩
  unfold QChar.toUtf8
  simp [hc]

/-- The characters of the standard alphabet are neither `-` nor `_`. -/
theorem QByteArray.base64Char_ne (v : Nat) :
    QByteArray.base64Char v ≠ '-' ∧ QByteArray.base64Char v ≠ '_' := by
  have h : ∀ k, k < 64 → QByteArray.base64Char k ≠ '-' ∧ QByteArray.base64Char k ≠ '_' := by
    decide
  have hv : QByteArray.base64Char v = QByteArray.base64Char (v % 64) := by
    unfold QByteArray.base64Char
    simp only [Nat.mod_mod]
  rw [hv]
  exact h (v % 64) (Nat.mod_lt _ (by decide))

/-- The standard base64 of a byte string holds neither `-` nor `_`. -/
theorem QByteArray.toBase64_standard :
    ∀ (n : Nat) (p : QByteArray), p.length ≤ n → ∀ c ∈ QByteArray.toBase64 p, c ≠ '-' ∧ c ≠ '_' := by
  intro n
  induction n with
  | zero =>
    intro p hp c hc
    have : p = [] := List.length_eq_zero.mp (by omega)
    subst this
    simp [QByteArray.toBase64] at hc
  | succ n ih =>
    intro p hp c hc
    match p, hp, hc with
    | [], _, hc => simp [QByteArray.toBase64] at hc
    | [a], _, hc =>
      simp only [QByteArray.toBase64, List.mem_cons, List.mem_singleton] at hc
      rcases hc with h | h | h | h | h
      · rw [h]; exact QByteArray.base64Char_ne _
      · rw [h]; exact QByteArray.base64Char_ne _
      · rw [h]; decide
      · rw [h]; decide
      · simp at h
    | [a, b], _, hc =>
      simp only [QByteArray.toBase64, List.mem_cons, List.mem_singleton] at hc
      rcases hc with h | h | h | h | h
      · rw [h]; exact QByteArray.base64Char_ne _
      · rw [h]; exact QByteArray.base64Char_ne _
      · rw [h]; exact QByteArray.base64Char_ne _
      · rw [h]; decide
      · simp at h
    | a :: b :: c3 :: rest, hp, hc =>
      simp only [QByteArray.toBase64, List.mem_cons] at hc
      rcases hc with h | h | h | h | h
      · rw [h]; exact QByteArray.base64Char_ne _
      · rw [h]; exact QByteArray.base64Char_ne _
      · rw [h]; exact QByteArray.base64Char_ne _
      · rw [h]; exact QByteArray.base64Char_ne _
      · exact ih rest (by simp only [List.length_cons] at hp; omega) c h

/-- The SSR payload decoder on a payload without `_`: the retry decodes the same
payload again, so the text is that of the first decoding. -/
theorem getShadowsocksRPayloadText_standard (s : QString) (h : '_' ∉ s) :
    getShadowsocksRPayloadText s
      = QString.fromByteArray (QByteArray.fromBase64 (QString.toUtf8 s)) := by
  have hrep : QString.replace s '_' '/' = s := by
    unfold QString.replace
    conv_rhs => rw [← List.map_id s]
    apply List.map_congr_left
    intro c hc
    have : c ≠ '_' := fun e => h (e ▸ hc)
    simp [this]
  unfold getShadowsocksRPayloadText
  simp only [hrep]
  split_ifs <;> rfl

/-- The SSR payload decoder on a payload that holds `_`: the first decoding is
aborted and the retry decodes the payload with `_` replaced by `/`. -/
theorem getShadowsocksRPayloadText_retry (u : QString) (h : '_' ∈ u) :
    getShadowsocksRPayloadText u
      = QString.fromByteArray
          (QByteArray.fromBase64 (QString.toUtf8 (QString.replace u '_' '/'))) := by
  have h0 : QByteArray.fromBase64 (QString.toUtf8 u) = [] :=
    QByteArray.fromBase64_abort _ 95 (by decide) (by decide)
      (QString.mem_toUtf8 u '_' (by decide) h)
  unfold getShadowsocksRPayloadText
  simp only [h0]
  rfl

/-- Undoing the URL-safe alphabet by `replace('_', '/')`, on a standard payload
without `+`. -/
theorem QByteArray.replace_urlSafe (s : QString) (hplus : '+' ∉ s) (hus : '_' ∉ s) :
    QString.replace (s.map QByteArray.urlSafeChar) '_' '/' = s := by
  unfold QString.replace
  rw [List.map_map]
  conv_rhs => rw [← List.map_id s]
  apply List.map_congr_left
  intro c hc
  have h1 : c ≠ '+' := fun e => hplus (e ▸ hc)
  have h2 : c ≠ '_' := fun e => hus (e ▸ hc)
  by_cases h3 : c = '/'
  · subst h3; decide
  · simp [QByteArray.urlSafeChar, h1, h2, h3]

/-- C10, counterexample. The bytes of `{"ps":"a?"}` have the standard base64
`eyJwcyI6ImE/In0=` and the URL-safe base64 `eyJwcyI6ImE_In0=`. The `vmess://`
parser reads the name `a?` from the first and nothing from the second (its
serverName is empty): the two links do not parse identically. -/
theorem base64_alphabets_counterexample :
    QByteArray.toBase64 (QString.toUtf8 "\x7b\"ps\":\"a?\"\x7d".toList) = "eyJwcyI6ImE/In0=".toList
    ∧ QByteArray.toBase64Url (QString.toUtf8 "\x7b\"ps\":\"a?\"\x7d".toList)
        = "eyJwcyI6ImE_In0=".toList
    ∧ QJsonObject.value (getV2RayServerConfigFromUrl ("vmess://".toList
          ++ QByteArray.toBase64 (QString.toUtf8 "\x7b\"ps\":\"a?\"\x7d".toList)) [])
        "serverName".toList = .string "a?".toList
    ∧ QJsonObject.value (getV2RayServerConfigFromUrl ("vmess://".toList
          ++ QByteArray.toBase64Url (QString.toUtf8 "\x7b\"ps\":\"a?\"\x7d".toList)) [])
        "serverName".toList = .string []
    ∧ getV2RayServerConfigFromUrl ("vmess://".toList
          ++ QByteArray.toBase64Url (QString.toUtf8 "\x7b\"ps\":\"a?\"\x7d".toList)) []
      ≠ getV2RayServerConfigFromUrl ("vmess://".toList
          ++ QByteArray.toBase64 (QString.toUtf8 "\x7b\"ps\":\"a?\"\x7d".toList)) [] := by
  decide!

/-- C10, amended. For every byte string `p` whose URL-safe base64 holds no `-`,
the SSR parser gives the same record for the link with the URL-safe payload and
for the link with the standard payload (it retries with `_` mapped to `/`). The
`vmess://` parser decodes the standard alphabet only: a URL-safe payload that
holds `-` or `_` decodes to nothing and gives the record of the empty payload
object, and the two links parse alike when the payload holds neither. -/
theorem base64_alphabets_amended (p : QByteArray) (subscriptionUrl : QString) :
    ('-' ∉ QByteArray.toBase64Url p →
      getShadowsocksRServerConfigFromUrl ("ssr://".toList ++ QByteArray.toBase64Url p)
          subscriptionUrl
        = getShadowsocksRServerConfigFromUrl ("ssr://".toList ++ QByteArray.toBase64 p)
          subscriptionUrl)
    ∧ (('-' ∈ QByteArray.toBase64Url p ∨ '_' ∈ QByteArray.toBase64Url p) →
      getV2RayServerConfigFromUrl ("vmess://".toList ++ QByteArray.toBase64Url p)
          subscriptionUrl
        = getV2RayServerConfigFromRaw [] subscriptionUrl)
    ∧ (('-' ∉ QByteArray.toBase64Url p ∧ '_' ∉ QByteArray.toBase64Url p) →
      getV2RayServerConfigFromUrl ("vmess://".toList ++ QByteArray.toBase64Url p)
          subscriptionUrl
        = getV2RayServerConfigFromUrl ("vmess://".toList ++ QByteArray.toBase64 p)
          subscriptionUrl) := by
  have hstd := QByteArray.toBase64_standard p.length p (le_refl _)
  have hus : '_' ∉ QByteArray.toBase64 p := fun h => (hstd _ h).2 rfl
  have hplus : '-' ∉ QByteArray.toBase64Url p → '+' ∉ QByteArray.toBase64 p := by
    intro hm hp
    apply hm
    unfold QByteArray.toBase64Url
    exact List.mem_map.mpr ⟨'+', hp, by decide⟩
  have hslash : '_' ∉ QByteArray.toBase64Url p → '/' ∉ QByteArray.toBase64 p := by
    intro hm hp
    apply hm
    unfold QByteArray.toBase64Url
    exact List.mem_map.mpr ⟨'/', hp, by decide⟩
  have hsame : '+' ∉ QByteArray.toBase64 p → '/' ∉ QByteArray.toBase64 p →
      QByteArray.toBase64Url p = QByteArray.toBase64 p := by
    intro h1 h2
    unfold QByteArray.toBase64Url
    conv_rhs => rw [← List.map_id (QByteArray.toBase64 p)]
    apply List.map_congr_left
    intro c hc
    have e1 : c ≠ '+' := fun e => h1 (e ▸ hc)
    have e2 : c ≠ '/' := fun e => h2 (e ▸ hc)
    simp [QByteArray.urlSafeChar, e1, e2]
  refine ⟨?_, ?_, ?_⟩
  · intro hminus
    have h6 : ∀ u : QString, QString.midFrom ("ssr://".toList ++ u) 6 = u :=
      fun u => QString.midFrom_append "ssr://".toList u
    unfold getShadowsocksRServerConfigFromUrl
    rw [h6, h6]
    congr 1
    rw [getShadowsocksRPayloadText_standard _ hus]
    by_cases hs : '_' ∈ QByteArray.toBase64Url p
    · rw [getShadowsocksRPayloadText_retry _ hs]
      unfold QByteArray.toBase64Url
      rw [QByteArray.replace_urlSafe _ (hplus hminus) hus]
    · rw [hsame (hplus hminus) (hslash hs)]
      exact getShadowsocksRPayloadText_standard _ hus
  · intro hbad
    have h8 : QString.midFrom ("vmess://".toList ++ QByteArray.toBase64Url p) 8
        = QByteArray.toBase64Url p := QString.midFrom_append "vmess://".toList _
    have h0 : QByteArray.fromBase64 (QString.toUtf8 (QByteArray.toBase64Url p)) = [] := by
      rcases hbad with h | h
      · exact QByteArray.fromBase64_abort _ 45 (by decide) (by decide)
          (QString.mem_toUtf8 _ '-' (by decide) h)
      · exact QByteArray.fromBase64_abort _ 95 (by decide) (by decide)
          (QString.mem_toUtf8 _ '_' (by decide) h)
    unfold getV2RayServerConfigFromUrl
    rw [h8, h0]
    rfl
  · intro h
    rw [hsame (hplus h.1) (hslash h.2)]

/-- C10 on concrete payloads: the bytes of `h:1:p:e:o:p?` have the URL-safe
base64 `aDoxOnA6ZTpvOnA_`, which holds `_` and no `-`; both links parse to the
same record, whose `serverAddr` is `h`. -/
theorem base64_alphabets_witness :
    '-' ∉ QByteArray.toBase64Url (QString.toUtf8 "h:1:p:e:o:p?".toList)
    ∧ '_' ∈ QByteArray.toBase64Url (QString.toUtf8 "h:1:p:e:o:p?".toList)
    ∧ getShadowsocksRServerConfigFromUrl ("ssr://".toList
          ++ QByteArray.toBase64Url (QString.toUtf8 "h:1:p:e:o:p?".toList)) []
        = getShadowsocksRServerConfigFromUrl ("ssr://".toList
          ++ QByteArray.toBase64 (QString.toUtf8 "h:1:p:e:o:p?".toList)) []
    ∧ QJsonObject.value (getShadowsocksRServerConfigFromUrl ("ssr://".toList
          ++ QByteArray.toBase64Url (QString.toUtf8 "h:1:p:e:o:p?".toList)) [])
        "serverAddr".toList = .string "h".toList :=
  ⟨by decide!, by decide!,
    (base64_alphabets_amended (QString.toUtf8 "h:1:p:e:o:p?".toList) []).1 (by decide!),
    by decide!⟩

/-- The slip in the SSR retry: only `_` is mapped back, `-` is not. The bytes of
`h:1:p:e:o:p>` have the URL-safe base64 `aDoxOnA6ZTpvOnA-`; the link with that
payload parses to the empty record, the link with the standard payload
`aDoxOnA6ZTpvOnA+` does not. -/
theorem ssr_retry_leaves_minus :
    QByteArray.toBase64Url (QString.toUtf8 "h:1:p:e:o:p>".toList) = "aDoxOnA6ZTpvOnA-".toList
    ∧ getShadowsocksRServerConfigFromUrl "ssr://aDoxOnA6ZTpvOnA-".toList [] = []
    ∧ QJsonObject.value (getShadowsocksRServerConfigFromUrl "ssr://aDoxOnA6ZTpvOnA+".toList [])
        "password".toList = .string "p>".toList := by
  decide!

/-! ### Index and substring lemmas -/

/-- The search skips a prefix that holds no match. -/
theorem QString.indexFrom_skip (p : Char → Bool) (a b : QString) (i : Nat)
    (h : ∀ x ∈ a, p x = false) :
    QString.indexFrom p (a ++ b) i = QString.indexFrom p b (i + a.length) := by
  induction a generalizing i with
  | nil => simp
  | cons x xs ih =>
    have hx : p x = false := h x (List.mem_cons_self _ _)
    have hxs : ∀ y ∈ xs, p y = false := fun y hy => h y (List.mem_cons_of_mem _ hy)
    rw [List.cons_append]
    rw [show QString.indexFrom p (x :: (xs ++ b)) i = QString.indexFrom p (xs ++ b) (i + 1)
      from by simp [QString.indexFrom, hx]]
    rw [ih (i + 1) hxs, List.length_cons]
    congr 1
    omega

/-- The search fails on a string that holds no match. -/
theorem QString.indexFrom_miss (p : Char → Bool) (a : QString) (i : Nat)
    (h : ∀ x ∈ a, p x = false) : QString.indexFrom p a i = -1 := by
  induction a generalizing i with
  | nil => rfl
  | cons x xs ih =>
    have hx : p x = false := h x (List.mem_cons_self _ _)
    have hxs : ∀ y ∈ xs, p y = false := fun y hy => h y (List.mem_cons_of_mem _ hy)
    simp only [QString.indexFrom, hx, Bool.false_eq_true, if_false]
    exact ih (i + 1) hxs

/-- `indexOf` finds the first occurrence: the character after a prefix without it. -/
theorem QString.indexOf_append_cons (a b : QString) (c : Char) (h : c ∉ a) :
    QString.indexOf (a ++ c :: b) c = (a.length : Int) := by
  unfold QString.indexOf
  rw [QString.indexFrom_skip _ a (c :: b) 0 (fun x hx => by
    simp only [beq_eq_false_iff_ne, ne_eq]
    intro e; exact h (e ▸ hx))]
  simp [QString.indexFrom]

/-- `indexOf` is `-1` for a character the string does not hold. -/
theorem QString.indexOf_not_mem (s : QString) (c : Char) (h : c ∉ s) :
    QString.indexOf s c = -1 := by
  unfold QString.indexOf
  exact QString.indexFrom_miss _ s 0 (fun x hx => by
    simp only [beq_eq_false_iff_ne, ne_eq]
    intro e; exact h (e ▸ hx))

/-- `mid` cuts the middle part out of a string made of three parts. -/
theorem QString.mid_middle (s a b c : QString) (position n : Int) (hs : s = a ++ b ++ c)
    (hpos : position = (a.length : Int)) (hn : n = (b.length : Int)) :
    QString.mid s position n = b := by
  subst hs hpos hn
  unfold QString.mid
  have h1 : ¬ ((a.length : Int) > ((a ++ b ++ c).length : Int)) := by
    simp only [List.length_append]; omega
  have h2 : ¬ ((a.length : Int) < 0) := by omega
  have h3 : ¬ ((b.length : Int) < 0 ∨ (b.length : Int) > ((a ++ b ++ c).length : Int) - a.length) := by
    simp only [List.length_append]; omega
  simp only [h1, h2, h3, if_false]
  simp

/-- `mid` with a negative length takes everything from the position on. -/
theorem QString.mid_rest (s a b : QString) (position n : Int) (hs : s = a ++ b)
    (hpos : position = (a.length : Int)) (hn : n < 0) :
    QString.mid s position n = b := by
  subst hs hpos
  unfold QString.mid
  have h1 : ¬ ((a.length : Int) > ((a ++ b).length : Int)) := by
    simp only [List.length_append]; omega
  have h2 : ¬ ((a.length : Int) < 0) := by omega
  simp only [h1, h2, if_false, hn, true_or, if_true]
  simp

/-- `left` takes a prefix. -/
theorem QString.left_prefix (s a b : QString) (n : Int) (hs : s = a ++ b)
    (hn : n = (a.length : Int)) : QString.left s n = a := by
  subst hs hn
  unfold QString.left
  split_ifs with h
  · rcases h with h | h
    · omega
    · simp only [List.length_append] at h
      have : b.length = 0 := by omega
      rw [List.length_eq_zero.mp this]; simp
  · simp

/-- The Trojan parser on a link `trojan://PW@H:P#F` without `?`: password, host,
port and name are the parts of the link, and the options are read from the
fragment `F`. -/
theorem trojan_link_fields (PW H P F subscriptionUrl : QString)
    (hPW : '@' ∉ PW ∧ ':' ∉ PW ∧ '#' ∉ PW ∧ '?' ∉ PW)
    (hH : '@' ∉ H ∧ ':' ∉ H ∧ '#' ∉ H ∧ '?' ∉ H)
    (hP : '@' ∉ P ∧ ':' ∉ P ∧ '#' ∉ P ∧ '?' ∉ P)
    (hF : '?' ∉ F) :
    getTrojanServerConfigFromUrl
        ("trojan://".toList ++ (PW ++ '@' :: (H ++ ':' :: (P ++ '#' :: F)))) subscriptionUrl
      = (getTrojanOptions F).foldl (fun serverConfig e => QJsonObject.insert serverConfig e.1 e.2)
          (QJsonObject.ofList [
            ("serverName".toList, .string (QString.trimmed
              (QUrl.fromPercentEncoding (QString.toUtf8 F)))),
            ("autoConnect".toList, .bool false),
            ("subscription".toList, .string subscriptionUrl),
            ("serverAddr".toList, .string H),
            ("serverPort".toList, .string P),
            ("password".toList, .string PW)]) := by
  obtain ⟨hPW1, hPW2, hPW3, hPW4⟩ := hPW
  obtain ⟨hH1, hH2, hH3, hH4⟩ := hH
  obtain ⟨hP1, hP2, hP3, hP4⟩ := hP
  have h9 : QString.midFrom
      ("trojan://".toList ++ (PW ++ '@' :: (H ++ ':' :: (P ++ '#' :: F)))) 9
      = PW ++ '@' :: (H ++ ':' :: (P ++ '#' :: F)) :=
    QString.midFrom_append "trojan://".toList _
  have hat : QString.indexOf (PW ++ '@' :: (H ++ ':' :: (P ++ '#' :: F))) '@'
      = (PW.length : Int) := QString.indexOf_append_cons PW _ '@' hPW1
  have hcolon : QString.indexOf (PW ++ '@' :: (H ++ ':' :: (P ++ '#' :: F))) ':'
      = ((PW ++ '@' :: H).length : Int) := by
    have e : PW ++ '@' :: (H ++ ':' :: (P ++ '#' :: F))
        = (PW ++ '@' :: H) ++ ':' :: (P ++ '#' :: F) := by simp
    rw [e]
    apply QString.indexOf_append_cons
    simp only [List.mem_append, List.mem_cons, not_or]
    exact ⟨hPW2, by decide, hH2⟩
  have hsharp : QString.indexOf (PW ++ '@' :: (H ++ ':' :: (P ++ '#' :: F))) '#'
      = ((PW ++ '@' :: (H ++ ':' :: P)).length : Int) := by
    have e : PW ++ '@' :: (H ++ ':' :: (P ++ '#' :: F))
        = (PW ++ '@' :: (H ++ ':' :: P)) ++ '#' :: F := by simp
    rw [e]
    apply QString.indexOf_append_cons
    simp only [List.mem_append, List.mem_cons, not_or]
    exact ⟨hPW3, by decide, hH3, by decide, hP3⟩
  have hq : QString.indexOf (PW ++ '@' :: (H ++ ':' :: (P ++ '#' :: F))) '?' = -1 := by
    apply QString.indexOf_not_mem
    simp only [List.mem_append, List.mem_cons, not_or]
    exact ⟨hPW4, by decide, hH4, by decide, hP4, by decide, hF⟩
  have hpw : QString.left (PW ++ '@' :: (H ++ ':' :: (P ++ '#' :: F))) (PW.length : Int) = PW :=
    QString.left_prefix _ PW _ _ rfl rfl
  have haddr : QString.mid (PW ++ '@' :: (H ++ ':' :: (P ++ '#' :: F)))
      ((PW.length : Int) + 1) (((PW ++ '@' :: H).length : Int) - (PW.length : Int) - 1) = H :=
    QString.mid_middle _ (PW ++ ['@']) H (':' :: (P ++ '#' :: F)) _ _ (by simp)
      (by simp) (by simp only [List.length_append, List.length_cons]; push_cast; omega)
  have hport : QString.mid (PW ++ '@' :: (H ++ ':' :: (P ++ '#' :: F)))
      (((PW ++ '@' :: H).length : Int) + 1)
      (((PW ++ '@' :: (H ++ ':' :: P)).length : Int) - ((PW ++ '@' :: H).length : Int) - 1)
      = P :=
    QString.mid_middle _ (PW ++ '@' :: (H ++ [':'])) P ('#' :: F) _ _ (by simp)
      (by simp only [List.length_append, List.length_cons, List.length_nil]; push_cast; omega)
      (by simp only [List.length_append, List.length_cons]; push_cast; omega)
  have hopt : QString.mid (PW ++ '@' :: (H ++ ':' :: (P ++ '#' :: F)))
      (((PW ++ '@' :: (H ++ ':' :: P)).length : Int) + 1)
      (((PW ++ '@' :: (H ++ ':' :: P)).length : Int)
        - ((PW ++ '@' :: (H ++ ':' :: P)).length : Int) - 1) = F :=
    QString.mid_rest _ (PW ++ '@' :: (H ++ ':' :: (P ++ ['#']))) F _ _ (by simp)
      (by simp only [List.length_append, List.length_cons, List.length_nil]; push_cast; omega)
      (by omega)
  have hname : QString.midFrom (PW ++ '@' :: (H ++ ':' :: (P ++ '#' :: F)))
      (((PW ++ '@' :: (H ++ ':' :: P)).length : Int) + 1) = F :=
    QString.mid_rest _ (PW ++ '@' :: (H ++ ':' :: (P ++ ['#']))) F _ _ (by simp)
      (by simp only [List.length_append, List.length_cons, List.length_nil]; push_cast; omega)
      (by omega)
  unfold getTrojanServerConfigFromUrl
  simp only [h9, hat, hcolon, hsharp, hq, if_true, hpw, haddr, hport, hopt, hname]

/-- An object with the four option keys contains no other key. -/
theorem QJsonObject.contains_options (a b c d : QJsonValue) (k : QString)
    (h1 : k ≠ "allowInsecure".toList) (h2 : k ≠ "alpn".toList) (h3 : k ≠ "sni".toList)
    (h4 : k ≠ "udp".toList) :
    QJsonObject.contains
      [("allowInsecure".toList, a), ("alpn".toList, b), ("sni".toList, c),
       ("udp".toList, d)] k = false := by
  have e1 : (k == "allowInsecure".toList) = false := beq_eq_false_iff_ne.mpr h1
  have e2 : (k == "alpn".toList) = false := beq_eq_false_iff_ne.mpr h2
  have e3 : (k == "sni".toList) = false := beq_eq_false_iff_ne.mpr h3
  have e4 : (k == "udp".toList) = false := beq_eq_false_iff_ne.mpr h4
  simp only [QJsonObject.contains, List.lookup, e1, e2, e3, e4]
  rfl

/-- One step of the loop of `getTrojanOptions` keeps the four keys, each with a
defined value. -/
theorem getTrojanOptions_step (a b c d : QJsonValue) (k v : QString)
    (ha : a ≠ .undefined) (hb : b ≠ .undefined) (hc : c ≠ .undefined) (hd : d ≠ .undefined) :
    ∃ a1 b1 c1 d1 : QJsonValue,
      (if QJsonObject.contains
            [("allowInsecure".toList, a), ("alpn".toList, b), ("sni".toList, c),
             ("udp".toList, d)] k
        then QJsonObject.insert
            [("allowInsecure".toList, a), ("alpn".toList, b), ("sni".toList, c),
             ("udp".toList, d)] k (.string v)
        else [("allowInsecure".toList, a), ("alpn".toList, b), ("sni".toList, c),
             ("udp".toList, d)])
        = [("allowInsecure".toList, a1), ("alpn".toList, b1), ("sni".toList, c1),
           ("udp".toList, d1)]
      ∧ a1 ≠ .undefined ∧ b1 ≠ .undefined ∧ c1 ≠ .undefined ∧ d1 ≠ .undefined := by
  by_cases h1 : k = "allowInsecure".toList
  · subst h1; exact ⟨.string v, b, c, d, rfl, nofun, hb, hc, hd⟩
  by_cases h2 : k = "alpn".toList
  · subst h2; exact ⟨a, .string v, c, d, rfl, ha, nofun, hc, hd⟩
  by_cases h3 : k = "sni".toList
  · subst h3; exact ⟨a, b, .string v, d, rfl, ha, hb, nofun, hd⟩
  by_cases h4 : k = "udp".toList
  · subst h4; exact ⟨a, b, c, .string v, rfl, ha, hb, hc, nofun⟩
  refine ⟨a, b, c, d, ?_, ha, hb, hc, hd⟩
  rw [QJsonObject.contains_options a b c d k h1 h2 h3 h4]
  rfl

/-- The loop of `getTrojanOptions` keeps the four keys, each with a defined
value. -/
theorem getTrojanOptions_loop (items : List (QString × QString)) :
    ∀ a b c d : QJsonValue, a ≠ .undefined → b ≠ .undefined → c ≠ .undefined →
      d ≠ .undefined →
      ∃ a1 b1 c1 d1 : QJsonValue,
        items.foldl
          (fun options p =>
            if QJsonObject.contains options p.1
            then QJsonObject.insert options p.1 (.string p.2) else options)
          [("allowInsecure".toList, a), ("alpn".toList, b), ("sni".toList, c),
           ("udp".toList, d)]
          = [("allowInsecure".toList, a1), ("alpn".toList, b1), ("sni".toList, c1),
             ("udp".toList, d1)]
        ∧ a1 ≠ .undefined ∧ b1 ≠ .undefined ∧ c1 ≠ .undefined ∧ d1 ≠ .undefined := by
  induction items with
  | nil => intro a b c d ha hb hc hd; exact ⟨a, b, c, d, rfl, ha, hb, hc, hd⟩
  | cons p rest ih =>
    intro a b c d ha hb hc hd
    obtain ⟨a1, b1, c1, d1, he, ha1, hb1, hc1, hd1⟩ :=
      getTrojanOptions_step a b c d p.1 p.2 ha hb hc hd
    rw [List.foldl_cons, he]
    exact ih a1 b1 c1 d1 ha1 hb1 hc1 hd1

/-- `getTrojanOptions` returns exactly the four keys `allowInsecure`, `alpn`,
`sni` and `udp`, each with a defined value. -/
theorem getTrojanOptions_shape (optionString : QString) :
    ∃ a b c d : QJsonValue,
      getTrojanOptions optionString
        = [("allowInsecure".toList, a), ("alpn".toList, b), ("sni".toList, c),
           ("udp".toList, d)]
      ∧ a ≠ .undefined ∧ b ≠ .undefined ∧ c ≠ .undefined ∧ d ≠ .undefined :=
  getTrojanOptions_loop (QUrlQuery.queryItems optionString)
    DEFAULT_TROJRAN_ALLOW_INSECURE DEFAULT_TROJRAN_ALPN DEFAULT_TROJRAN_SNI
    DEFAULT_TROJRAN_ENABLE_UDP nofun nofun nofun nofun

/-- Writing a defined value is `insertEntry`. -/
theorem QJsonObject.insert_defined (o : QJsonObject) (k : QString) (v : QJsonValue)
    (hv : v ≠ .undefined) : QJsonObject.insert o k v = QJsonObject.insertEntry o k v := by
  unfold QJsonObject.insert
  rw [if_neg hv]

/-- The record of a link `trojan://PW@H:P#F` without `?`, where `PW`, `H` and `P`
hold none of `@`, `:`, `#`: password `PW`, serverAddr `H`, serverPort `P`,
serverName the trimmed percent-decoding of `F`, and the four options as
`getTrojanOptions` reads them from the fragment `F`. -/
theorem trojan_link_record (PW H P F subscriptionUrl : QString)
    (hPW : '@' ∉ PW ∧ ':' ∉ PW ∧ '#' ∉ PW ∧ '?' ∉ PW)
    (hH : '@' ∉ H ∧ ':' ∉ H ∧ '#' ∉ H ∧ '?' ∉ H)
    (hP : '@' ∉ P ∧ ':' ∉ P ∧ '#' ∉ P ∧ '?' ∉ P)
    (hF : '?' ∉ F) :
    getTrojanServerConfigFromUrl
        ("trojan://".toList ++ (PW ++ '@' :: (H ++ ':' :: (P ++ '#' :: F)))) subscriptionUrl
      = [("allowInsecure".toList, QJsonObject.value (getTrojanOptions F) "allowInsecure".toList),
         ("alpn".toList, QJsonObject.value (getTrojanOptions F) "alpn".toList),
         ("autoConnect".toList, .bool false),
         ("password".toList, .string PW),
         ("serverAddr".toList, .string H),
         ("serverName".toList, .string (QString.trimmed
            (QUrl.fromPercentEncoding (QString.toUtf8 F)))),
         ("serverPort".toList, .string P),
         ("sni".toList, QJsonObject.value (getTrojanOptions F) "sni".toList),
         ("subscription".toList, .string subscriptionUrl),
         ("udp".toList, QJsonObject.value (getTrojanOptions F) "udp".toList)] := by
  rw [trojan_link_fields PW H P F subscriptionUrl hPW hH hP hF]
  obtain ⟨a, b, c, d, he, ha, hb, hc, hd⟩ := getTrojanOptions_shape F
  rw [he]
  simp only [List.foldl_cons, List.foldl_nil]
  rw [QJsonObject.insert_defined _ _ a ha, QJsonObject.insert_defined _ _ b hb,
    QJsonObject.insert_defined _ _ c hc, QJsonObject.insert_defined _ _ d hd]
  rfl

/-- The options keep their defaults when the option string, read as a query, has
none of the four keys. -/
theorem getTrojanOptions_defaults (optionString : QString)
    (h : ∀ p ∈ QUrlQuery.queryItems optionString,
      p.1 ≠ "allowInsecure".toList ∧ p.1 ≠ "alpn".toList ∧ p.1 ≠ "sni".toList
        ∧ p.1 ≠ "udp".toList) :
    getTrojanOptions optionString
      = [("allowInsecure".toList, .bool false), ("alpn".toList, .string "h2,http/1.1".toList),
         ("sni".toList, .string []), ("udp".toList, .bool false)] := by
  unfold getTrojanOptions
  generalize QUrlQuery.queryItems optionString = items at h
  have hbase : QJsonObject.ofList [
      ("sni".toList, DEFAULT_TROJRAN_SNI), ("udp".toList, DEFAULT_TROJRAN_ENABLE_UDP),
      ("alpn".toList, DEFAULT_TROJRAN_ALPN),
      ("allowInsecure".toList, DEFAULT_TROJRAN_ALLOW_INSECURE)]
      = [("allowInsecure".toList, .bool false), ("alpn".toList, .string "h2,http/1.1".toList),
         ("sni".toList, .string []), ("udp".toList, .bool false)] := by decide
  simp only [hbase]
  induction items with
  | nil => rfl
  | cons p rest ih =>
    have hp := h p (List.mem_cons_self _ _)
    have hno := QJsonObject.contains_options (.bool false) (.string "h2,http/1.1".toList)
      (.string []) (.bool false) p.1 hp.1 hp.2.1 hp.2.2.1 hp.2.2.2
    rw [List.foldl_cons, hno]
    exact ih (fun q hq => h q (List.mem_cons_of_mem _ hq))

/-! ### Reading a `QJsonObject` after a write -/

/-- The first entry answers for its key. -/
theorem QJsonObject.value_cons_self (k : QString) (v : QJsonValue) (rest : QJsonObject) :
    QJsonObject.value ((k, v) :: rest) k = v := by
  simp [QJsonObject.value, List.lookup]

/-- The first entry is passed over for another key. -/
theorem QJsonObject.value_cons_ne (k k' : QString) (v : QJsonValue) (rest : QJsonObject)
    (h : k' ≠ k) : QJsonObject.value ((k, v) :: rest) k' = QJsonObject.value rest k' := by
  have e : (k' == k) = false := beq_eq_false_iff_ne.mpr h
  simp only [QJsonObject.value, List.lookup, e]

/-- `insertEntry` leaves the values of the other keys alone. -/
theorem QJsonObject.value_insertEntry_ne (o : QJsonObject) (k k' : QString) (v : QJsonValue)
    (h : k' ≠ k) :
    QJsonObject.value (QJsonObject.insertEntry o k v) k' = QJsonObject.value o k' := by
  induction o with
  | nil =>
    simp only [QJsonObject.insertEntry]
    exact QJsonObject.value_cons_ne k k' v [] h
  | cons e rest ih =>
    obtain ⟨k0, w⟩ := e
    simp only [QJsonObject.insertEntry]
    split_ifs with h1 h2
    · subst h1
      rw [QJsonObject.value_cons_ne _ _ _ _ h, QJsonObject.value_cons_ne _ _ _ _ h]
    · rw [QJsonObject.value_cons_ne _ _ _ _ h]
    · by_cases h3 : k' = k0
      · subst h3
        rw [QJsonObject.value_cons_self, QJsonObject.value_cons_self]
      · rw [QJsonObject.value_cons_ne _ _ _ _ h3, QJsonObject.value_cons_ne _ _ _ _ h3, ih]

/-- `insertEntry` stores the value under its key. -/
theorem QJsonObject.value_insertEntry_self (o : QJsonObject) (k : QString) (v : QJsonValue) :
    QJsonObject.value (QJsonObject.insertEntry o k v) k = v := by
  induction o with
  | nil => exact QJsonObject.value_cons_self k v []
  | cons e rest ih =>
    obtain ⟨k0, w⟩ := e
    simp only [QJsonObject.insertEntry]
    split_ifs with h1 h2
    · exact QJsonObject.value_cons_self k v rest
    · exact QJsonObject.value_cons_self k v _
    · rw [QJsonObject.value_cons_ne _ _ _ _ h1, ih]

/-- `remove` leaves the values of the other keys alone. -/
theorem QJsonObject.value_remove_ne (o : QJsonObject) (k k' : QString) (h : k' ≠ k) :
    QJsonObject.value (QJsonObject.remove o k) k' = QJsonObject.value o k' := by
  induction o with
  | nil => rfl
  | cons e rest ih =>
    obtain ⟨k0, w⟩ := e
    unfold QJsonObject.remove at ih ⊢
    by_cases h0 : k0 = k
    · subst h0
      rw [List.filter_cons_of_neg (by simp), ih, QJsonObject.value_cons_ne _ _ _ _ h]
    · rw [List.filter_cons_of_pos (by simpa using h0)]
      by_cases h3 : k' = k0
      · subst h3
        rw [QJsonObject.value_cons_self, QJsonObject.value_cons_self]
      · rw [QJsonObject.value_cons_ne _ _ _ _ h3, QJsonObject.value_cons_ne _ _ _ _ h3, ih]

/-- A write, `o[k] = v`, leaves the values of the other keys alone. -/
theorem QJsonObject.value_insert_ne (o : QJsonObject) (k k' : QString) (v : QJsonValue)
    (h : k' ≠ k) :
    QJsonObject.value (QJsonObject.insert o k v) k' = QJsonObject.value o k' := by
  unfold QJsonObject.insert
  split_ifs
  · exact QJsonObject.value_remove_ne o k k' h
  · exact QJsonObject.value_insertEntry_ne o k k' v h

/-- A write of a defined value is read back. -/
theorem QJsonObject.value_insert_self (o : QJsonObject) (k : QString) (v : QJsonValue)
    (hv : v ≠ .undefined) : QJsonObject.value (QJsonObject.insert o k v) k = v := by
  unfold QJsonObject.insert
  rw [if_neg hv]
  exact QJsonObject.value_insertEntry_self o k v

/-- Writing the pairs of a query into a record leaves alone every key that no
pair has. -/
theorem QJsonObject.value_foldl_items (items : List (QString × QString)) (o : QJsonObject)
    (k : QString) (h : ∀ p ∈ items, p.1 ≠ k) :
    QJsonObject.value
      (items.foldl (fun serverConfig p => QJsonObject.insert serverConfig p.1 (.string p.2)) o) k
      = QJsonObject.value o k := by
  induction items generalizing o with
  | nil => rfl
  | cons p rest ih =>
    rw [List.foldl_cons, ih _ (fun q hq => h q (List.mem_cons_of_mem _ hq))]
    exact QJsonObject.value_insert_ne o p.1 k _ (fun e => h p (List.mem_cons_self _ _) e.symm)

/-! ### A port that is not a number in an SSR link -/

/-- The SSR link whose payload is the base64 of
`example.com:abc:origin:aes-256-cfb:plain:cHc/?remarks=eA` (port field `abc`)
parses to a record whose `serverPort` is the integer 0. -/
theorem ssr_port_text_record :
    getShadowsocksRServerConfigFromUrl
      ("ssr://ZXhhbXBsZS5jb206YWJjOm9yaWdpbjphZXMtMjU2LWNmYjpwbGFpbjpjSGMvP3JlbWFya3M9ZUE=").toList
      []
    = [("autoConnect".toList, .bool false),
       ("encryption".toList, .string "aes-256-cfb".toList),
       ("password".toList, .string "cHc".toList),
       ("plugins".toList, .object [("obfs".toList, .string "plain".toList),
         ("protocol".toList, .string "origin".toList)]),
       ("remarks".toList, .string "eA".toList),
       ("serverAddr".toList, .string "example.com".toList),
       ("serverName".toList, .string "example.com:0".toList),
       ("serverPort".toList, .double 0),
       ("subscription".toList, .string [])] := by
  decide!

/-- The SSR link whose payload is the base64 of
`example.com:99999:origin:aes-256-cfb:plain:cHc/?remarks=eA` parses to a record
whose `serverPort` is the integer 99999. -/
theorem ssr_port_large_record :
    QJsonObject.value (getShadowsocksRServerConfigFromUrl
      ("ssr://ZXhhbXBsZS5jb206OTk5OTk6b3JpZ2luOmFlcy0yNTYtY2ZiOnBsYWluOmNIYy8/cmVtYXJrcz1lQQ==").toList
      []) "serverPort".toList = .double 99999 := by
  decide!

/-- C11, at the failing input. The port field `abc` of the link is no decimal
integer; `toInt()` turns it into 0, the record is not empty, and the Server Port
check of the Shadowsocks validator passes for every collaborator: no numeric
diagnostic is reported, and with the sample collaborators the record is valid.
The port 99999 is kept and is reported. -/
theorem ssr_port_coerced (U : Utility) :
    QJsonObject.value (getShadowsocksRServerConfigFromUrl
      ("ssr://ZXhhbXBsZS5jb206YWJjOm9yaWdpbjphZXMtMjU2LWNmYjpwbGFpbjpjSGMvP3JlbWFya3M9ZUE=").toList
      []) "serverPort".toList = .double 0
    ∧ U.getNumericConfigError (getShadowsocksRServerConfigFromUrl
      ("ssr://ZXhhbXBsZS5jb206YWJjOm9yaWdpbjphZXMtMjU2LWNmYjpwbGFpbjpjSGMvP3JlbWFya3M9ZUE=").toList
      []) "serverPort".toList (tr "Server Port".toList) 0 65535 = []
    ∧ getServerConfigErrors (Utility.sample []) Protocol.SHADOWSOCKS
      (getShadowsocksRServerConfigFromUrl
      ("ssr://ZXhhbXBsZS5jb206YWJjOm9yaWdpbjphZXMtMjU2LWNmYjpwbGFpbjpjSGMvP3JlbWFya3M9ZUE=").toList
      []) none = []
    ∧ U.getNumericConfigError (getShadowsocksRServerConfigFromUrl
      ("ssr://ZXhhbXBsZS5jb206OTk5OTk6b3JpZ2luOmFlcy0yNTYtY2ZiOnBsYWluOmNIYy8/cmVtYXJrcz1lQQ==").toList
      []) "serverPort".toList (tr "Server Port".toList) 0 65535
      = U.numericError "Server Port".toList := by
  refine ⟨?_, ?_, ?_, ?_⟩
  · rw [ssr_port_text_record]; rfl
  · rw [ssr_port_text_record]; rfl
  · rw [ssr_port_text_record]; decide
  · unfold Utility.getNumericConfigError
    rw [ssr_port_large_record]
    rfl

/-! ### A `vmess://` payload that does not decode -/

/-- C12, counterexample. The payload `!!` is not valid base64; the record for
`vmess://!!` is not the empty record: it has fourteen keys. -/
theorem vmess_bad_payload_counterexample :
    getV2RayServerConfigFromUrl "vmess://!!".toList [] ≠ []
    ∧ QJsonObject.keys (getV2RayServerConfigFromUrl "vmess://!!".toList [])
      = ["alterId".toList, "autoConnect".toList, "id".toList, "network".toList,
         "networkHost".toList, "networkPath".toList, "networkSecurity".toList,
         "security".toList, "serverAddr".toList, "serverName".toList, "serverPort".toList,
         "subscription".toList, "tcpHeaderType".toList, "udp".toList] := by
  decide!

/-- Bytes that are not valid base64 decode to nothing, and nothing is no JSON
object. -/
theorem fromJsonObject_of_abort (base64 : QByteArray)
    (h : QByteArray.fromBase64Loop base64.length base64 0 0 0 = none) :
    QJsonDocument.fromJsonObject (QByteArray.fromBase64 base64) = [] := by
  unfold QByteArray.fromBase64
  rw [h]
  rfl

/-- The record of the empty payload object. -/
theorem getV2RayServerConfigFromRaw_nil (subscriptionUrl : QString) :
    getV2RayServerConfigFromRaw [] subscriptionUrl
      = [("alterId".toList, .double 0), ("autoConnect".toList, .bool false),
         ("id".toList, .string []), ("network".toList, .string "tcp".toList),
         ("networkHost".toList, .string []), ("networkPath".toList, .string []),
         ("networkSecurity".toList, .string "none".toList),
         ("security".toList, .string "auto".toList),
         ("serverAddr".toList, .string []), ("serverName".toList, .string []),
         ("serverPort".toList, .string "0".toList),
         ("subscription".toList, .string subscriptionUrl),
         ("tcpHeaderType".toList, .string []), ("udp".toList, .bool false)] := by
  rfl

/-- C12, amended. For every `vmess://` link whose payload is not valid base64 or
does not decode to a JSON object with members, `getV2RayServerConfigFromUrl`
returns the record of the empty payload object: it has the fourteen keys of a
VMess record, with serverName, serverAddr, id, networkHost, networkPath and
tcpHeaderType empty, alterId 0, network `tcp`, networkSecurity `none`, security
`auto`, udp and autoConnect false, and the subscription URL it was given. -/
theorem vmess_bad_payload_defaults (server subscriptionUrl : QString)
    (h : QByteArray.fromBase64Loop (QString.toUtf8 (QString.midFrom server 8)).length
          (QString.toUtf8 (QString.midFrom server 8)) 0 0 0 = none
        ∨ QJsonDocument.fromJsonObject
            (QByteArray.fromBase64 (QString.toUtf8 (QString.midFrom server 8))) = []) :
    QJsonObject.keys (getV2RayServerConfigFromUrl server subscriptionUrl)
      = ["alterId".toList, "autoConnect".toList, "id".toList, "network".toList,
         "networkHost".toList, "networkPath".toList, "networkSecurity".toList,
         "security".toList, "serverAddr".toList, "serverName".toList, "serverPort".toList,
         "subscription".toList, "tcpHeaderType".toList, "udp".toList]
    ∧ QJsonObject.value (getV2RayServerConfigFromUrl server subscriptionUrl)
        "serverName".toList = .string []
    ∧ QJsonObject.value (getV2RayServerConfigFromUrl server subscriptionUrl)
        "serverAddr".toList = .string []
    ∧ QJsonObject.value (getV2RayServerConfigFromUrl server subscriptionUrl)
        "id".toList = .string []
    ∧ QJsonObject.value (getV2RayServerConfigFromUrl server subscriptionUrl)
        "networkHost".toList = .string []
    ∧ QJsonObject.value (getV2RayServerConfigFromUrl server subscriptionUrl)
        "networkPath".toList = .string []
    ∧ QJsonObject.value (getV2RayServerConfigFromUrl server subscriptionUrl)
        "tcpHeaderType".toList = .string []
    ∧ QJsonObject.value (getV2RayServerConfigFromUrl server subscriptionUrl)
        "alterId".toList = .double 0
    ∧ QJsonObject.value (getV2RayServerConfigFromUrl server subscriptionUrl)
        "network".toList = .string "tcp".toList
    ∧ QJsonObject.value (getV2RayServerConfigFromUrl server subscriptionUrl)
        "networkSecurity".toList = .string "none".toList
    ∧ QJsonObject.value (getV2RayServerConfigFromUrl server subscriptionUrl)
        "security".toList = .string "auto".toList
    ∧ QJsonObject.value (getV2RayServerConfigFromUrl server subscriptionUrl)
        "udp".toList = .bool false
    ∧ QJsonObject.value (getV2RayServerConfigFromUrl server subscriptionUrl)
        "autoConnect".toList = .bool false
    ∧ QJsonObject.value (getV2RayServerConfigFromUrl server subscriptionUrl)
        "subscription".toList = .string subscriptionUrl := by
  have h0 : QJsonDocument.fromJsonObject
      (QByteArray.fromBase64 (QString.toUtf8 (QString.midFrom server 8))) = [] := by
    rcases h with h | h
    · exact fromJsonObject_of_abort _ h
    · exact h
  unfold getV2RayServerConfigFromUrl
  rw [h0, getV2RayServerConfigFromRaw_nil]
  refine ⟨rfl, rfl, rfl, rfl, rfl, rfl, rfl, rfl, rfl, rfl, rfl, rfl, rfl, rfl⟩

/-- C12 on concrete links: `vmess://!!` (not base64) and `vmess://WzFd` (the JSON
array `[1]`) both give the record of the empty payload object. -/
theorem vmess_bad_payload_witness :
    QJsonObject.value (getV2RayServerConfigFromUrl "vmess://!!".toList "feed".toList)
        "subscription".toList = .string "feed".toList
    ∧ QJsonObject.value (getV2RayServerConfigFromUrl "vmess://WzFd".toList [])
        "network".toList = .string "tcp".toList :=
  ⟨(vmess_bad_payload_defaults "vmess://!!".toList "feed".toList
      (Or.inl (by decide!))).2.2.2.2.2.2.2.2.2.2.2.2.2,
   (vmess_bad_payload_defaults "vmess://WzFd".toList []
      (Or.inr (by decide!))).2.2.2.2.2.2.2.2.1⟩

/-! ### The fields of an SSR payload -/

/-- The name `host:port` made by `QString("%1:%2").arg(host, port)`. -/
theorem QString.multiArg_host_port (a b : QString) :
    QString.multiArg "%1:%2".toList [a, b] = a ++ ':' :: b := by
  show a ++ (':' :: (b ++ [])) = a ++ ':' :: b
  rw [List.append_nil]

/-- The SSR parser on a decoded text whose head does not split into six fields:
the empty record. -/
theorem getShadowsocksRServerConfigFromText_not_six (T subscriptionUrl : QString)
    (h : (QString.split (QString.left T (QString.indexOfStr T "/?".toList)) ':').length ≠ 6) :
    getShadowsocksRServerConfigFromText T subscriptionUrl = [] := by
  unfold getShadowsocksRServerConfigFromText
  simp only [h, ne_eq, not_false_eq_true, if_true]

/-- The SSR parser on a decoded text whose head splits into the six fields
`f0 .. f5`: the record got from the head, before the pairs of the tail are
written into it. -/
theorem getShadowsocksRServerConfigFromText_six (T subscriptionUrl f0 f1 f2 f3 f4 f5 : QString)
    (h : QString.split (QString.left T (QString.indexOfStr T "/?".toList)) ':'
      = [f0, f1, f2, f3, f4, f5]) :
    getShadowsocksRServerConfigFromText T subscriptionUrl
      = (QUrlQuery.queryItems
          (QString.midFrom T (QString.indexOfStr T "/?".toList + 2))).foldl
        (fun serverConfig p => QJsonObject.insert serverConfig p.1 (.string p.2))
        [("autoConnect".toList, .bool false),
         ("encryption".toList, .string f3),
         ("password".toList, .string f5),
         ("plugins".toList, .object [("obfs".toList, .string f4),
           ("protocol".toList, .string f2)]),
         ("serverAddr".toList, .string f0),
         ("serverName".toList, .string (f0 ++ ':' :: QString.number (QString.toInt f1))),
         ("serverPort".toList, .double (QString.toInt f1)),
         ("subscription".toList, .string subscriptionUrl)] := by
  unfold getShadowsocksRServerConfigFromText
  simp only [h]
  rw [← QString.multiArg_host_port]
  rfl

/-- The fields the SSR parser takes from a six-field head stay as they are when
no pair of the text read as the tail has a schema key of the head: serverAddr is
field 1, serverPort the integer value of field 2, plugins.protocol field 3,
encryption field 4, plugins.obfs field 5 and serverName `host:port`. -/
theorem getShadowsocksRServerConfigFromText_fields
    (T subscriptionUrl f0 f1 f2 f3 f4 f5 : QString)
    (h : QString.split (QString.left T (QString.indexOfStr T "/?".toList)) ':'
      = [f0, f1, f2, f3, f4, f5])
    (hkeys : ∀ p ∈ QUrlQuery.queryItems
        (QString.midFrom T (QString.indexOfStr T "/?".toList + 2)),
      p.1 ≠ "serverAddr".toList ∧ p.1 ≠ "serverPort".toList ∧ p.1 ≠ "plugins".toList
        ∧ p.1 ≠ "encryption".toList ∧ p.1 ≠ "serverName".toList) :
    QJsonObject.value (getShadowsocksRServerConfigFromText T subscriptionUrl)
        "serverAddr".toList = .string f0
    ∧ QJsonObject.value (getShadowsocksRServerConfigFromText T subscriptionUrl)
        "serverPort".toList = .double (QString.toInt f1)
    ∧ QJsonObject.value (getShadowsocksRServerConfigFromText T subscriptionUrl)
        "plugins".toList
        = .object [("obfs".toList, .string f4), ("protocol".toList, .string f2)]
    ∧ QJsonObject.value (getShadowsocksRServerConfigFromText T subscriptionUrl)
        "encryption".toList = .string f3
    ∧ QJsonObject.value (getShadowsocksRServerConfigFromText T subscriptionUrl)
        "serverName".toList = .string (f0 ++ ':' :: QString.number (QString.toInt f1)) := by
  rw [getShadowsocksRServerConfigFromText_six T subscriptionUrl f0 f1 f2 f3 f4 f5 h]
  refine ⟨?_, ?_, ?_, ?_, ?_⟩
  · rw [QJsonObject.value_foldl_items _ _ _ (fun p hp => (hkeys p hp).1)]; rfl
  · rw [QJsonObject.value_foldl_items _ _ _ (fun p hp => (hkeys p hp).2.1)]; rfl
  · rw [QJsonObject.value_foldl_items _ _ _ (fun p hp => (hkeys p hp).2.2.1)]; rfl
  · rw [QJsonObject.value_foldl_items _ _ _ (fun p hp => (hkeys p hp).2.2.2.1)]; rfl
  · rw [QJsonObject.value_foldl_items _ _ _ (fun p hp => (hkeys p hp).2.2.2.2)]; rfl

/-- C13, at the failing input. The payload `aDoxOnA6ZTpvOnB3JnNlcnZlckFkZHI9ZXZpbA==`
decodes to `h:1:p:e:o:pw&serverAddr=evil`, which has no `/?`: `sepIndex` is `-1`,
the head is the whole text and splits into six fields, and the tail is read
with `mid(sepIndex + 2)`, that is from the second character of the head. Its
pair `serverAddr=evil` replaces field 1, and its pair `:1:p:e:o:pw` becomes a key
of the record. -/
theorem ssr_head_read_as_tail :
    getShadowsocksRPayloadText "aDoxOnA6ZTpvOnB3JnNlcnZlckFkZHI9ZXZpbA==".toList
      = "h:1:p:e:o:pw&serverAddr=evil".toList
    ∧ QString.indexOfStr "h:1:p:e:o:pw&serverAddr=evil".toList "/?".toList = -1
    ∧ QString.split "h:1:p:e:o:pw&serverAddr=evil".toList ':'
      = ["h".toList, "1".toList, "p".toList, "e".toList, "o".toList,
         "pw&serverAddr=evil".toList]
    ∧ getShadowsocksRServerConfigFromUrl
        "ssr://aDoxOnA6ZTpvOnB3JnNlcnZlckFkZHI9ZXZpbA==".toList []
      = [(":1:p:e:o:pw".toList, .string []),
         ("autoConnect".toList, .bool false),
         ("encryption".toList, .string "e".toList),
         ("password".toList, .string "pw&serverAddr=evil".toList),
         ("plugins".toList, .object [("obfs".toList, .string "o".toList),
           ("protocol".toList, .string "p".toList)]),
         ("serverAddr".toList, .string "evil".toList),
         ("serverName".toList, .string "h:1".toList),
         ("serverPort".toList, .double 1),
         ("subscription".toList, .string [])] := by
  decide!

/-! ### Stream settings of an imported outbound -/

/-- The object `getV2RayStreamSettingsFromConfig` reads is its second argument
whenever that one is not empty; the first argument then plays no part. -/
theorem getV2RayStreamSettingsFromConfig_second (K : KcpDefaults)
    (first first2 second : QJsonObject) (h : second ≠ []) :
    getV2RayStreamSettingsFromConfig K first second
      = getV2RayStreamSettingsFromConfig K first2 second := by
  have he : second.isEmpty = false := by
    cases second with
    | nil => exact absurd rfl h
    | cons _ _ => rfl
  unfold getV2RayStreamSettingsFromConfig
  simp only [he]
  rfl

/-- In `getServerConfigFromV2RayConfig` the second argument is the top-level
`transport` of the document: when it is not empty, the stream settings of a
record do not depend on the `streamSettings` of its outbound. -/
theorem outbound_stream_settings_from_transport (K : KcpDefaults)
    (config : QJsonObject) (own other : QJsonObject)
    (h : (QJsonObject.value config "transport".toList).toObject ≠ []) :
    getV2RayStreamSettingsFromConfig K own
        (QJsonObject.value config "transport".toList).toObject
      = getV2RayStreamSettingsFromConfig K other
        (QJsonObject.value config "transport".toList).toObject :=
  getV2RayStreamSettingsFromConfig_second K own other _ h

/-- C14, at the failing input. The document has the top-level transport
`{network: tcp, tcpSettings: {header: {type: http}}}` and one vmess outbound whose
own streamSettings are `{network: ws, security: tls, wsSettings: {path: /own,
headers: {Host: own.example}}}`. The call passes the outbound's streamSettings
as the parameter `transport` and the top-level transport as the parameter
`streamSettings`, so the record is built from the top-level transport: network
`tcp`, tcpHeaderType `http`, networkSecurity `none`, and neither networkHost nor
networkPath. -/
theorem transport_overrides_stream_settings (K : KcpDefaults) :
    getServerConfigFromV2RayConfig K
      [("outbounds".toList, .array [.object [
          ("protocol".toList, .string "vmess".toList),
          ("settings".toList, .object [("vnext".toList, .array [.object [
            ("address".toList, .string "h".toList),
            ("port".toList, .double 443),
            ("users".toList, .array [.object [("id".toList, .string "U".toList)]])]])]),
          ("streamSettings".toList, .object [
            ("network".toList, .string "ws".toList),
            ("security".toList, .string "tls".toList),
            ("wsSettings".toList, .object [
              ("headers".toList, .object [("Host".toList, .string "own.example".toList)]),
              ("path".toList, .string "/own".toList)])])]]),
       ("transport".toList, .object [
          ("network".toList, .string "tcp".toList),
          ("tcpSettings".toList, .object [("header".toList, .object [
            ("type".toList, .string "http".toList)])])])]
    = [[("allowInsecure".toList, .bool true), ("alterId".toList, .double 0),
        ("id".toList, .string "U".toList), ("mux".toList, .double (-1)),
        ("network".toList, .string "tcp".toList),
        ("networkSecurity".toList, .string "none".toList),
        ("security".toList, .string "auto".toList),
        ("serverAddr".toList, .string "h".toList),
        ("serverName".toList, .string "h:443".toList),
        ("serverPort".toList, .double 443),
        ("tcpHeaderType".toList, .string "http".toList)]] := by
  rfl

/-! ### The checks on a `ws` record -/

/-- The string check on a value that is no string (or is missing): the missing
diagnostic. -/
theorem getStringConfigError_not_string (U : Utility) (config : QJsonObject)
    (key label : QString) (predicates : List (QString → Bool)) (optional : Bool)
    (t : Option QString) (h : ∀ v : QString, QJsonObject.value config key ≠ .string v) :
    U.getStringConfigError config key label predicates optional t = U.missingError label := by
  unfold Utility.getStringConfigError
  cases hv : QJsonObject.value config key with
  | string v => exact absurd hv (h v)
  | null => rfl
  | bool _ => rfl
  | double _ => rfl
  | array _ => rfl
  | object _ => rfl
  | undefined => rfl

/-- The optional string check with no predicate accepts every string, the empty
one too. -/
theorem getStringConfigError_optional_plain (U : Utility) (config : QJsonObject)
    (key label v : QString) (t : Option QString)
    (hv : QJsonObject.value config key = .string v) :
    U.getStringConfigError config key label [] true t = [] := by
  simp [Utility.getStringConfigError, hv]

/-- The optional string check with one predicate and no custom template judges
every string by the predicate, the empty one too. -/
theorem getStringConfigError_optional_one (U : Utility) (config : QJsonObject)
    (key label v : QString) (p : QString → Bool)
    (hv : QJsonObject.value config key = .string v) :
    U.getStringConfigError config key label [p] true none
      = if p v = false then U.invalidError label else [] := by
  simp [Utility.getStringConfigError, hv]

/-- C15, counterexample. A VMess record with network `ws`, a valid networkHost
and the empty networkPath: the stream-settings check returns two empty
messages, no Path diagnostic, and the record is valid. -/
theorem ws_empty_path_counterexample :
    getV2RayStreamSettingsErrors (Utility.sample [])
        [("alterId".toList, .double 0), ("id".toList, .string "U".toList),
         ("network".toList, .string "ws".toList),
         ("networkHost".toList, .string "example.com".toList),
         ("networkPath".toList, .string []),
         ("networkSecurity".toList, .string "tls".toList),
         ("security".toList, .string "auto".toList),
         ("serverAddr".toList, .string "example.com".toList),
         ("serverName".toList, .string "a".toList),
         ("serverPort".toList, .double 443),
         ("tcpHeaderType".toList, .string "none".toList)] "ws".toList = [[], []]
    ∧ getServerConfigErrors (Utility.sample []) Protocol.VMESS
        [("alterId".toList, .double 0), ("id".toList, .string "U".toList),
         ("network".toList, .string "ws".toList),
         ("networkHost".toList, .string "example.com".toList),
         ("networkPath".toList, .string []),
         ("networkSecurity".toList, .string "tls".toList),
         ("security".toList, .string "auto".toList),
         ("serverAddr".toList, .string "example.com".toList),
         ("serverName".toList, .string "a".toList),
         ("serverPort".toList, .double 443),
         ("tcpHeaderType".toList, .string "none".toList)] none = [] := by
  decide

/-- C15, amended. For network `ws` the stream-settings check is the pair of the
Host check and the Path check, both made with `optional = true`. A networkPath
that is a string passes, also when it is empty; a networkPath that is missing or
no string gets the Path diagnostic. A networkHost that is missing or no string
gets the Host diagnostic, one that is a string is judged by the domain-name
predicate and gets the Host diagnostic when the predicate rejects it. Every
non-empty diagnostic of the pair is in the result of the VMess validator when
the record's network is `ws`. -/
theorem ws_stream_settings_checks (U : Utility) (serverConfig : QJsonObject) :
    getV2RayStreamSettingsErrors U serverConfig "ws".toList
      = [U.getStringConfigError serverConfig "networkHost".toList "Host".toList
           [U.isDomainNameValid] true none,
         U.getStringConfigError serverConfig "networkPath".toList "Path".toList [] true none]
    ∧ (∀ v : QString, QJsonObject.value serverConfig "networkPath".toList = .string v →
        U.getStringConfigError serverConfig "networkPath".toList "Path".toList [] true none
          = [])
    ∧ ((∀ v : QString, QJsonObject.value serverConfig "networkPath".toList ≠ .string v) →
        U.getStringConfigError serverConfig "networkPath".toList "Path".toList [] true none
          = U.missingError "Path".toList)
    ∧ (∀ v : QString, QJsonObject.value serverConfig "networkHost".toList = .string v →
        U.isDomainNameValid v = false →
        U.getStringConfigError serverConfig "networkHost".toList "Host".toList
          [U.isDomainNameValid] true none = U.invalidError "Host".toList)
    ∧ (∀ v : QString, QJsonObject.value serverConfig "networkHost".toList = .string v →
        U.isDomainNameValid v = true →
        U.getStringConfigError serverConfig "networkHost".toList "Host".toList
          [U.isDomainNameValid] true none = [])
    ∧ ((∀ v : QString, QJsonObject.value serverConfig "networkHost".toList ≠ .string v) →
        U.getStringConfigError serverConfig "networkHost".toList "Host".toList
          [U.isDomainNameValid] true none = U.missingError "Host".toList)
    ∧ (∀ (serverName : Option QString) (e : QString),
        (QJsonObject.value serverConfig "network".toList).toString = "ws".toList →
        e ∈ getV2RayStreamSettingsErrors U serverConfig "ws".toList → e ≠ [] →
        e ∈ getV2RayServerConfigErrors U serverConfig serverName) := by
  refine ⟨rfl, ?_, ?_, ?_, ?_, ?_, ?_⟩
  · intro v hv
    exact getStringConfigError_optional_plain U _ _ _ v _ hv
  · intro h
    exact getStringConfigError_not_string U _ _ _ _ _ _ h
  · intro v hv hd
    rw [getStringConfigError_optional_one U _ _ _ v _ hv, if_pos hd]
  · intro v hv hd
    rw [getStringConfigError_optional_one U _ _ _ v _ hv, if_neg (by simp [hd])]
  · intro h
    exact getStringConfigError_not_string U _ _ _ _ _ _ h
  · intro serverName e hnet he hne
    have hv : getV2RayServerConfigErrors U serverConfig serverName
        = removeAllEmpty (v2RayChecks U serverConfig serverName) := rfl
    rw [hv]
    apply (removeAllEmpty_spec _).2.1 e _ hne
    unfold v2RayChecks
    rw [hnet]
    exact List.mem_append_right _ he

/-- C15 on concrete records, with the sample collaborators: an empty
networkHost gets the Host diagnostic (the sample predicate rejects the empty
string), a missing networkPath gets the Path diagnostic. -/
theorem ws_stream_settings_witness :
    getV2RayStreamSettingsErrors (Utility.sample [])
        [("networkHost".toList, .string [])] "ws".toList
      = ["invalid:Host".toList, "missing:Path".toList] := by
  rw [(ws_stream_settings_checks (Utility.sample []) _).1]
  decide

/-! ### The rendered VMess block -/

/-- The twelve entries of the initializer list of `getPrettyV2RayConfig`, as the
object stores them. -/
theorem prettyV2Ray_base_entries (a p : Int) (ac sk tl ud : Bool) (ci nm sv sb uu : QString) :
    QJsonObject.ofList [
      ("autoConnect".toList, .bool ac),
      ("subscription".toList, .string sb),
      ("name".toList, .string nm),
      ("type".toList, .string "vmess".toList),
      ("udp".toList, .bool ud),
      ("server".toList, .string sv),
      ("port".toList, .double p),
      ("uuid".toList, .string uu),
      ("alterId".toList, .double a),
      ("cipher".toList, .string ci),
      ("tls".toList, .bool tl),
      ("skip-cert-verify".toList, .bool sk)]
    = [("alterId".toList, .double a), ("autoConnect".toList, .bool ac),
       ("cipher".toList, .string ci), ("name".toList, .string nm),
       ("port".toList, .double p), ("server".toList, .string sv),
       ("skip-cert-verify".toList, .bool sk), ("subscription".toList, .string sb),
       ("tls".toList, .bool tl), ("type".toList, .string "vmess".toList),
       ("udp".toList, .bool ud), ("uuid".toList, .string uu)] := by
  rfl

/-- The three writes of the `ws` branch. -/
theorem prettyV2Ray_ws_entries (a p : Int) (ac sk tl ud : Bool)
    (ci nm sv sb uu h pa : QString) :
    QJsonObject.insert (QJsonObject.insert (QJsonObject.insert
      [("alterId".toList, .double a), ("autoConnect".toList, .bool ac),
       ("cipher".toList, .string ci), ("name".toList, .string nm),
       ("port".toList, .double p), ("server".toList, .string sv),
       ("skip-cert-verify".toList, .bool sk), ("subscription".toList, .string sb),
       ("tls".toList, .bool tl), ("type".toList, .string "vmess".toList),
       ("udp".toList, .bool ud), ("uuid".toList, .string uu)]
       "network".toList (.string "ws".toList)) "ws-path".toList (.string pa))
       "ws-headers".toList (.object (QJsonObject.ofList [("Host".toList, .string h)]))
    = [("alterId".toList, .double a), ("autoConnect".toList, .bool ac),
       ("cipher".toList, .string ci), ("name".toList, .string nm),
       ("network".toList, .string "ws".toList),
       ("port".toList, .double p), ("server".toList, .string sv),
       ("skip-cert-verify".toList, .bool sk), ("subscription".toList, .string sb),
       ("tls".toList, .bool tl), ("type".toList, .string "vmess".toList),
       ("udp".toList, .bool ud), ("uuid".toList, .string uu),
       ("ws-headers".toList, .object [("Host".toList, .string h)]),
       ("ws-path".toList, .string pa)] := by
  rfl

/-- The write of the `tcp` branches, and the second write of the `http` one. -/
theorem prettyV2Ray_tcp_entries (a p : Int) (ac sk tl ud : Bool)
    (ci nm sv sb uu net : QString) (opts : QJsonObject) :
    QJsonObject.insert
      [("alterId".toList, .double a), ("autoConnect".toList, .bool ac),
       ("cipher".toList, .string ci), ("name".toList, .string nm),
       ("port".toList, .double p), ("server".toList, .string sv),
       ("skip-cert-verify".toList, .bool sk), ("subscription".toList, .string sb),
       ("tls".toList, .bool tl), ("type".toList, .string "vmess".toList),
       ("udp".toList, .bool ud), ("uuid".toList, .string uu)]
       "network".toList (.string net)
    = [("alterId".toList, .double a), ("autoConnect".toList, .bool ac),
       ("cipher".toList, .string ci), ("name".toList, .string nm),
       ("network".toList, .string net),
       ("port".toList, .double p), ("server".toList, .string sv),
       ("skip-cert-verify".toList, .bool sk), ("subscription".toList, .string sb),
       ("tls".toList, .bool tl), ("type".toList, .string "vmess".toList),
       ("udp".toList, .bool ud), ("uuid".toList, .string uu)]
    ∧ QJsonObject.insert
      [("alterId".toList, .double a), ("autoConnect".toList, .bool ac),
       ("cipher".toList, .string ci), ("name".toList, .string nm),
       ("network".toList, .string net),
       ("port".toList, .double p), ("server".toList, .string sv),
       ("skip-cert-verify".toList, .bool sk), ("subscription".toList, .string sb),
       ("tls".toList, .bool tl), ("type".toList, .string "vmess".toList),
       ("udp".toList, .bool ud), ("uuid".toList, .string uu)]
       "http-opts".toList (.object opts)
    = [("alterId".toList, .double a), ("autoConnect".toList, .bool ac),
       ("cipher".toList, .string ci),
       ("http-opts".toList, .object opts),
       ("name".toList, .string nm),
       ("network".toList, .string net),
       ("port".toList, .double p), ("server".toList, .string sv),
       ("skip-cert-verify".toList, .bool sk), ("subscription".toList, .string sb),
       ("tls".toList, .bool tl), ("type".toList, .string "vmess".toList),
       ("udp".toList, .bool ud), ("uuid".toList, .string uu)] := by
  exact ⟨rfl, rfl⟩

/-- The rendered block of a record whose network is `ws`. -/
theorem getPrettyV2RayConfig_ws (rand : Nat → Nat) (serverConfig : QJsonObject)
    (h1 : (QJsonObject.value serverConfig "network".toList).toString = "ws".toList) :
    getPrettyV2RayConfig rand serverConfig =
      [("alterId".toList,
          .double (QJsonObject.value serverConfig "alterId".toList).toVariantToInt),
       ("autoConnect".toList, .bool (QJsonObject.value serverConfig "autoConnect".toList).toBool),
       ("cipher".toList,
          .string (QString.toLower (QJsonObject.value serverConfig "security".toList).toString)),
       ("name".toList, .string (QJsonObject.value serverConfig "serverName".toList).toString),
       ("network".toList, .string "ws".toList),
       ("port".toList,
          .double (QJsonObject.value serverConfig "serverPort".toList).toVariantToInt),
       ("server".toList, .string (QJsonObject.value serverConfig "serverAddr".toList).toString),
       ("skip-cert-verify".toList,
          .bool (QJsonObject.value serverConfig "allowInsecure".toList).toBool),
       ("subscription".toList,
          .string (if QJsonObject.contains serverConfig "subscription".toList
            then (QJsonObject.value serverConfig "subscription".toList).toString else [])),
       ("tls".toList,
          .bool (QString.toLower (QJsonObject.value serverConfig "networkSecurity".toList).toString
            == "tls".toList)),
       ("type".toList, .string "vmess".toList),
       ("udp".toList, .bool (QJsonObject.value serverConfig "udp".toList).toBool),
       ("uuid".toList, .string (QJsonObject.value serverConfig "id".toList).toString),
       ("ws-headers".toList, .object [("Host".toList,
          .string (QJsonObject.value serverConfig "networkHost".toList).toString)]),
       ("ws-path".toList,
          .string (QJsonObject.value serverConfig "networkPath".toList).toString)] := by
  unfold getPrettyV2RayConfig
  simp only [if_pos h1]
  rw [prettyV2Ray_base_entries]
  exact prettyV2Ray_ws_entries _ _ _ _ _ _ _ _ _ _ _ _ _

/-- The rendered block of a record whose network is `tcp` with header `none`. -/
theorem getPrettyV2RayConfig_tcp (rand : Nat → Nat) (serverConfig : QJsonObject)
    (h1 : ¬ (QJsonObject.value serverConfig "network".toList).toString = "ws".toList)
    (h2 : ((QJsonObject.value serverConfig "network".toList).toString = "tcp".toList
      ∧ (QJsonObject.value serverConfig "tcpHeaderType".toList).toString = "none".toList)) :
    getPrettyV2RayConfig rand serverConfig =
      [("alterId".toList,
          .double (QJsonObject.value serverConfig "alterId".toList).toVariantToInt),
       ("autoConnect".toList, .bool (QJsonObject.value serverConfig "autoConnect".toList).toBool),
       ("cipher".toList,
          .string (QString.toLower (QJsonObject.value serverConfig "security".toList).toString)),
       ("name".toList, .string (QJsonObject.value serverConfig "serverName".toList).toString),
       ("network".toList, .string "tcp".toList),
       ("port".toList,
          .double (QJsonObject.value serverConfig "serverPort".toList).toVariantToInt),
       ("server".toList, .string (QJsonObject.value serverConfig "serverAddr".toList).toString),
       ("skip-cert-verify".toList,
          .bool (QJsonObject.value serverConfig "allowInsecure".toList).toBool),
       ("subscription".toList,
          .string (if QJsonObject.contains serverConfig "subscription".toList
            then (QJsonObject.value serverConfig "subscription".toList).toString else [])),
       ("tls".toList,
          .bool (QString.toLower (QJsonObject.value serverConfig "networkSecurity".toList).toString
            == "tls".toList)),
       ("type".toList, .string "vmess".toList),
       ("udp".toList, .bool (QJsonObject.value serverConfig "udp".toList).toBool),
       ("uuid".toList, .string (QJsonObject.value serverConfig "id".toList).toString)] := by
  unfold getPrettyV2RayConfig
  simp only [if_neg h1, if_pos h2]
  rw [prettyV2Ray_base_entries]
  exact (prettyV2Ray_tcp_entries _ _ _ _ _ _ _ _ _ _ _ _ []).1

/-- The rendered block of a record whose network is `tcp` with header `http`. -/
theorem getPrettyV2RayConfig_http (rand : Nat → Nat) (serverConfig : QJsonObject)
    (h1 : ¬ (QJsonObject.value serverConfig "network".toList).toString = "ws".toList)
    (h2 : ¬ ((QJsonObject.value serverConfig "network".toList).toString = "tcp".toList
      ∧ (QJsonObject.value serverConfig "tcpHeaderType".toList).toString = "none".toList))
    (h3 : ((QJsonObject.value serverConfig "network".toList).toString = "tcp".toList
      ∧ (QJsonObject.value serverConfig "tcpHeaderType".toList).toString = "http".toList)) :
    getPrettyV2RayConfig rand serverConfig =
      [("alterId".toList,
          .double (QJsonObject.value serverConfig "alterId".toList).toVariantToInt),
       ("autoConnect".toList, .bool (QJsonObject.value serverConfig "autoConnect".toList).toBool),
       ("cipher".toList,
          .string (QString.toLower (QJsonObject.value serverConfig "security".toList).toString)),
       ("http-opts".toList, .object (QJsonObject.ofList [
          ("method".toList, .string "GET".toList),
          ("headers".toList, .object (QJsonObject.ofList [
            ("host".toList, .array httpHosts),
            ("User-Agent".toList, .array (getRandomUserAgents rand 24)),
            ("Accept-Encoding".toList, .array [.string "gzip, deflate".toList]),
            ("Connection".toList, .array [.string "keep-alive".toList])]))])),
       ("name".toList, .string (QJsonObject.value serverConfig "serverName".toList).toString),
       ("network".toList, .string "http".toList),
       ("port".toList,
          .double (QJsonObject.value serverConfig "serverPort".toList).toVariantToInt),
       ("server".toList, .string (QJsonObject.value serverConfig "serverAddr".toList).toString),
       ("skip-cert-verify".toList,
          .bool (QJsonObject.value serverConfig "allowInsecure".toList).toBool),
       ("subscription".toList,
          .string (if QJsonObject.contains serverConfig "subscription".toList
            then (QJsonObject.value serverConfig "subscription".toList).toString else [])),
       ("tls".toList,
          .bool (QString.toLower (QJsonObject.value serverConfig "networkSecurity".toList).toString
            == "tls".toList)),
       ("type".toList, .string "vmess".toList),
       ("udp".toList, .bool (QJsonObject.value serverConfig "udp".toList).toBool),
       ("uuid".toList, .string (QJsonObject.value serverConfig "id".toList).toString)] := by
  unfold getPrettyV2RayConfig
  simp only [if_neg h1, if_neg h2, if_pos h3]
  rw [prettyV2Ray_base_entries, (prettyV2Ray_tcp_entries _ _ _ _ _ _ _ _ _ _ _ _ []).1]
  exact (prettyV2Ray_tcp_entries _ _ _ _ _ _ _ _ _ _ _ _ _).2

/-- The rendered block of a record of any other network. -/
theorem getPrettyV2RayConfig_other (rand : Nat → Nat) (serverConfig : QJsonObject)
    (h1 : ¬ (QJsonObject.value serverConfig "network".toList).toString = "ws".toList)
    (h2 : ¬ ((QJsonObject.value serverConfig "network".toList).toString = "tcp".toList
      ∧ (QJsonObject.value serverConfig "tcpHeaderType".toList).toString = "none".toList))
    (h3 : ¬ ((QJsonObject.value serverConfig "network".toList).toString = "tcp".toList
      ∧ (QJsonObject.value serverConfig "tcpHeaderType".toList).toString = "http".toList)) :
    getPrettyV2RayConfig rand serverConfig =
      [("alterId".toList,
          .double (QJsonObject.value serverConfig "alterId".toList).toVariantToInt),
       ("autoConnect".toList, .bool (QJsonObject.value serverConfig "autoConnect".toList).toBool),
       ("cipher".toList,
          .string (QString.toLower (QJsonObject.value serverConfig "security".toList).toString)),
       ("name".toList, .string (QJsonObject.value serverConfig "serverName".toList).toString),
       ("port".toList,
          .double (QJsonObject.value serverConfig "serverPort".toList).toVariantToInt),
       ("server".toList, .string (QJsonObject.value serverConfig "serverAddr".toList).toString),
       ("skip-cert-verify".toList,
          .bool (QJsonObject.value serverConfig "allowInsecure".toList).toBool),
       ("subscription".toList,
          .string (if QJsonObject.contains serverConfig "subscription".toList
            then (QJsonObject.value serverConfig "subscription".toList).toString else [])),
       ("tls".toList,
          .bool (QString.toLower (QJsonObject.value serverConfig "networkSecurity".toList).toString
            == "tls".toList)),
       ("type".toList, .string "vmess".toList),
       ("udp".toList, .bool (QJsonObject.value serverConfig "udp".toList).toBool),
       ("uuid".toList, .string (QJsonObject.value serverConfig "id".toList).toString)] := by
  unfold getPrettyV2RayConfig
  simp only [if_neg h1, if_neg h2, if_neg h3]
  exact prettyV2Ray_base_entries _ _ _ _ _ _ _ _ _ _ _

/-- A boolean JSON value made from a comparison of two strings is `true` exactly
when the strings are equal. -/
theorem QJsonValue.bool_beq_iff (x y : QString) :
    QJsonValue.bool (x == y) = QJsonValue.bool true ↔ x = y := by
  constructor
  · intro h
    injection h with h
    exact eq_of_beq h
  · intro h
    rw [h, beq_self_eq_true]

/-- C16: the key set of the block `getPrettyV2RayConfig` renders is the twelve base
keys plus `network`, `ws-path`, `ws-headers` (with `network` = `ws` and
`ws-headers` the mapping of `Host` to networkHost) when the network is `ws`; plus `network` = `tcp`
when the network is `tcp` with header `none`; plus `network` = `http` and
`http-opts` when the network is `tcp` with header `http`; and nothing more in any
other case. In all cases `type` is `vmess`, `cipher` is the lower-cased security
and `tls` is true iff the lower-cased networkSecurity is `tls`. -/
theorem getPrettyV2RayConfig_key_set (rand : Nat → Nat) (serverConfig : QJsonObject) :
    QJsonObject.value (getPrettyV2RayConfig rand serverConfig) "type".toList
      = .string "vmess".toList
    ∧ QJsonObject.value (getPrettyV2RayConfig rand serverConfig) "cipher".toList
      = .string (QString.toLower (QJsonObject.value serverConfig "security".toList).toString)
    ∧ (QJsonObject.value (getPrettyV2RayConfig rand serverConfig) "tls".toList = .bool true
      ↔ QString.toLower (QJsonObject.value serverConfig "networkSecurity".toList).toString
        = "tls".toList)
    ∧ ((QJsonObject.value serverConfig "network".toList).toString = "ws".toList →
        QJsonObject.keys (getPrettyV2RayConfig rand serverConfig)
          = ["alterId".toList, "autoConnect".toList, "cipher".toList, "name".toList,
             "network".toList, "port".toList, "server".toList, "skip-cert-verify".toList,
             "subscription".toList, "tls".toList, "type".toList, "udp".toList,
             "uuid".toList, "ws-headers".toList, "ws-path".toList]
        ∧ QJsonObject.value (getPrettyV2RayConfig rand serverConfig) "network".toList
          = .string "ws".toList
        ∧ QJsonObject.value (getPrettyV2RayConfig rand serverConfig) "ws-headers".toList
          = .object [("Host".toList,
              .string (QJsonObject.value serverConfig "networkHost".toList).toString)])
    ∧ ((QJsonObject.value serverConfig "network".toList).toString = "tcp".toList
        ∧ (QJsonObject.value serverConfig "tcpHeaderType".toList).toString = "none".toList →
        QJsonObject.keys (getPrettyV2RayConfig rand serverConfig)
          = ["alterId".toList, "autoConnect".toList, "cipher".toList, "name".toList,
             "network".toList, "port".toList, "server".toList, "skip-cert-verify".toList,
             "subscription".toList, "tls".toList, "type".toList, "udp".toList,
             "uuid".toList]
        ∧ QJsonObject.value (getPrettyV2RayConfig rand serverConfig) "network".toList
          = .string "tcp".toList)
    ∧ ((QJsonObject.value serverConfig "network".toList).toString = "tcp".toList
        ∧ (QJsonObject.value serverConfig "tcpHeaderType".toList).toString = "http".toList →
        QJsonObject.keys (getPrettyV2RayConfig rand serverConfig)
          = ["alterId".toList, "autoConnect".toList, "cipher".toList, "http-opts".toList,
             "name".toList, "network".toList, "port".toList, "server".toList,
             "skip-cert-verify".toList, "subscription".toList, "tls".toList,
             "type".toList, "udp".toList, "uuid".toList]
        ∧ QJsonObject.value (getPrettyV2RayConfig rand serverConfig) "network".toList
          = .string "http".toList)
    ∧ (¬ (QJsonObject.value serverConfig "network".toList).toString = "ws".toList →
        ¬ ((QJsonObject.value serverConfig "network".toList).toString = "tcp".toList
          ∧ ((QJsonObject.value serverConfig "tcpHeaderType".toList).toString = "none".toList
            ∨ (QJsonObject.value serverConfig "tcpHeaderType".toList).toString
              = "http".toList)) →
        QJsonObject.keys (getPrettyV2RayConfig rand serverConfig)
          = ["alterId".toList, "autoConnect".toList, "cipher".toList, "name".toList,
             "port".toList, "server".toList, "skip-cert-verify".toList,
             "subscription".toList, "tls".toList, "type".toList, "udp".toList,
             "uuid".toList]) := by
  by_cases h1 : (QJsonObject.value serverConfig "network".toList).toString = "ws".toList
  · rw [getPrettyV2RayConfig_ws rand serverConfig h1]
    exact ⟨rfl, rfl, QJsonValue.bool_beq_iff _ _, fun _ => ⟨rfl, rfl, rfl⟩,
      fun h => absurd (h1.symm.trans h.1) (by decide),
      fun h => absurd (h1.symm.trans h.1) (by decide),
      fun h => absurd h1 h⟩
  · by_cases h2 : (QJsonObject.value serverConfig "network".toList).toString = "tcp".toList
        ∧ (QJsonObject.value serverConfig "tcpHeaderType".toList).toString = "none".toList
    · rw [getPrettyV2RayConfig_tcp rand serverConfig h1 h2]
      exact ⟨rfl, rfl, QJsonValue.bool_beq_iff _ _, fun h => absurd h h1,
        fun _ => ⟨rfl, rfl⟩,
        fun h => absurd (h2.2.symm.trans h.2) (by decide),
        fun _ h => absurd ⟨h2.1, Or.inl h2.2⟩ h⟩
    · by_cases h3 : (QJsonObject.value serverConfig "network".toList).toString = "tcp".toList
          ∧ (QJsonObject.value serverConfig "tcpHeaderType".toList).toString = "http".toList
      · rw [getPrettyV2RayConfig_http rand serverConfig h1 h2 h3]
        exact ⟨rfl, rfl, QJsonValue.bool_beq_iff _ _, fun h => absurd h h1,
          fun h => absurd h h2,
          fun _ => ⟨rfl, rfl⟩,
          fun _ h => absurd ⟨h3.1, Or.inr h3.2⟩ h⟩
      · rw [getPrettyV2RayConfig_other rand serverConfig h1 h2 h3]
        exact ⟨rfl, rfl, QJsonValue.bool_beq_iff _ _, fun h => absurd h h1,
          fun h => absurd h h2, fun h => absurd h h3, fun _ _ => rfl⟩

/-- The four shapes of the rendered block, on records with networks `ws`, `tcp`
(header `none`), `tcp` (header `http`) and `kcp`. -/
theorem getPrettyV2RayConfig_key_set_witness :
    QJsonObject.keys (getPrettyV2RayConfig (fun _ => 0)
        [("network".toList, .string "ws".toList),
         ("networkHost".toList, .string "example.com".toList)])
      = ["alterId".toList, "autoConnect".toList, "cipher".toList, "name".toList,
         "network".toList, "port".toList, "server".toList, "skip-cert-verify".toList,
         "subscription".toList, "tls".toList, "type".toList, "udp".toList,
         "uuid".toList, "ws-headers".toList, "ws-path".toList]
    ∧ QJsonObject.value (getPrettyV2RayConfig (fun _ => 0)
        [("network".toList, .string "ws".toList),
         ("networkHost".toList, .string "example.com".toList)]) "ws-headers".toList
      = .object [("Host".toList, .string "example.com".toList)]
    ∧ QJsonObject.keys (getPrettyV2RayConfig (fun _ => 0)
        [("network".toList, .string "tcp".toList),
         ("tcpHeaderType".toList, .string "none".toList)])
      = ["alterId".toList, "autoConnect".toList, "cipher".toList, "name".toList,
         "network".toList, "port".toList, "server".toList, "skip-cert-verify".toList,
         "subscription".toList, "tls".toList, "type".toList, "udp".toList,
         "uuid".toList]
    ∧ QJsonObject.value (getPrettyV2RayConfig (fun _ => 0)
        [("network".toList, .string "tcp".toList),
         ("tcpHeaderType".toList, .string "http".toList)]) "network".toList
      = .string "http".toList
    ∧ QJsonObject.keys (getPrettyV2RayConfig (fun _ => 0)
        [("network".toList, .string "kcp".toList)])
      = ["alterId".toList, "autoConnect".toList, "cipher".toList, "name".toList,
         "port".toList, "server".toList, "skip-cert-verify".toList,
         "subscription".toList, "tls".toList, "type".toList, "udp".toList,
         "uuid".toList] :=
  ⟨((getPrettyV2RayConfig_key_set (fun _ => 0) _).2.2.2.1 (by decide)).1,
   ((getPrettyV2RayConfig_key_set (fun _ => 0) _).2.2.2.1 (by decide)).2.2,
   ((getPrettyV2RayConfig_key_set (fun _ => 0) _).2.2.2.2.1 (by decide)).1,
   ((getPrettyV2RayConfig_key_set (fun _ => 0) _).2.2.2.2.2.1 (by decide)).2,
   (getPrettyV2RayConfig_key_set (fun _ => 0) _).2.2.2.2.2.2 (by decide) (by decide)⟩

/-! ### The rendered Shadowsocks block -/

/-- A key whose value is defined is contained. -/
theorem QJsonObject.contains_of_value_ne (o : QJsonObject) (k : QString)
    (h : QJsonObject.value o k ≠ .undefined) : QJsonObject.contains o k = true := by
  unfold QJsonObject.value at h
  unfold QJsonObject.contains
  cases hl : o.lookup k with
  | none => rw [hl] at h; exact absurd rfl h
  | some v => rfl

/-- A key that is not contained reads as `undefined`. -/
theorem QJsonObject.value_of_not_contains (o : QJsonObject) (k : QString)
    (h : QJsonObject.contains o k = false) : QJsonObject.value o k = .undefined := by
  unfold QJsonObject.contains at h
  unfold QJsonObject.value
  cases hl : o.lookup k with
  | none => rfl
  | some v => rw [hl] at h; exact absurd h (by simp)

/-- A member that reads as a non-empty string is contained. -/
theorem QJsonObject.contains_of_toString_ne (o : QJsonObject) (k : QString)
    (h : (QJsonObject.value o k).toString ≠ []) : QJsonObject.contains o k = true := by
  apply QJsonObject.contains_of_value_ne
  intro e
  rw [e] at h
  exact h rfl

/-- A member whose object has a contained key is itself contained. -/
theorem QJsonObject.contains_of_toObject_contains (o : QJsonObject) (k k2 : QString)
    (h : QJsonObject.contains (QJsonObject.value o k).toObject k2 = true) :
    QJsonObject.contains o k = true := by
  apply QJsonObject.contains_of_value_ne
  intro e
  rw [e] at h
  exact absurd h (by simp [QJsonValue.toObject, QJsonObject.contains])

/-- A conditional write leaves the values of the other keys alone. -/
theorem QJsonObject.value_ite_insert_ne (c : Prop) [Decidable c] (o : QJsonObject)
    (k k2 : QString) (v : QJsonValue) (h : k2 ≠ k) :
    QJsonObject.value (if c then QJsonObject.insert o k v else o) k2
      = QJsonObject.value o k2 := by
  split_ifs
  · exact QJsonObject.value_insert_ne o k k2 v h
  · rfl

/-- The eight entries of the initializer list of `getPrettyShadowsocksConfig`, as
the object stores them. -/
theorem prettyShadowsocks_base_entries (ac : Bool) (p : Int) (ci nm pw sv sb ty : QString) :
    QJsonObject.ofList [
      ("autoConnect".toList, .bool ac),
      ("subscription".toList, .string sb),
      ("name".toList, .string nm),
      ("type".toList, .string ty),
      ("server".toList, .string sv),
      ("port".toList, .double p),
      ("cipher".toList, .string ci),
      ("password".toList, .string pw)]
    = [("autoConnect".toList, .bool ac), ("cipher".toList, .string ci),
       ("name".toList, .string nm), ("password".toList, .string pw),
       ("port".toList, .double p), ("server".toList, .string sv),
       ("subscription".toList, .string sb), ("type".toList, .string ty)] := by
  rfl

/-- The two writes of the `obfs` plugin. -/
theorem prettyShadowsocks_plugin_entries (ac : Bool) (p : Int) (ci nm pw sv sb ty : QString)
    (opts : QJsonObject) :
    QJsonObject.insert (QJsonObject.insert
      [("autoConnect".toList, .bool ac), ("cipher".toList, .string ci),
       ("name".toList, .string nm), ("password".toList, .string pw),
       ("port".toList, .double p), ("server".toList, .string sv),
       ("subscription".toList, .string sb), ("type".toList, .string ty)]
      "plugin".toList (.string "obfs".toList)) "plugin-opts".toList (.object opts)
    = [("autoConnect".toList, .bool ac), ("cipher".toList, .string ci),
       ("name".toList, .string nm), ("password".toList, .string pw),
       ("plugin".toList, .string "obfs".toList), ("plugin-opts".toList, .object opts),
       ("port".toList, .double p), ("server".toList, .string sv),
       ("subscription".toList, .string sb), ("type".toList, .string ty)] := by
  rfl

/-- The rendered block of a record that is not ShadowsocksR: the eight base
entries with `type` = `ss`, and, when `plugins.obfs` reads as a non-empty string,
`plugin` = `obfs` and `plugin-opts`. -/
theorem getPrettyShadowsocksConfig_ss (serverConfig : QJsonObject)
    (h : isShadowsocksR serverConfig = false) :
    getPrettyShadowsocksConfig serverConfig =
      if (QJsonObject.value (QJsonObject.value serverConfig "plugins".toList).toObject "obfs".toList).toString = [] then
      [("autoConnect".toList, .bool (QJsonObject.value serverConfig "autoConnect".toList).toBool),
       ("cipher".toList,
          .string (QString.toLower (QJsonObject.value serverConfig "encryption".toList).toString)),
       ("name".toList, .string (QJsonObject.value serverConfig "serverName".toList).toString),
       ("password".toList, .string (QJsonObject.value serverConfig "password".toList).toString),
       ("port".toList,
          .double (QJsonObject.value serverConfig "serverPort".toList).toVariantToInt),
       ("server".toList, .string (QJsonObject.value serverConfig "serverAddr".toList).toString),
       ("subscription".toList,
          .string (if QJsonObject.contains serverConfig "subscription".toList
            then (QJsonObject.value serverConfig "subscription".toList).toString else [])),
       ("type".toList, .string "ss".toList)]
      else
      [("autoConnect".toList, .bool (QJsonObject.value serverConfig "autoConnect".toList).toBool),
       ("cipher".toList,
          .string (QString.toLower (QJsonObject.value serverConfig "encryption".toList).toString)),
       ("name".toList, .string (QJsonObject.value serverConfig "serverName".toList).toString),
       ("password".toList, .string (QJsonObject.value serverConfig "password".toList).toString),
       ("plugin".toList, .string "obfs".toList),
       ("plugin-opts".toList, .object
          (if (QJsonObject.value (QJsonObject.value serverConfig "plugins".toList).toObject "obfs-host".toList).toString = [] then
            [("mode".toList, .string (QJsonObject.value (QJsonObject.value serverConfig "plugins".toList).toObject "obfs".toList).toString)]
          else
            [("host".toList, .string (QJsonObject.value (QJsonObject.value serverConfig "plugins".toList).toObject "obfs-host".toList).toString),
             ("mode".toList, .string (QJsonObject.value (QJsonObject.value serverConfig "plugins".toList).toObject "obfs".toList).toString)])),
       ("port".toList,
          .double (QJsonObject.value serverConfig "serverPort".toList).toVariantToInt),
       ("server".toList, .string (QJsonObject.value serverConfig "serverAddr".toList).toString),
       ("subscription".toList,
          .string (if QJsonObject.contains serverConfig "subscription".toList
            then (QJsonObject.value serverConfig "subscription".toList).toString else [])),
       ("type".toList, .string "ss".toList)] := by
  unfold getPrettyShadowsocksConfig
  simp only [h, Bool.false_eq_true, true_and, if_false, if_true]
  rw [prettyShadowsocks_base_entries]
  by_cases ho : (QJsonObject.value (QJsonObject.value serverConfig "plugins".toList).toObject "obfs".toList).toString = []
  · rw [if_pos ho]
    have hc : ¬ (QJsonObject.contains (QJsonObject.value serverConfig "plugins".toList).toObject
          "obfs".toList = true
        ∧ (QJsonObject.value (QJsonObject.value serverConfig "plugins".toList).toObject "obfs".toList).toString.isEmpty = false) := by
      rw [ho]
      exact fun hh => absurd hh.2 (by decide)
    rw [if_neg hc]
    exact ite_self _
  · rw [if_neg ho]
    have h1 := QJsonObject.contains_of_toString_ne _ _ ho
    have h0 := QJsonObject.contains_of_toObject_contains _ _ _ h1
    have hc : QJsonObject.contains (QJsonObject.value serverConfig "plugins".toList).toObject
          "obfs".toList = true
        ∧ (QJsonObject.value (QJsonObject.value serverConfig "plugins".toList).toObject "obfs".toList).toString.isEmpty = false :=
      ⟨h1, by rw [List.isEmpty_eq_false]; exact ho⟩
    rw [if_pos h0, if_pos hc, prettyShadowsocks_plugin_entries]
    by_cases hh : (QJsonObject.value (QJsonObject.value serverConfig "plugins".toList).toObject "obfs-host".toList).toString = []
    · have hn : ¬ (QJsonObject.contains (QJsonObject.value serverConfig "plugins".toList).toObject
            "obfs-host".toList = true
          ∧ (QJsonObject.value (QJsonObject.value serverConfig "plugins".toList).toObject "obfs-host".toList).toString.length ≠ 0) := by
        rw [hh]
        exact fun hh => hh.2 rfl
      rw [if_pos hh, if_neg hn]
      rfl
    · have hn : QJsonObject.contains (QJsonObject.value serverConfig "plugins".toList).toObject
            "obfs-host".toList = true
          ∧ (QJsonObject.value (QJsonObject.value serverConfig "plugins".toList).toObject "obfs-host".toList).toString.length ≠ 0 :=
        ⟨QJsonObject.contains_of_toString_ne _ _ hh, fun e => hh (List.length_eq_zero.mp e)⟩
      rw [if_neg hh, if_pos hn]
      rfl

/-- The rendered block of a ShadowsocksR record has `type` = `ssr`. -/
theorem getPrettyShadowsocksConfig_ssr_type (serverConfig : QJsonObject)
    (h : isShadowsocksR serverConfig = true) :
    QJsonObject.value (getPrettyShadowsocksConfig serverConfig) "type".toList
      = .string "ssr".toList := by
  unfold getPrettyShadowsocksConfig
  simp only [h, Bool.true_eq_false, false_and, if_false, if_true]
  rw [prettyShadowsocks_base_entries]
  simp (disch := decide) only [QJsonObject.value_ite_insert_ne, QJsonObject.value_insert_ne]
  rfl

/-- C17: `isShadowsocksR` holds exactly of the records with a `plugins` member
whose object contains `protocol`; the block rendered by
`getPrettyShadowsocksConfig` has `type` = `ssr` exactly for these records and
`type` = `ss` for the others. For the others the block has none of the keys `obfs`,
`protocol`, `obfs-param`, `protocol-param`; when `plugins.obfs` reads as a
non-empty string it has `plugin` = `obfs` and `plugin-opts`, with `mode` =
`plugins.obfs` and with `host` (= `plugins.obfs-host`) present iff
`plugins.obfs-host` reads as a non-empty string; otherwise it has neither `plugin`
nor `plugin-opts`. -/
theorem getPrettyShadowsocksConfig_type_and_plugin (serverConfig : QJsonObject) :
    (isShadowsocksR serverConfig = true
      ↔ QJsonObject.contains serverConfig "plugins".toList = true
        ∧ QJsonObject.contains (QJsonObject.value serverConfig "plugins".toList).toObject
            "protocol".toList = true)
    ∧ (QJsonObject.value (getPrettyShadowsocksConfig serverConfig) "type".toList = .string "ssr".toList
      ↔ isShadowsocksR serverConfig = true)
    ∧ (QJsonObject.value (getPrettyShadowsocksConfig serverConfig) "type".toList = .string "ss".toList
      ↔ isShadowsocksR serverConfig = false)
    ∧ (isShadowsocksR serverConfig = false →
        QJsonObject.contains (getPrettyShadowsocksConfig serverConfig) "obfs".toList = false
        ∧ QJsonObject.contains (getPrettyShadowsocksConfig serverConfig) "protocol".toList = false
        ∧ QJsonObject.contains (getPrettyShadowsocksConfig serverConfig) "obfs-param".toList = false
        ∧ QJsonObject.contains (getPrettyShadowsocksConfig serverConfig) "protocol-param".toList = false
        ∧ ((QJsonObject.value (QJsonObject.value serverConfig "plugins".toList).toObject
          "obfs".toList).toString ≠ [] →
            QJsonObject.value (getPrettyShadowsocksConfig serverConfig) "plugin".toList = .string "obfs".toList
            ∧ QJsonObject.contains (getPrettyShadowsocksConfig serverConfig) "plugin-opts".toList = true
            ∧ QJsonObject.value (QJsonObject.value (getPrettyShadowsocksConfig serverConfig) "plugin-opts".toList).toObject
                "mode".toList = .string (QJsonObject.value (QJsonObject.value serverConfig "plugins".toList).toObject
          "obfs".toList).toString
            ∧ (QJsonObject.contains (QJsonObject.value (getPrettyShadowsocksConfig serverConfig) "plugin-opts".toList).toObject
                "host".toList = true ↔ (QJsonObject.value (QJsonObject.value serverConfig "plugins".toList).toObject
          "obfs-host".toList).toString ≠ [])
            ∧ ((QJsonObject.value (QJsonObject.value serverConfig "plugins".toList).toObject
          "obfs-host".toList).toString ≠ [] →
                QJsonObject.value (QJsonObject.value (getPrettyShadowsocksConfig serverConfig) "plugin-opts".toList).toObject
                  "host".toList = .string (QJsonObject.value (QJsonObject.value serverConfig "plugins".toList).toObject
          "obfs-host".toList).toString)
            ∧ QJsonObject.keys (QJsonObject.value (getPrettyShadowsocksConfig serverConfig) "plugin-opts".toList).toObject
                = if (QJsonObject.value (QJsonObject.value serverConfig "plugins".toList).toObject
          "obfs-host".toList).toString = [] then ["mode".toList]
                  else ["host".toList, "mode".toList])
        ∧ ((QJsonObject.value (QJsonObject.value serverConfig "plugins".toList).toObject
          "obfs".toList).toString = [] →
            QJsonObject.contains (getPrettyShadowsocksConfig serverConfig) "plugin".toList = false
            ∧ QJsonObject.contains (getPrettyShadowsocksConfig serverConfig) "plugin-opts".toList = false)) := by
  have hiff : isShadowsocksR serverConfig = true
      ↔ QJsonObject.contains serverConfig "plugins".toList = true
        ∧ QJsonObject.contains (QJsonObject.value serverConfig "plugins".toList).toObject
            "protocol".toList = true := by
    unfold isShadowsocksR
    cases hc : QJsonObject.contains serverConfig "plugins".toList
    · simp
    · simp
  have hss : isShadowsocksR serverConfig = false →
      QJsonObject.value (getPrettyShadowsocksConfig serverConfig) "type".toList = .string "ss".toList := by
    intro h
    rw [getPrettyShadowsocksConfig_ss serverConfig h]
    split_ifs <;> rfl
  refine ⟨hiff, ?_, ?_, ?_⟩
  · constructor
    · intro ht
      cases h : isShadowsocksR serverConfig
      · rw [hss h] at ht
        exact absurd ht (by decide)
      · rfl
    · exact getPrettyShadowsocksConfig_ssr_type serverConfig
  · constructor
    · intro ht
      cases h : isShadowsocksR serverConfig
      · rfl
      · rw [getPrettyShadowsocksConfig_ssr_type serverConfig h] at ht
        exact absurd ht (by decide)
    · exact hss
  · intro h
    rw [getPrettyShadowsocksConfig_ss serverConfig h]
    by_cases ho : (QJsonObject.value (QJsonObject.value serverConfig "plugins".toList).toObject
          "obfs".toList).toString = []
    · rw [if_pos ho]
      exact ⟨rfl, rfl, rfl, rfl, fun hh => absurd ho hh, fun _ => ⟨rfl, rfl⟩⟩
    · rw [if_neg ho]
      refine ⟨rfl, rfl, rfl, rfl, fun _ => ?_, fun hh => absurd hh ho⟩
      by_cases hh : (QJsonObject.value (QJsonObject.value serverConfig "plugins".toList).toObject
          "obfs-host".toList).toString = []
      · simp only [if_pos hh]
        exact ⟨rfl, rfl, rfl, ⟨fun e => absurd e Bool.false_ne_true, fun e => absurd hh e⟩,
          fun e => absurd hh e, rfl⟩
      · simp only [if_neg hh]
        exact ⟨rfl, rfl, rfl, ⟨fun _ => hh, fun _ => rfl⟩, fun _ => rfl, rfl⟩

/-- A plain record with the `obfs` plugin and a host, one without a host, one
with no plugin, and a ShadowsocksR record. -/
theorem getPrettyShadowsocksConfig_type_and_plugin_witness :
    QJsonObject.value (QJsonObject.value (getPrettyShadowsocksConfig
        [("plugins".toList, .object [("obfs".toList, .string "http".toList),
          ("obfs-host".toList, .string "example.com".toList)])]) "plugin-opts".toList).toObject
        "host".toList = .string "example.com".toList
    ∧ QJsonObject.keys (QJsonObject.value (getPrettyShadowsocksConfig
        [("plugins".toList, .object [("obfs".toList, .string "tls".toList)])])
        "plugin-opts".toList).toObject = ["mode".toList]
    ∧ QJsonObject.contains (getPrettyShadowsocksConfig
        [("plugins".toList, .object [("udp".toList, .bool true)])]) "plugin".toList = false
    ∧ QJsonObject.value (getPrettyShadowsocksConfig
        [("plugins".toList, .object [("protocol".toList, .string "origin".toList)])])
        "type".toList = .string "ssr".toList :=
  ⟨((getPrettyShadowsocksConfig_type_and_plugin _).2.2.2 (by decide)).2.2.2.2.1
      (by decide) |>.2.2.2.2.1 (by decide),
   ((getPrettyShadowsocksConfig_type_and_plugin _).2.2.2 (by decide)).2.2.2.2.1
      (by decide) |>.2.2.2.2.2,
   (((getPrettyShadowsocksConfig_type_and_plugin _).2.2.2 (by decide)).2.2.2.2.2
      (by decide)).1,
   (getPrettyShadowsocksConfig_type_and_plugin _).2.1.mpr (by decide)⟩

/-! ### The `obfs-param` line of a rendered ShadowsocksR block -/

/-- C18, counterexample: a ShadowsocksR record whose `plugins` has the entry
`obfs-param` = `v` renders to a block with no `obfs-param` key. -/
theorem obfs_param_entry_counterexample :
    isShadowsocksR
        [("plugins".toList, .object [("obfs-param".toList, .string "v".toList),
          ("protocol".toList, .string "origin".toList)])] = true
    ∧ QJsonObject.value (QJsonObject.value
        [("plugins".toList, .object [("obfs-param".toList, .string "v".toList),
          ("protocol".toList, .string "origin".toList)])] "plugins".toList).toObject
        "obfs-param".toList = .string "v".toList
    ∧ QJsonObject.contains (getPrettyShadowsocksConfig
        [("plugins".toList, .object [("obfs-param".toList, .string "v".toList),
          ("protocol".toList, .string "origin".toList)])]) "obfs-param".toList = false
    ∧ QJsonObject.keys (getPrettyShadowsocksConfig
        [("plugins".toList, .object [("obfs-param".toList, .string "v".toList),
          ("protocol".toList, .string "origin".toList)])])
      = ["autoConnect".toList, "cipher".toList, "name".toList, "obfs".toList,
         "password".toList, "port".toList, "protocol".toList, "server".toList,
         "subscription".toList, "type".toList] := by
  decide

/-- C18, amended: for every ShadowsocksR record whose `plugins` has a non-empty
string `v` under the key `obfsparam`, the rendered block has `obfs-param` = `v`. -/
theorem obfsparam_entry_rendered (serverConfig : QJsonObject) (v : QString)
    (h : isShadowsocksR serverConfig = true)
    (hv : QJsonObject.value (QJsonObject.value serverConfig "plugins".toList).toObject
        "obfsparam".toList = .string v)
    (hne : v ≠ []) :
    QJsonObject.value (getPrettyShadowsocksConfig serverConfig) "obfs-param".toList
      = .string v := by
  have hc : QJsonObject.contains (QJsonObject.value serverConfig "plugins".toList).toObject
        "obfsparam".toList = true
      ∧ (QJsonObject.value (QJsonObject.value serverConfig "plugins".toList).toObject
        "obfsparam".toList).toString.length ≠ 0 := by
    constructor
    · apply QJsonObject.contains_of_value_ne
      rw [hv]
      exact fun e => QJsonValue.noConfusion e
    · rw [hv]
      exact fun e => hne (List.length_eq_zero.mp e)
  unfold getPrettyShadowsocksConfig
  simp only [h, Bool.true_eq_false, false_and, if_false, if_true, if_pos hc]
  rw [prettyShadowsocks_base_entries]
  simp (disch := decide) only [QJsonObject.value_ite_insert_ne]
  rw [QJsonObject.value_insert_self _ _ _ (fun e => QJsonValue.noConfusion e), hv]
  rfl

/-- A ShadowsocksR record with `plugins.obfsparam` = `v`. -/
theorem obfsparam_entry_rendered_witness :
    QJsonObject.value (getPrettyShadowsocksConfig
        [("plugins".toList, .object [("obfsparam".toList, .string "v".toList),
          ("protocol".toList, .string "origin".toList)])]) "obfs-param".toList
      = .string "v".toList :=
  obfsparam_entry_rendered _ "v".toList (by decide) (by decide) (by decide)

/-! ### The `allowInsecure` of imported stream settings -/

/-- After `remove` the key reads as `undefined`. -/
theorem QJsonObject.value_remove_self (o : QJsonObject) (k : QString) :
    QJsonObject.value (QJsonObject.remove o k) k = .undefined := by
  induction o with
  | nil => rfl
  | cons e rest ih =>
    obtain ⟨k0, w⟩ := e
    unfold QJsonObject.remove at ih ⊢
    by_cases h0 : k0 = k
    · subst h0
      rw [List.filter_cons_of_neg (by simp), ih]
    · rw [List.filter_cons_of_pos (by simpa using h0),
        QJsonObject.value_cons_ne _ _ _ _ (fun e => h0 e.symm), ih]

/-- A write, `o[k] = v`, is read back, also when `v` is `undefined`. -/
theorem QJsonObject.value_insert_same (o : QJsonObject) (k : QString) (v : QJsonValue) :
    QJsonObject.value (QJsonObject.insert o k v) k = v := by
  by_cases hv : v = .undefined
  · unfold QJsonObject.insert
    rw [if_pos hv, hv]
    exact QJsonObject.value_remove_self o k
  · exact QJsonObject.value_insert_self o k v hv

/-- The `allowInsecure` that `getV2RayStreamSettingsFromConfig` extracts, for
every pair of arguments: `true` when the object read has no `tlsSettings`, and
otherwise what the non-`const` subscript `tlsSettings["allowInsecure"]` gives,
which is `null` when `tlsSettings` has no such member. -/
theorem getV2RayStreamSettingsFromConfig_allowInsecure (K : KcpDefaults)
    (transport streamSettings : QJsonObject) :
    QJsonObject.value (getV2RayStreamSettingsFromConfig K transport streamSettings)
        "allowInsecure".toList
      = if QJsonObject.contains (if streamSettings.isEmpty then transport else streamSettings)
            "tlsSettings".toList then
          QJsonObject.refValue
            (QJsonObject.value (if streamSettings.isEmpty then transport else streamSettings)
              "tlsSettings".toList).toObject "allowInsecure".toList
        else .bool true := by
  unfold getV2RayStreamSettingsFromConfig
  lift_lets
  intro s0 e network s1 s2 s3 tlsSettings s4
  have key : QJsonObject.value s4 "allowInsecure".toList
      = if QJsonObject.contains s0 "tlsSettings".toList then
          QJsonObject.refValue (QJsonObject.value s0 "tlsSettings".toList).toObject
            "allowInsecure".toList
        else .bool true := by
    show QJsonObject.value (if QJsonObject.contains s0 "tlsSettings".toList then _ else s3) _ = _
    split_ifs
    · exact QJsonObject.value_insert_same _ _ _
    · exact QJsonObject.value_insert_same _ _ _
  intros
  show _ = if QJsonObject.contains s0 "tlsSettings".toList then
          QJsonObject.refValue (QJsonObject.value s0 "tlsSettings".toList).toObject
            "allowInsecure".toList
        else .bool true
  rw [← key]
  split_ifs <;>
    simp +zetaDelta (disch := decide) only [QJsonObject.value_insert_ne]

/-- C19, at the failing input. The stream settings
`{security: tls, tlsSettings: {serverName: x}}` have a `tlsSettings` with no
`allowInsecure` member: the extracted `allowInsecure` is `null`, which reads as
`false`, not `true`; and so it is in the record imported from a document whose
outbound has these stream settings. Without `tlsSettings` the value is `true`. -/
theorem tls_settings_without_allow_insecure (K : KcpDefaults) (transport : QJsonObject) :
    getV2RayStreamSettingsFromConfig K transport
        [("security".toList, .string "tls".toList),
         ("tlsSettings".toList, .object [("serverName".toList, .string "x".toList)])]
      = [("allowInsecure".toList, .null), ("network".toList, .string "tcp".toList),
         ("networkSecurity".toList, .string "tls".toList),
         ("tcpHeaderType".toList, .string "none".toList)]
    ∧ (QJsonObject.value (getV2RayStreamSettingsFromConfig K transport
        [("security".toList, .string "tls".toList),
         ("tlsSettings".toList, .object [("serverName".toList, .string "x".toList)])])
        "allowInsecure".toList).toBool = false
    ∧ getV2RayStreamSettingsFromConfig K transport
        [("security".toList, .string "tls".toList)]
      = [("allowInsecure".toList, .bool true), ("network".toList, .string "tcp".toList),
         ("networkSecurity".toList, .string "tls".toList),
         ("tcpHeaderType".toList, .string "none".toList)]
    ∧ getServerConfigFromV2RayConfig K
      [("outbounds".toList, .array [.object [
          ("protocol".toList, .string "vmess".toList),
          ("settings".toList, .object [("vnext".toList, .array [.object [
            ("address".toList, .string "h".toList),
            ("port".toList, .double 443),
            ("users".toList, .array [.object [("id".toList, .string "U".toList)]])]])]),
          ("streamSettings".toList, .object [
            ("security".toList, .string "tls".toList),
            ("tlsSettings".toList, .object [
              ("serverName".toList, .string "x".toList)])])]])]
    = [[("allowInsecure".toList, .null), ("alterId".toList, .double 0),
        ("id".toList, .string "U".toList), ("mux".toList, .double (-1)),
        ("network".toList, .string "tcp".toList),
        ("networkSecurity".toList, .string "tls".toList),
        ("security".toList, .string "auto".toList),
        ("serverAddr".toList, .string "h".toList),
        ("serverName".toList, .string "h:443".toList),
        ("serverPort".toList, .double 443),
        ("tcpHeaderType".toList, .string "none".toList)]] := by
  exact ⟨rfl, rfl, rfl, rfl⟩

/-! ### The plugin sub-parser -/

/-- The options of two lists, one after the other. -/
theorem getShadowsocksPluginOptions_append (plugins : QJsonObject) (xs ys : List QString) :
    getShadowsocksPluginOptions plugins (xs ++ ys)
      = getShadowsocksPluginOptions (getShadowsocksPluginOptions plugins xs) ys := by
  unfold getShadowsocksPluginOptions
  exact List.foldl_append _ _ _ _

/-- The loop of `getShadowsocksPlugins` from any `plugins` object: the segments
of all the `plugin` entries, in order. -/
theorem getShadowsocksPlugins_loop (items : List (QString × QString)) (plugins : QJsonObject) :
    items.foldl
      (fun plugins p =>
        if p.1 = "plugin".toList then
          getShadowsocksPluginOptions plugins
            (QString.split (QUrl.fromPercentEncoding (QString.toUtf8 p.2)) ';')
        else plugins)
      plugins
    = getShadowsocksPluginOptions plugins
        ((items.filter (fun p => p.1 = "plugin".toList)).flatMap
          (fun p => QString.split (QUrl.fromPercentEncoding (QString.toUtf8 p.2)) ';')) := by
  induction items generalizing plugins with
  | nil => rfl
  | cons p rest ih =>
    rw [List.foldl_cons, ih]
    by_cases hp : p.1 = "plugin".toList
    · rw [if_pos hp, List.filter_cons_of_pos (by simpa using hp), List.flatMap_cons,
        getShadowsocksPluginOptions_append]
    · rw [if_neg hp, List.filter_cons_of_neg (by simpa using hp)]

/-- C20, counterexample: in the query `plugin=a%3Db&plugin=c%3Dd` the second
`plugin` entry contributes the entry `c` ↦ `d`, and in
`plugin=a%3Db&plugin=a%3Dz` it overwrites the entry of the first. -/
theorem later_plugin_entry_counterexample :
    getShadowsocksPlugins "plugin=a%3Db&plugin=c%3Dd".toList
      = [("a".toList, .string "b".toList), ("c".toList, .string "d".toList)]
    ∧ getShadowsocksPlugins "plugin=a%3Db".toList = [("a".toList, .string "b".toList)]
    ∧ getShadowsocksPlugins "plugin=a%3Db&plugin=a%3Dz".toList
      = [("a".toList, .string "z".toList)] := by
  decide!

/-- C20, amended: `getShadowsocksPlugins` is built from every `plugin` entry of
the query, in order: the percent-decoded value of each is split on `;`, and the
segments of all of them are stored one after the other, a segment that splits on
`=` into exactly two parts `k`, `v` as the entry `k` ↦ `v` (replacing an earlier
entry of `k`), any other segment not at all. The result is empty when the query
has no `plugin` entry. -/
theorem getShadowsocksPlugins_all_entries (s : QString) :
    getShadowsocksPlugins s
      = getShadowsocksPluginOptions []
          (((QUrlQuery.queryItems s).filter (fun p => p.1 = "plugin".toList)).flatMap
            (fun p => QString.split (QUrl.fromPercentEncoding (QString.toUtf8 p.2)) ';'))
    ∧ ((∀ p ∈ QUrlQuery.queryItems s, p.1 ≠ "plugin".toList) → getShadowsocksPlugins s = [])
    ∧ (∀ (plugins : QJsonObject) (o k v : QString) (rest : List QString),
        QString.split o '=' = [k, v] →
        getShadowsocksPluginOptions plugins (o :: rest)
          = getShadowsocksPluginOptions (QJsonObject.insert plugins k (.string v)) rest)
    ∧ (∀ (plugins : QJsonObject) (o : QString) (rest : List QString),
        (QString.split o '=').length ≠ 2 →
        getShadowsocksPluginOptions plugins (o :: rest)
          = getShadowsocksPluginOptions plugins rest)
    ∧ (∀ plugins : QJsonObject, getShadowsocksPluginOptions plugins [] = plugins) := by
  have h0 : getShadowsocksPlugins s
      = getShadowsocksPluginOptions []
          (((QUrlQuery.queryItems s).filter (fun p => p.1 = "plugin".toList)).flatMap
            (fun p => QString.split (QUrl.fromPercentEncoding (QString.toUtf8 p.2)) ';')) := by
    unfold getShadowsocksPlugins
    exact getShadowsocksPlugins_loop _ _
  refine ⟨h0, ?_, ?_, ?_, fun _ => rfl⟩
  · intro h
    rw [h0, List.filter_eq_nil_iff.mpr (fun p hp => by simpa using h p hp)]
    rfl
  · intro plugins o k v rest h
    unfold getShadowsocksPluginOptions
    rw [List.foldl_cons]
    simp only [h]
    rfl
  · intro plugins o rest h
    unfold getShadowsocksPluginOptions
    rw [List.foldl_cons]
    simp only [if_neg h]

/-- A query with two `plugin` entries, and one with none. -/
theorem getShadowsocksPlugins_all_entries_witness :
    getShadowsocksPlugins "plugin=obfs%3Dhttp&plugin=obfs-host%3Dexample.com".toList
      = getShadowsocksPluginOptions []
          ["obfs=http".toList, "obfs-host=example.com".toList]
    ∧ getShadowsocksPlugins "x=1".toList = [] :=
  ⟨(getShadowsocksPlugins_all_entries _).1.trans (by decide!),
   (getShadowsocksPlugins_all_entries _).2.1 (by decide!)⟩

/-! ### The port of an `ss://` link -/

/-- The seven entries of the initializer list of
`getShadowsocksServerConfigFromUrl`, as the object stores them. -/
theorem shadowsocksLink_base_entries (nm sb sv pt en pw : QString) :
    QJsonObject.ofList [
      ("serverName".toList, .string nm),
      ("autoConnect".toList, .bool false),
      ("subscription".toList, .string sb),
      ("serverAddr".toList, .string sv),
      ("serverPort".toList, .string pt),
      ("encryption".toList, .string en),
      ("password".toList, .string pw)]
    = [("autoConnect".toList, .bool false), ("encryption".toList, .string en),
       ("password".toList, .string pw), ("serverAddr".toList, .string sv),
       ("serverName".toList, .string nm), ("serverPort".toList, .string pt),
       ("subscription".toList, .string sb)] := by
  rfl

/-- The port and the name that `getShadowsocksServerConfigFromUrl` stores, in
terms of the five indices it computes. -/
theorem getShadowsocksServerConfigFromUrl_port_name (serverUrl subscriptionUrl : QString) :
    QJsonObject.value (getShadowsocksServerConfigFromUrl serverUrl subscriptionUrl)
        "serverPort".toList
      = .string (QString.mid (QString.midFrom serverUrl 5)
          (QString.indexOf (QString.midFrom serverUrl 5) ':' + 1)
          (if QString.indexOf (QString.midFrom serverUrl 5) '/' ≠ -1
            then QString.indexOf (QString.midFrom serverUrl 5) '/'
              - QString.indexOf (QString.midFrom serverUrl 5) ':' - 1
            else QString.indexOf (QString.midFrom serverUrl 5) '#'
              - QString.indexOf (QString.midFrom serverUrl 5) ':' - 1))
    ∧ QJsonObject.value (getShadowsocksServerConfigFromUrl serverUrl subscriptionUrl)
        "serverName".toList
      = .string (QString.trimmed (QUrl.fromPercentEncoding (QString.toUtf8
          (QString.midFrom (QString.midFrom serverUrl 5)
            (QString.indexOf (QString.midFrom serverUrl 5) '#' + 1))))) := by
  unfold getShadowsocksServerConfigFromUrl
  simp only []
  rw [shadowsocksLink_base_entries]
  constructor
  · rw [QJsonObject.value_ite_insert_ne _ _ _ _ _ (by decide)]
    rfl
  · rw [QJsonObject.value_ite_insert_ne _ _ _ _ _ (by decide)]
    rfl

/-- The port of a link `ss://U@H:P#F` in which no `/` occurs and the first `:`
and the first `#` are the ones written: the text `P`. -/
theorem shadowsocks_link_port_sharp (U H P F subscriptionUrl : QString)
    (hU : ':' ∉ U ∧ '/' ∉ U ∧ '#' ∉ U) (hH : ':' ∉ H ∧ '/' ∉ H ∧ '#' ∉ H)
    (hP : '/' ∉ P ∧ '#' ∉ P) (hF : '/' ∉ F) :
    QJsonObject.value (getShadowsocksServerConfigFromUrl
        ("ss://".toList ++ (U ++ '@' :: (H ++ ':' :: (P ++ '#' :: F)))) subscriptionUrl)
        "serverPort".toList = .string P := by
  have h5 : QString.midFrom ("ss://".toList ++ (U ++ '@' :: (H ++ ':' :: (P ++ '#' :: F)))) 5
      = U ++ '@' :: (H ++ ':' :: (P ++ '#' :: F)) :=
    QString.midFrom_append "ss://".toList _
  have hcolon : QString.indexOf (U ++ '@' :: (H ++ ':' :: (P ++ '#' :: F))) ':'
      = ((U ++ '@' :: H).length : Int) := by
    have e : U ++ '@' :: (H ++ ':' :: (P ++ '#' :: F))
        = (U ++ '@' :: H) ++ ':' :: (P ++ '#' :: F) := by simp
    rw [e]
    apply QString.indexOf_append_cons
    simp only [List.mem_append, List.mem_cons, not_or]
    exact ⟨hU.1, by decide, hH.1⟩
  have hsharp : QString.indexOf (U ++ '@' :: (H ++ ':' :: (P ++ '#' :: F))) '#'
      = ((U ++ '@' :: (H ++ ':' :: P)).length : Int) := by
    have e : U ++ '@' :: (H ++ ':' :: (P ++ '#' :: F))
        = (U ++ '@' :: (H ++ ':' :: P)) ++ '#' :: F := by simp
    rw [e]
    apply QString.indexOf_append_cons
    simp only [List.mem_append, List.mem_cons, not_or]
    exact ⟨hU.2.2, by decide, hH.2.2, by decide, hP.2⟩
  have hslash : QString.indexOf (U ++ '@' :: (H ++ ':' :: (P ++ '#' :: F))) '/' = -1 := by
    apply QString.indexOf_not_mem
    simp only [List.mem_append, List.mem_cons, not_or]
    exact ⟨hU.2.1, by decide, hH.2.1, by decide, hP.1, by decide, hF⟩
  rw [(getShadowsocksServerConfigFromUrl_port_name _ _).1, h5, hcolon, hsharp, hslash,
    if_neg (fun h => h rfl)]
  congr 1
  exact QString.mid_middle _ (U ++ '@' :: (H ++ [':'])) P ('#' :: F) _ _ (by simp)
    (by simp only [List.length_append, List.length_cons, List.length_nil]; push_cast; omega)
    (by simp only [List.length_append, List.length_cons]; push_cast; omega)

/-- The port of a link `ss://U@H:P/R` whose first `:` and first `/` are the ones
written: the text `P`, whatever follows the `/`. -/
theorem shadowsocks_link_port_slash (U H P R subscriptionUrl : QString)
    (hU : ':' ∉ U ∧ '/' ∉ U) (hH : ':' ∉ H ∧ '/' ∉ H) (hP : '/' ∉ P) :
    QJsonObject.value (getShadowsocksServerConfigFromUrl
        ("ss://".toList ++ (U ++ '@' :: (H ++ ':' :: (P ++ '/' :: R)))) subscriptionUrl)
        "serverPort".toList = .string P := by
  have h5 : QString.midFrom ("ss://".toList ++ (U ++ '@' :: (H ++ ':' :: (P ++ '/' :: R)))) 5
      = U ++ '@' :: (H ++ ':' :: (P ++ '/' :: R)) :=
    QString.midFrom_append "ss://".toList _
  have hcolon : QString.indexOf (U ++ '@' :: (H ++ ':' :: (P ++ '/' :: R))) ':'
      = ((U ++ '@' :: H).length : Int) := by
    have e : U ++ '@' :: (H ++ ':' :: (P ++ '/' :: R))
        = (U ++ '@' :: H) ++ ':' :: (P ++ '/' :: R) := by simp
    rw [e]
    apply QString.indexOf_append_cons
    simp only [List.mem_append, List.mem_cons, not_or]
    exact ⟨hU.1, by decide, hH.1⟩
  have hslash : QString.indexOf (U ++ '@' :: (H ++ ':' :: (P ++ '/' :: R))) '/'
      = ((U ++ '@' :: (H ++ ':' :: P)).length : Int) := by
    have e : U ++ '@' :: (H ++ ':' :: (P ++ '/' :: R))
        = (U ++ '@' :: (H ++ ':' :: P)) ++ '/' :: R := by simp
    rw [e]
    apply QString.indexOf_append_cons
    simp only [List.mem_append, List.mem_cons, not_or]
    exact ⟨hU.2, by decide, hH.2, by decide, hP⟩
  have hne : ((U ++ '@' :: (H ++ ':' :: P)).length : Int) ≠ -1 := by omega
  rw [(getShadowsocksServerConfigFromUrl_port_name _ _).1, h5, hcolon, hslash, if_pos hne]
  congr 1
  exact QString.mid_middle _ (U ++ '@' :: (H ++ [':'])) P ('/' :: R) _ _ (by simp)
    (by simp only [List.length_append, List.length_cons, List.length_nil]; push_cast; omega)
    (by simp only [List.length_append, List.length_cons]; push_cast; omega)

/-- C21, at the failing inputs. In `ss://YWVzLTI1Ni1nY206cGFzcw==@example.com:8388#a/b`
the only `/` stands after the `#`, in the name: the port is cut at that `/` and
is `8388#a`, not `8388`. In `ss://YWVzLTI1Ni1nY206cC8/@example.com:8388#ab` the
only `/` stands before the `@`, in the base64 userinfo: the length handed to
`mid` is negative and the port is `8388#ab`. Without a `/` the port is `8388`. -/
theorem ss_port_cut_at_any_slash :
    QJsonObject.value (getShadowsocksServerConfigFromUrl
        "ss://YWVzLTI1Ni1nY206cGFzcw==@example.com:8388#a/b".toList []) "serverPort".toList
      = .string "8388#a".toList
    ∧ QJsonObject.value (getShadowsocksServerConfigFromUrl
        "ss://YWVzLTI1Ni1nY206cC8/@example.com:8388#ab".toList []) "serverPort".toList
      = .string "8388#ab".toList
    ∧ QJsonObject.value (getShadowsocksServerConfigFromUrl
        "ss://YWVzLTI1Ni1nY206cGFzcw==@example.com:8388#ab".toList []) "serverPort".toList
      = .string "8388".toList := by
  decide!

/-! ### The four Trojan options -/

/-- One step of the loop of `getTrojanOptions`, on an object with the four option
keys: the value of the key named by the pair is replaced by the text of the
pair, and a pair with another key changes nothing. -/
theorem getTrojanOptions_step_values (a b c d : QJsonValue) (k v : QString) :
    (if QJsonObject.contains
          [("allowInsecure".toList, a), ("alpn".toList, b), ("sni".toList, c),
           ("udp".toList, d)] k
      then QJsonObject.insert
          [("allowInsecure".toList, a), ("alpn".toList, b), ("sni".toList, c),
           ("udp".toList, d)] k (.string v)
      else [("allowInsecure".toList, a), ("alpn".toList, b), ("sni".toList, c),
           ("udp".toList, d)])
      = [("allowInsecure".toList, if k = "allowInsecure".toList then .string v else a),
         ("alpn".toList, if k = "alpn".toList then .string v else b),
         ("sni".toList, if k = "sni".toList then .string v else c),
         ("udp".toList, if k = "udp".toList then .string v else d)] := by
  by_cases h1 : k = "allowInsecure".toList
  · subst h1; rfl
  by_cases h2 : k = "alpn".toList
  · subst h2; rfl
  by_cases h3 : k = "sni".toList
  · subst h3; rfl
  by_cases h4 : k = "udp".toList
  · subst h4; rfl
  rw [QJsonObject.contains_options a b c d k h1 h2 h3 h4, if_neg h1, if_neg h2, if_neg h3,
    if_neg h4]
  rfl

/-- The loop of `getTrojanOptions` on an object with the four option keys: each
value is the text of the last pair with its key, or is unchanged when no pair
has its key. -/
theorem getTrojanOptions_loop_values (items : List (QString × QString))
    (a b c d : QJsonValue) :
    items.foldl
      (fun options p =>
        if QJsonObject.contains options p.1
        then QJsonObject.insert options p.1 (.string p.2) else options)
      [("allowInsecure".toList, a), ("alpn".toList, b), ("sni".toList, c),
       ("udp".toList, d)]
    = [("allowInsecure".toList,
          items.foldl (fun x p => if p.1 = "allowInsecure".toList then .string p.2 else x) a),
       ("alpn".toList,
          items.foldl (fun x p => if p.1 = "alpn".toList then .string p.2 else x) b),
       ("sni".toList,
          items.foldl (fun x p => if p.1 = "sni".toList then .string p.2 else x) c),
       ("udp".toList,
          items.foldl (fun x p => if p.1 = "udp".toList then .string p.2 else x) d)] := by
  induction items generalizing a b c d with
  | nil => rfl
  | cons p rest ih =>
    rw [List.foldl_cons, getTrojanOptions_step_values a b c d p.1 p.2, ih]
    rfl

/-- The four options as `getTrojanOptions` returns them, for every option
string. -/
theorem getTrojanOptions_values (optionString : QString) :
    getTrojanOptions optionString
    = [("allowInsecure".toList,
          (QUrlQuery.queryItems optionString).foldl
            (fun x p => if p.1 = "allowInsecure".toList then .string p.2 else x) (.bool false)),
       ("alpn".toList,
          (QUrlQuery.queryItems optionString).foldl
            (fun x p => if p.1 = "alpn".toList then .string p.2 else x)
            (.string "h2,http/1.1".toList)),
       ("sni".toList,
          (QUrlQuery.queryItems optionString).foldl
            (fun x p => if p.1 = "sni".toList then .string p.2 else x) (.string [])),
       ("udp".toList,
          (QUrlQuery.queryItems optionString).foldl
            (fun x p => if p.1 = "udp".toList then .string p.2 else x) (.bool false))] :=
  getTrojanOptions_loop_values (QUrlQuery.queryItems optionString)
    DEFAULT_TROJRAN_ALLOW_INSECURE DEFAULT_TROJRAN_ALPN DEFAULT_TROJRAN_SNI
    DEFAULT_TROJRAN_ENABLE_UDP

/-- The value a key ends with is the text of the last pair that has the key. -/
theorem lastValue_of_last (k v : QString) (pre post : List (QString × QString))
    (x : QJsonValue) (h : ∀ p ∈ post, p.1 ≠ k) :
    (pre ++ (k, v) :: post).foldl (fun x p => if p.1 = k then QJsonValue.string p.2 else x) x
      = .string v := by
  rw [List.foldl_append, List.foldl_cons]
  simp only [if_true]
  generalize QJsonValue.string v = y
  induction post generalizing y with
  | nil => rfl
  | cons p rest ih =>
    rw [List.foldl_cons, if_neg (h p (List.mem_cons_self _ _))]
    exact ih (fun q hq => h q (List.mem_cons_of_mem _ hq)) y

/-- The value of a key that no pair has is unchanged. -/
theorem lastValue_of_absent (k : QString) (items : List (QString × QString))
    (x : QJsonValue) (h : ∀ p ∈ items, p.1 ≠ k) :
    items.foldl (fun x p => if p.1 = k then QJsonValue.string p.2 else x) x = x := by
  induction items with
  | nil => rfl
  | cons p rest ih =>
    rw [List.foldl_cons, if_neg (h p (List.mem_cons_self _ _))]
    exact ih (fun q hq => h q (List.mem_cons_of_mem _ hq))

/-- The value a key ends with depends only on the pairs kept by a filter that
keeps every pair with that key. -/
theorem lastValue_filter (k : QString) (keep : QString × QString → Bool)
    (items : List (QString × QString)) (x : QJsonValue)
    (h : ∀ p : QString × QString, p.1 = k → keep p = true) :
    items.foldl (fun x p => if p.1 = k then QJsonValue.string p.2 else x) x
      = (items.filter keep).foldl
          (fun x p => if p.1 = k then QJsonValue.string p.2 else x) x := by
  induction items generalizing x with
  | nil => rfl
  | cons p rest ih =>
    by_cases hk : keep p = true
    · rw [List.filter_cons_of_pos hk, List.foldl_cons, List.foldl_cons, ih]
    · have hne : ¬ p.1 = k := fun e => hk (h p e)
      rw [List.filter_cons_of_neg hk, List.foldl_cons, if_neg hne, ih]

/-- C22: for every option string, `getTrojanOptions` returns exactly the four keys
`allowInsecure`, `alpn`, `sni`, `udp`; a key that occurs in the query has the
text of its last occurrence; a key that does not occur keeps its default (`sni`
empty, `udp` false, `alpn` `h2,http/1.1`, `allowInsecure` false); and the result
depends only on the pairs with these four keys, so two option strings that
differ in other keys only give the same result. -/
theorem getTrojanOptions_four_keys (q : QString) :
    QJsonObject.keys (getTrojanOptions q)
      = ["allowInsecure".toList, "alpn".toList, "sni".toList, "udp".toList]
    ∧ (∀ k ∈ ["allowInsecure".toList, "alpn".toList, "sni".toList, "udp".toList],
        ∀ (v : QString) (pre post : List (QString × QString)),
          QUrlQuery.queryItems q = pre ++ (k, v) :: post → (∀ p ∈ post, p.1 ≠ k) →
          QJsonObject.value (getTrojanOptions q) k = .string v)
    ∧ ((∀ p ∈ QUrlQuery.queryItems q, p.1 ≠ "sni".toList) →
        QJsonObject.value (getTrojanOptions q) "sni".toList = .string [])
    ∧ ((∀ p ∈ QUrlQuery.queryItems q, p.1 ≠ "udp".toList) →
        QJsonObject.value (getTrojanOptions q) "udp".toList = .bool false)
    ∧ ((∀ p ∈ QUrlQuery.queryItems q, p.1 ≠ "alpn".toList) →
        QJsonObject.value (getTrojanOptions q) "alpn".toList = .string "h2,http/1.1".toList)
    ∧ ((∀ p ∈ QUrlQuery.queryItems q, p.1 ≠ "allowInsecure".toList) →
        QJsonObject.value (getTrojanOptions q) "allowInsecure".toList = .bool false)
    ∧ (∀ q2 : QString,
        (QUrlQuery.queryItems q2).filter
            (fun p => decide (p.1 ∈ ["allowInsecure".toList, "alpn".toList, "sni".toList,
              "udp".toList]))
          = (QUrlQuery.queryItems q).filter
            (fun p => decide (p.1 ∈ ["allowInsecure".toList, "alpn".toList, "sni".toList,
              "udp".toList])) →
        getTrojanOptions q2 = getTrojanOptions q) := by
  refine ⟨?_, ?_, ?_, ?_, ?_, ?_, ?_⟩
  · rw [getTrojanOptions_values]; rfl
  · intro k hk v pre post hq hpost
    rw [getTrojanOptions_values, hq]
    simp only [List.mem_cons, List.mem_singleton, List.not_mem_nil, or_false] at hk
    rcases hk with hk | hk | hk | hk <;> subst hk <;>
      exact lastValue_of_last _ v pre post _ hpost
  · intro h
    rw [getTrojanOptions_values]
    exact lastValue_of_absent _ _ _ h
  · intro h
    rw [getTrojanOptions_values]
    exact lastValue_of_absent _ _ _ h
  · intro h
    rw [getTrojanOptions_values]
    exact lastValue_of_absent _ _ _ h
  · intro h
    rw [getTrojanOptions_values]
    exact lastValue_of_absent _ _ _ h
  · intro q2 h
    have e : ∀ k ∈ ["allowInsecure".toList, "alpn".toList, "sni".toList, "udp".toList],
        ∀ x : QJsonValue,
          (QUrlQuery.queryItems q2).foldl
              (fun x p => if p.1 = k then QJsonValue.string p.2 else x) x
            = (QUrlQuery.queryItems q).foldl
              (fun x p => if p.1 = k then QJsonValue.string p.2 else x) x := by
      intro k hk x
      have hkeep : ∀ p : QString × QString, p.1 = k →
          (fun p : QString × QString => decide (p.1 ∈ ["allowInsecure".toList, "alpn".toList,
            "sni".toList, "udp".toList])) p = true := by
        intro p hp
        rw [← hp] at hk
        exact decide_eq_true hk
      rw [lastValue_filter k _ (QUrlQuery.queryItems q2) x hkeep,
        lastValue_filter k _ (QUrlQuery.queryItems q) x hkeep, h]
    rw [getTrojanOptions_values q2, getTrojanOptions_values q,
      e "allowInsecure".toList (by decide), e "alpn".toList (by decide),
      e "sni".toList (by decide), e "udp".toList (by decide)]

/-- The option string `x=1&udp=a&sni=s&y=2&udp=b`: `udp` takes its last text,
`alpn` keeps its default, and the result is that of `udp=a&sni=s&udp=b`. -/
theorem getTrojanOptions_four_keys_witness :
    QJsonObject.value (getTrojanOptions "x=1&udp=a&sni=s&y=2&udp=b".toList) "udp".toList
      = .string "b".toList
    ∧ QJsonObject.value (getTrojanOptions "x=1&udp=a&sni=s&y=2&udp=b".toList) "alpn".toList
      = .string "h2,http/1.1".toList
    ∧ getTrojanOptions "udp=a&sni=s&udp=b".toList
      = getTrojanOptions "x=1&udp=a&sni=s&y=2&udp=b".toList :=
  ⟨(getTrojanOptions_four_keys _).2.1 "udp".toList (by decide) "b".toList
      [("x".toList, "1".toList), ("udp".toList, "a".toList), ("sni".toList, "s".toList),
       ("y".toList, "2".toList)] [] (by decide!) (by decide),
   (getTrojanOptions_four_keys _).2.2.2.2.1 (by decide!),
   (getTrojanOptions_four_keys _).2.2.2.2.2.2 _ (by decide!)⟩

/-! ### The network of a `vmess://` record -/

/-- `insertEntry` leaves the entries of the other keys alone. -/
theorem QJsonObject.lookup_insertEntry_ne (o : QJsonObject) (k k2 : QString) (v : QJsonValue)
    (h : k2 ≠ k) : (QJsonObject.insertEntry o k v).lookup k2 = o.lookup k2 := by
  have e : (k2 == k) = false := beq_eq_false_iff_ne.mpr h
  induction o with
  | nil => simp only [QJsonObject.insertEntry, List.lookup, e]
  | cons p rest ih =>
    obtain ⟨k0, w⟩ := p
    simp only [QJsonObject.insertEntry]
    split_ifs with h1 h2
    · subst h1
      simp only [List.lookup, e]
    · simp only [List.lookup, e]
    · by_cases h3 : k2 = k0
      · subst h3
        simp only [List.lookup, beq_self_eq_true]
      · have e3 : (k2 == k0) = false := beq_eq_false_iff_ne.mpr h3
        simp only [List.lookup, e3, ih]

/-- Reading through the non-`const` subscript of one key leaves the other keys
as they were. -/
theorem QJsonObject.lookup_touch_ne (o : QJsonObject) (k k2 : QString) (h : k2 ≠ k) :
    (QJsonObject.touch o k).lookup k2 = o.lookup k2 := by
  unfold QJsonObject.touch
  split_ifs
  · rfl
  · exact QJsonObject.lookup_insertEntry_ne o k k2 .null h

/-- The image of a `net` text under `NETWORK_MAPPER`, with `tcp` for a text that
is no key of the table. -/
theorem NETWORK_MAPPER_image (n : QString) :
    (if (NETWORK_MAPPER.lookup n).isSome then (NETWORK_MAPPER.lookup n).getD []
      else "tcp".toList)
    = if n = "tcp".toList then "tcp".toList
      else if n = "kcp".toList then "kcp".toList
      else if n = "ws".toList then "ws".toList
      else if n = "h2".toList then "http".toList
      else if n = "quic".toList then "quic".toList
      else "tcp".toList := by
  by_cases h1 : n = "tcp".toList
  · subst h1; rfl
  by_cases h2 : n = "kcp".toList
  · subst h2; rfl
  by_cases h3 : n = "ws".toList
  · subst h3; rfl
  by_cases h4 : n = "h2".toList
  · subst h4; rfl
  by_cases h5 : n = "quic".toList
  · subst h5; rfl
  have e1 : (n == "tcp".toList) = false := beq_eq_false_iff_ne.mpr h1
  have e2 : (n == "kcp".toList) = false := beq_eq_false_iff_ne.mpr h2
  have e3 : (n == "ws".toList) = false := beq_eq_false_iff_ne.mpr h3
  have e4 : (n == "h2".toList) = false := beq_eq_false_iff_ne.mpr h4
  have e5 : (n == "quic".toList) = false := beq_eq_false_iff_ne.mpr h5
  rw [if_neg h1, if_neg h2, if_neg h3, if_neg h4, if_neg h5]
  simp only [NETWORK_MAPPER, List.lookup, e1, e2, e3, e4, e5]
  rfl

/-- The fourteen entries of the initializer list of `getV2RayServerConfigFromUrl`,
as the object stores them. -/
theorem vmessLink_base_entries (a : Int) (nm sv pt sb id nw nh np th ns : QString) :
    QJsonObject.ofList [
      ("autoConnect".toList, .bool false),
      ("serverName".toList, .string nm),
      ("serverAddr".toList, .string sv),
      ("serverPort".toList, .string pt),
      ("subscription".toList, .string sb),
      ("id".toList, .string id),
      ("alterId".toList, .double a),
      ("udp".toList, .bool false),
      ("security".toList, .string "auto".toList),
      ("network".toList, .string nw),
      ("networkHost".toList, .string nh),
      ("networkPath".toList, .string np),
      ("tcpHeaderType".toList, .string th),
      ("networkSecurity".toList, .string ns)]
    = [("alterId".toList, .double a), ("autoConnect".toList, .bool false),
       ("id".toList, .string id), ("network".toList, .string nw),
       ("networkHost".toList, .string nh), ("networkPath".toList, .string np),
       ("networkSecurity".toList, .string ns), ("security".toList, .string "auto".toList),
       ("serverAddr".toList, .string sv), ("serverName".toList, .string nm),
       ("serverPort".toList, .string pt), ("subscription".toList, .string sb),
       ("tcpHeaderType".toList, .string th), ("udp".toList, .bool false)] := by
  rfl

/-- The `network` and `networkSecurity` of the record built from a payload
object. -/
theorem getV2RayServerConfigFromRaw_network (rawServerConfig : QJsonObject)
    (subscriptionUrl : QString) :
    QJsonObject.value (getV2RayServerConfigFromRaw rawServerConfig subscriptionUrl)
        "network".toList
      = .string
          (if (NETWORK_MAPPER.lookup
                (if QJsonObject.contains rawServerConfig "net".toList
                  then (QJsonObject.value rawServerConfig "net".toList).toString
                  else "tcp".toList)).isSome
            then (NETWORK_MAPPER.lookup
                (if QJsonObject.contains rawServerConfig "net".toList
                  then (QJsonObject.value rawServerConfig "net".toList).toString
                  else "tcp".toList)).getD []
            else "tcp".toList)
    ∧ QJsonObject.value (getV2RayServerConfigFromRaw rawServerConfig subscriptionUrl)
        "networkSecurity".toList
      = .string
          (if QJsonObject.contains rawServerConfig "tls".toList
              ∧ (QJsonObject.value rawServerConfig "tls".toList).toString.isEmpty = false
            then "tls".toList else "none".toList) := by
  have hl : (QJsonObject.touch rawServerConfig "port".toList).lookup "tls".toList
      = rawServerConfig.lookup "tls".toList :=
    QJsonObject.lookup_touch_ne rawServerConfig _ _ (by decide)
  unfold getV2RayServerConfigFromRaw
  simp only []
  rw [vmessLink_base_entries]
  constructor
  · rfl
  · simp only [QJsonObject.contains, QJsonObject.value, hl]
    rfl

/-- C23: for every payload object, the `network` of the record is the image of
`net` under tcp→tcp, kcp→kcp, ws→ws, h2→http, quic→quic, and `tcp` when `net` is
absent or is anything else, so it is always one of tcp, kcp, ws, http, quic; the
`networkSecurity` is `tls` when `tls` is a non-empty string and `none` otherwise.
The record of a link is the record of the object its payload decodes to. -/
theorem vmess_network_mapped (rawServerConfig : QJsonObject) (subscriptionUrl : QString) :
    QJsonObject.value (getV2RayServerConfigFromRaw rawServerConfig subscriptionUrl)
        "network".toList
      = .string
          (if QJsonObject.contains rawServerConfig "net".toList = false then "tcp".toList
           else if (QJsonObject.value rawServerConfig "net".toList).toString = "tcp".toList
             then "tcp".toList
           else if (QJsonObject.value rawServerConfig "net".toList).toString = "kcp".toList
             then "kcp".toList
           else if (QJsonObject.value rawServerConfig "net".toList).toString = "ws".toList
             then "ws".toList
           else if (QJsonObject.value rawServerConfig "net".toList).toString = "h2".toList
             then "http".toList
           else if (QJsonObject.value rawServerConfig "net".toList).toString = "quic".toList
             then "quic".toList
           else "tcp".toList)
    ∧ (∃ n ∈ ["tcp".toList, "kcp".toList, "ws".toList, "http".toList, "quic".toList],
        QJsonObject.value (getV2RayServerConfigFromRaw rawServerConfig subscriptionUrl)
          "network".toList = .string n)
    ∧ QJsonObject.value (getV2RayServerConfigFromRaw rawServerConfig subscriptionUrl)
        "networkSecurity".toList
      = .string
          (if QJsonObject.contains rawServerConfig "tls".toList
              ∧ (QJsonObject.value rawServerConfig "tls".toList).toString ≠ []
            then "tls".toList else "none".toList)
    ∧ (QJsonObject.value (getV2RayServerConfigFromRaw rawServerConfig subscriptionUrl)
          "networkSecurity".toList = .string "tls".toList
        ∨ QJsonObject.value (getV2RayServerConfigFromRaw rawServerConfig subscriptionUrl)
          "networkSecurity".toList = .string "none".toList)
    ∧ (∀ server : QString,
        getV2RayServerConfigFromUrl server subscriptionUrl
          = getV2RayServerConfigFromRaw
              (QJsonDocument.fromJsonObject
                (QByteArray.fromBase64 (QString.toUtf8 (QString.midFrom server 8))))
              subscriptionUrl) := by
  have hn : QJsonObject.value (getV2RayServerConfigFromRaw rawServerConfig subscriptionUrl)
        "network".toList
      = .string
          (if QJsonObject.contains rawServerConfig "net".toList = false then "tcp".toList
           else if (QJsonObject.value rawServerConfig "net".toList).toString = "tcp".toList
             then "tcp".toList
           else if (QJsonObject.value rawServerConfig "net".toList).toString = "kcp".toList
             then "kcp".toList
           else if (QJsonObject.value rawServerConfig "net".toList).toString = "ws".toList
             then "ws".toList
           else if (QJsonObject.value rawServerConfig "net".toList).toString = "h2".toList
             then "http".toList
           else if (QJsonObject.value rawServerConfig "net".toList).toString = "quic".toList
             then "quic".toList
           else "tcp".toList) := by
    rw [(getV2RayServerConfigFromRaw_network rawServerConfig subscriptionUrl).1,
      NETWORK_MAPPER_image]
    cases hc : QJsonObject.contains rawServerConfig "net".toList
    · rfl
    · rfl
  have hs : QJsonObject.value (getV2RayServerConfigFromRaw rawServerConfig subscriptionUrl)
        "networkSecurity".toList
      = .string
          (if QJsonObject.contains rawServerConfig "tls".toList
              ∧ (QJsonObject.value rawServerConfig "tls".toList).toString ≠ []
            then "tls".toList else "none".toList) := by
    rw [(getV2RayServerConfigFromRaw_network rawServerConfig subscriptionUrl).2]
    simp only [List.isEmpty_eq_false, ne_eq]
  refine ⟨hn, ?_, hs, ?_, fun _ => rfl⟩
  · rw [hn]
    split_ifs
    · exact ⟨_, by decide, rfl⟩
    · exact ⟨_, by decide, rfl⟩
    · exact ⟨_, by decide, rfl⟩
    · exact ⟨_, by decide, rfl⟩
    · exact ⟨_, by decide, rfl⟩
    · exact ⟨_, by decide, rfl⟩
    · exact ⟨_, by decide, rfl⟩
  · rw [hs]
    split_ifs
    · exact Or.inl rfl
    · exact Or.inr rfl

/-- The payload objects with `net` = `h2`, with `net` = `grpc`, and with a `tls`
text. -/
theorem vmess_network_mapped_witness :
    QJsonObject.value (getV2RayServerConfigFromRaw [("net".toList, .string "h2".toList)] [])
        "network".toList = .string "http".toList
    ∧ QJsonObject.value (getV2RayServerConfigFromRaw [("net".toList, .string "grpc".toList)] [])
        "network".toList = .string "tcp".toList
    ∧ QJsonObject.value (getV2RayServerConfigFromRaw [("tls".toList, .string "tls".toList)] [])
        "networkSecurity".toList = .string "tls".toList :=
  ⟨(vmess_network_mapped _ _).1.trans (by decide),
   (vmess_network_mapped _ _).1.trans (by decide),
   (vmess_network_mapped _ _).2.2.1.trans (by decide)⟩

/-! ### The random user agents -/

/-- The user agent template with its four arguments filled in. -/
theorem userAgentTemplate_filled (os m b p : QString) :
    QString.multiArg userAgentTemplate [os, m, b, p]
      = "Mozilla/5.0 (".toList ++ (os ++
          (") AppleWebKit/537.36 (KHTML, like Gecko) Chrome/".toList ++ (m ++
            (".0.".toList ++ (b ++ (".".toList ++ (p ++ " Safari/537.36".toList))))))) := by
  rfl

/-- The loop of `getRandomUserAgents` makes `count` strings, each the template
filled with one of the three operating systems and a version triple in range. -/
theorem getRandomUserAgentsLoop_shape (rand : Nat → Nat) (count calls : Nat) :
    (getRandomUserAgentsLoop rand count calls).length = count
    ∧ ∀ x ∈ getRandomUserAgentsLoop rand count calls,
        ∃ os ∈ OPERATING_SYSTEMS, ∃ M B P : Int,
          50 ≤ M ∧ M ≤ 79 ∧ 1000 ≤ B ∧ B ≤ 4999 ∧ 0 ≤ P ∧ P ≤ 99
          ∧ x = .string ("Mozilla/5.0 (".toList ++ (os ++
              (") AppleWebKit/537.36 (KHTML, like Gecko) Chrome/".toList ++
                (QString.number M ++ (".0.".toList ++ (QString.number B ++
                  (".".toList ++ (QString.number P ++ " Safari/537.36".toList)))))))) := by
  induction count generalizing calls with
  | zero => exact ⟨rfl, fun x hx => absurd hx (List.not_mem_nil x)⟩
  | succ count ih =>
    have hos : ∀ i, i < 3 → (OPERATING_SYSTEMS.get? i).getD [] ∈ OPERATING_SYSTEMS := by
      intro i hi
      interval_cases i <;> decide
    unfold getRandomUserAgentsLoop
    simp only [List.length_cons, List.mem_cons]
    refine ⟨by rw [(ih (calls + 4)).1], ?_⟩
    intro x hx
    rcases hx with hx | hx
    · refine ⟨_, hos (rand calls % 3) (Nat.mod_lt _ (by decide)),
        ((rand (calls + 1) % 30 + 50 : Nat) : Int), ((rand (calls + 2) % 4000 + 1000 : Nat) : Int),
        ((rand (calls + 3) % 100 : Nat) : Int), ?_, ?_, ?_, ?_, ?_, ?_, ?_⟩
      · omega
      · omega
      · omega
      · omega
      · omega
      · omega
      · rw [hx, userAgentTemplate_filled]
    · exact (ih (calls + 4)).2 x hx

/-- C24: for every `n ≥ 0` and every random source, `getRandomUserAgents(n)`
returns exactly `n` strings, each of the form `Mozilla/5.0 (<os>)
AppleWebKit/537.36 (KHTML, like Gecko) Chrome/<M>.0.<B>.<P> Safari/537.36` with
`<os>` one of the three operating systems, 50 ≤ M ≤ 79, 1000 ≤ B ≤ 4999 and
0 ≤ P ≤ 99; the block rendered for a VMess record with network `tcp` and header
`http` has `getRandomUserAgents(24)`, which are 24 strings, as its `User-Agent`
header and the list of 12 hosts as its `host` header. -/
theorem getRandomUserAgents_shape (rand : Nat → Nat) (n : Int) (hn : 0 ≤ n) :
    ((getRandomUserAgents rand n).length : Int) = n
    ∧ (∀ x ∈ getRandomUserAgents rand n,
        ∃ os ∈ OPERATING_SYSTEMS, ∃ M B P : Int,
          50 ≤ M ∧ M ≤ 79 ∧ 1000 ≤ B ∧ B ≤ 4999 ∧ 0 ≤ P ∧ P ≤ 99
          ∧ x = .string ("Mozilla/5.0 (".toList ++ (os ++
              (") AppleWebKit/537.36 (KHTML, like Gecko) Chrome/".toList ++
                (QString.number M ++ (".0.".toList ++ (QString.number B ++
                  (".".toList ++ (QString.number P ++ " Safari/537.36".toList)))))))))
    ∧ OPERATING_SYSTEMS
      = ["Macintosh; Intel Mac OS X 10_15".toList, "X11; Linux x86_64".toList,
         "Windows NT 10.0; Win64; x64".toList]
    ∧ (∀ serverConfig : QJsonObject,
        (QJsonObject.value serverConfig "network".toList).toString = "tcp".toList
          ∧ (QJsonObject.value serverConfig "tcpHeaderType".toList).toString = "http".toList →
        QJsonObject.value (QJsonObject.value (QJsonObject.value
            (getPrettyV2RayConfig rand serverConfig) "http-opts".toList).toObject
            "headers".toList).toObject "User-Agent".toList
          = .array (getRandomUserAgents rand 24)
        ∧ QJsonObject.value (QJsonObject.value (QJsonObject.value
            (getPrettyV2RayConfig rand serverConfig) "http-opts".toList).toObject
            "headers".toList).toObject "host".toList
          = .array httpHosts)
    ∧ (getRandomUserAgents rand 24).length = 24
    ∧ httpHosts.length = 12 := by
  refine ⟨?_, (getRandomUserAgentsLoop_shape rand n.toNat 0).2, rfl, ?_,
    (getRandomUserAgentsLoop_shape rand 24 0).1, rfl⟩
  · unfold getRandomUserAgents
    rw [(getRandomUserAgentsLoop_shape rand n.toNat 0).1]
    exact Int.toNat_of_nonneg hn
  · intro serverConfig h
    have h1 : ¬ (QJsonObject.value serverConfig "network".toList).toString = "ws".toList :=
      fun e => absurd (h.1.symm.trans e) (by decide)
    have h2 : ¬ ((QJsonObject.value serverConfig "network".toList).toString = "tcp".toList
        ∧ (QJsonObject.value serverConfig "tcpHeaderType".toList).toString = "none".toList) :=
      fun e => absurd (h.2.symm.trans e.2) (by decide)
    rw [getPrettyV2RayConfig_http rand serverConfig h1 h2 h]
    exact ⟨rfl, rfl⟩

/-- Three user agents from the random source `k ↦ 7k + 123456`, and the record
with network `tcp` and header `http`. -/
theorem getRandomUserAgents_shape_witness :
    ((getRandomUserAgents (fun k => 7 * k + 123456) 3).length : Int) = 3
    ∧ QJsonObject.value (QJsonObject.value (QJsonObject.value
        (getPrettyV2RayConfig (fun k => 7 * k + 123456)
          [("network".toList, .string "tcp".toList),
           ("tcpHeaderType".toList, .string "http".toList)]) "http-opts".toList).toObject
        "headers".toList).toObject "host".toList = .array httpHosts :=
  ⟨(getRandomUserAgents_shape _ 3 (by decide)).1,
   ((getRandomUserAgents_shape (fun k => 7 * k + 123456) 0 (by decide)).2.2.2.1 _
      (by decide)).2⟩

/-! ### The tail of an SSR payload -/

/-- The search for `/?` in a text `head/?q` whose head does not hold `/?` stops
at the end of the head. -/
theorem QString.indexOfStrFrom_sep (head q : QString) (i : Nat)
    (h : QString.indexOfStrFrom ['/', '?'] head i = -1) :
    QString.indexOfStrFrom ['/', '?'] (head ++ '/' :: '?' :: q) i = ((i + head.length : Nat) : Int) := by
  induction head generalizing i with
  | nil => simp [QString.indexOfStrFrom, List.isPrefixOf]
  | cons c cs ih =>
    have hstep : ¬ (List.isPrefixOf ['/', '?'] (c :: cs) = true)
        ∧ QString.indexOfStrFrom ['/', '?'] cs (i + 1) = -1 := by
      unfold QString.indexOfStrFrom at h
      by_cases hp : List.isPrefixOf ['/', '?'] (c :: cs) = true
      · rw [if_pos hp] at h
        omega
      · rw [if_neg hp] at h
        exact ⟨hp, h⟩
    have hp2 : ¬ (List.isPrefixOf ['/', '?'] (c :: (cs ++ '/' :: '?' :: q)) = true) := by
      intro hp
      apply hstep.1
      cases cs with
      | nil => simp [List.isPrefixOf] at hp
      | cons d ds => simpa [List.isPrefixOf] using hp
    rw [List.cons_append]
    unfold QString.indexOfStrFrom
    rw [if_neg hp2, ih (i + 1) hstep.2, List.length_cons]
    congr 1
    omega

/-- The separator index of a text `head/?q` whose head does not hold `/?`. -/
theorem QString.indexOfStr_sep (head q : QString)
    (h : QString.indexOfStr head "/?".toList = -1) :
    QString.indexOfStr (head ++ '/' :: '?' :: q) "/?".toList = (head.length : Int) := by
  have e := QString.indexOfStrFrom_sep head q 0 h
  rw [Nat.zero_add] at e
  exact e

/-- Writing the pairs of a query into a record: a key ends with the text of the
last pair that has it. -/
theorem QJsonObject.value_foldl_last (pre post : List (QString × QString)) (k v : QString)
    (o : QJsonObject) (h : ∀ p ∈ post, p.1 ≠ k) :
    QJsonObject.value
      ((pre ++ (k, v) :: post).foldl
        (fun serverConfig p => QJsonObject.insert serverConfig p.1 (.string p.2)) o) k
      = .string v := by
  rw [List.foldl_append, List.foldl_cons, QJsonObject.value_foldl_items post _ k h]
  exact QJsonObject.value_insert_self _ _ _ nofun

/-- C25: for every SSR link whose payload decodes to `head/?q`, where the head
holds no `/?` and splits on `:` into six fields, the record is the record of the
head with the pairs of the query `q` written into it in order, each as
`record[k] = v`: a key of `q` has the text of its last pair, whatever the head
gave it (so a tail key `serverAddr`, `serverPort`, `serverName` or `subscription`
replaces the field, and `obfsparam`, `protoparam`, `remarks` are entries of the
record itself), and a key that `q` does not have keeps the value from the
head. -/
theorem ssr_tail_written_into_record
    (server subscriptionUrl head q f0 f1 f2 f3 f4 f5 : QString)
    (hpayload : getShadowsocksRPayloadText (QString.midFrom server 6)
      = head ++ '/' :: '?' :: q)
    (hhead : QString.indexOfStr head "/?".toList = -1)
    (hsix : QString.split head ':' = [f0, f1, f2, f3, f4, f5]) :
    getShadowsocksRServerConfigFromUrl server subscriptionUrl
      = (QUrlQuery.queryItems q).foldl
        (fun serverConfig p => QJsonObject.insert serverConfig p.1 (.string p.2))
        [("autoConnect".toList, .bool false),
         ("encryption".toList, .string f3),
         ("password".toList, .string f5),
         ("plugins".toList, .object [("obfs".toList, .string f4),
           ("protocol".toList, .string f2)]),
         ("serverAddr".toList, .string f0),
         ("serverName".toList, .string (f0 ++ ':' :: QString.number (QString.toInt f1))),
         ("serverPort".toList, .double (QString.toInt f1)),
         ("subscription".toList, .string subscriptionUrl)]
    ∧ (∀ (k v : QString) (pre post : List (QString × QString)),
        QUrlQuery.queryItems q = pre ++ (k, v) :: post → (∀ p ∈ post, p.1 ≠ k) →
        QJsonObject.value (getShadowsocksRServerConfigFromUrl server subscriptionUrl) k
          = .string v)
    ∧ (∀ k : QString, (∀ p ∈ QUrlQuery.queryItems q, p.1 ≠ k) →
        QJsonObject.value (getShadowsocksRServerConfigFromUrl server subscriptionUrl) k
          = QJsonObject.value
              [("autoConnect".toList, .bool false),
               ("encryption".toList, .string f3),
               ("password".toList, .string f5),
               ("plugins".toList, .object [("obfs".toList, .string f4),
                 ("protocol".toList, .string f2)]),
               ("serverAddr".toList, .string f0),
               ("serverName".toList,
                 .string (f0 ++ ':' :: QString.number (QString.toInt f1))),
               ("serverPort".toList, .double (QString.toInt f1)),
               ("subscription".toList, .string subscriptionUrl)] k) := by
  have hsep := QString.indexOfStr_sep head q hhead
  have hleft : QString.left (head ++ '/' :: '?' :: q)
      (QString.indexOfStr (head ++ '/' :: '?' :: q) "/?".toList) = head := by
    rw [hsep]
    exact QString.left_prefix _ head _ _ rfl rfl
  have hmid : QString.midFrom (head ++ '/' :: '?' :: q)
      (QString.indexOfStr (head ++ '/' :: '?' :: q) "/?".toList + 2) = q := by
    rw [hsep]
    exact QString.mid_rest _ (head ++ ['/', '?']) q _ _ (by simp)
      (by simp only [List.length_append, List.length_cons, List.length_nil]; push_cast; omega)
      (by omega)
  have hrec : getShadowsocksRServerConfigFromUrl server subscriptionUrl
      = (QUrlQuery.queryItems q).foldl
        (fun serverConfig p => QJsonObject.insert serverConfig p.1 (.string p.2))
        [("autoConnect".toList, .bool false),
         ("encryption".toList, .string f3),
         ("password".toList, .string f5),
         ("plugins".toList, .object [("obfs".toList, .string f4),
           ("protocol".toList, .string f2)]),
         ("serverAddr".toList, .string f0),
         ("serverName".toList, .string (f0 ++ ':' :: QString.number (QString.toInt f1))),
         ("serverPort".toList, .double (QString.toInt f1)),
         ("subscription".toList, .string subscriptionUrl)] := by
    unfold getShadowsocksRServerConfigFromUrl
    rw [hpayload,
      getShadowsocksRServerConfigFromText_six _ subscriptionUrl f0 f1 f2 f3 f4 f5
        (by rw [hleft]; exact hsix),
      hmid]
  refine ⟨hrec, ?_, ?_⟩
  · intro k v pre post hq hpost
    rw [hrec, hq]
    exact QJsonObject.value_foldl_last pre post k v _ hpost
  · intro k hk
    rw [hrec]
    exact QJsonObject.value_foldl_items _ _ k hk

/-- The link whose payload decodes to
`h:1:p:e:o:pw/?serverAddr=evil&remarks=x&serverAddr=evil2&obfsparam=y`: the
record has serverAddr `evil2`, the text of the last `serverAddr` pair, and the
top-level entries remarks `x` and obfsparam `y`; encryption stays `e`. -/
theorem ssr_tail_written_into_record_witness :
    QJsonObject.value (getShadowsocksRServerConfigFromUrl
        ("ssr://aDoxOnA6ZTpvOnB3Lz9zZXJ2ZXJBZGRyPWV2aWwmcmVtYXJrcz14JnNlcnZlckFkZHI9ZXZpbDImb2Jmc3BhcmFtPXk=").toList
        []) "serverAddr".toList = .string "evil2".toList
    ∧ QJsonObject.value (getShadowsocksRServerConfigFromUrl
        ("ssr://aDoxOnA6ZTpvOnB3Lz9zZXJ2ZXJBZGRyPWV2aWwmcmVtYXJrcz14JnNlcnZlckFkZHI9ZXZpbDImb2Jmc3BhcmFtPXk=").toList
        []) "remarks".toList = .string "x".toList
    ∧ QJsonObject.value (getShadowsocksRServerConfigFromUrl
        ("ssr://aDoxOnA6ZTpvOnB3Lz9zZXJ2ZXJBZGRyPWV2aWwmcmVtYXJrcz14JnNlcnZlckFkZHI9ZXZpbDImb2Jmc3BhcmFtPXk=").toList
        []) "obfsparam".toList = .string "y".toList
    ∧ QJsonObject.value (getShadowsocksRServerConfigFromUrl
        ("ssr://aDoxOnA6ZTpvOnB3Lz9zZXJ2ZXJBZGRyPWV2aWwmcmVtYXJrcz14JnNlcnZlckFkZHI9ZXZpbDImb2Jmc3BhcmFtPXk=").toList
        []) "encryption".toList = .string "e".toList :=
  have h := ssr_tail_written_into_record
    ("ssr://aDoxOnA6ZTpvOnB3Lz9zZXJ2ZXJBZGRyPWV2aWwmcmVtYXJrcz14JnNlcnZlckFkZHI9ZXZpbDImb2Jmc3BhcmFtPXk=").toList
    [] "h:1:p:e:o:pw".toList "serverAddr=evil&remarks=x&serverAddr=evil2&obfsparam=y".toList
    "h".toList "1".toList "p".toList "e".toList "o".toList "pw".toList
    (by decide!) (by decide!) (by decide!)
  ⟨h.2.1 "serverAddr".toList "evil2".toList
      [("serverAddr".toList, "evil".toList), ("remarks".toList, "x".toList)]
      [("obfsparam".toList, "y".toList)] (by decide!) (by decide),
   h.2.1 "remarks".toList "x".toList [("serverAddr".toList, "evil".toList)]
      [("serverAddr".toList, "evil2".toList), ("obfsparam".toList, "y".toList)]
      (by decide!) (by decide),
   h.2.1 "obfsparam".toList "y".toList
      [("serverAddr".toList, "evil".toList), ("remarks".toList, "x".toList),
       ("serverAddr".toList, "evil2".toList)] [] (by decide!) (by decide),
   (h.2.2 "encryption".toList (by decide!)).trans rfl⟩

/-! ### A link without a name fragment -/

/-- `mid(0)` is the whole string. -/
theorem QString.midFrom_zero (s : QString) : QString.midFrom s 0 = s := by
  unfold QString.midFrom QString.mid
  have h1 : ¬ ((0 : Int) > (s.length : Int)) := by omega
  simp only [h1, if_false]
  rfl

/-- The name that `getTrojanServerConfigFromUrl` stores, in terms of the index of
`#`. -/
theorem getTrojanServerConfigFromUrl_name (serverUrl subscriptionUrl : QString) :
    QJsonObject.value (getTrojanServerConfigFromUrl serverUrl subscriptionUrl)
        "serverName".toList
      = .string (QString.trimmed (QUrl.fromPercentEncoding (QString.toUtf8
          (QString.midFrom (QString.midFrom serverUrl 9)
            (QString.indexOf (QString.midFrom serverUrl 9) '#' + 1))))) := by
  unfold getTrojanServerConfigFromUrl
  lift_lets
  intro s atIndex colonIndex sharpIndex questionMarkIndex password serverAddr serverPort
    options serverName serverConfig serverOptions
  obtain ⟨a, b, c, d, he, -, -, -, -⟩ := getTrojanOptions_shape options
  have hopt : serverOptions = [("allowInsecure".toList, a), ("alpn".toList, b),
      ("sni".toList, c), ("udp".toList, d)] := he
  rw [hopt]
  simp only [List.foldl_cons, List.foldl_nil]
  rw [QJsonObject.value_insert_ne _ _ _ _ (by decide),
    QJsonObject.value_insert_ne _ _ _ _ (by decide),
    QJsonObject.value_insert_ne _ _ _ _ (by decide),
    QJsonObject.value_insert_ne _ _ _ _ (by decide)]
  rfl

/-- The name of a link that holds no `#`, for both parsers: `indexOf` gives `-1`,
the name is read with `mid(0)`, and so it is the whole link after its scheme,
percent-decoded and trimmed. -/
theorem name_of_link_without_sharp (serverUrl subscriptionUrl : QString) :
    ('#' ∉ QString.midFrom serverUrl 5 →
      QJsonObject.value (getShadowsocksServerConfigFromUrl serverUrl subscriptionUrl)
          "serverName".toList
        = .string (QString.trimmed (QUrl.fromPercentEncoding (QString.toUtf8
            (QString.midFrom serverUrl 5)))))
    ∧ ('#' ∉ QString.midFrom serverUrl 9 →
      QJsonObject.value (getTrojanServerConfigFromUrl serverUrl subscriptionUrl)
          "serverName".toList
        = .string (QString.trimmed (QUrl.fromPercentEncoding (QString.toUtf8
            (QString.midFrom serverUrl 9))))) := by
  constructor
  · intro h
    rw [(getShadowsocksServerConfigFromUrl_port_name serverUrl subscriptionUrl).2,
      QString.indexOf_not_mem _ _ h]
    exact congrArg (fun t => QJsonValue.string (QString.trimmed
      (QUrl.fromPercentEncoding (QString.toUtf8 t)))) (QString.midFrom_zero _)
  · intro h
    rw [getTrojanServerConfigFromUrl_name serverUrl subscriptionUrl,
      QString.indexOf_not_mem _ _ h]
    exact congrArg (fun t => QJsonValue.string (QString.trimmed
      (QUrl.fromPercentEncoding (QString.toUtf8 t)))) (QString.midFrom_zero _)

/-- C26, at the failing inputs. The links
`ss://YWVzLTI1Ni1nY206cGFzcw==@example.com:8388` and
`trojan://secret@host.example:443` hold no `#`: the serverName of the record is
not empty, it is the whole link after the scheme. -/
theorem name_without_fragment_is_link :
    QJsonObject.value (getShadowsocksServerConfigFromUrl
        "ss://YWVzLTI1Ni1nY206cGFzcw==@example.com:8388".toList []) "serverName".toList
      = .string "YWVzLTI1Ni1nY206cGFzcw==@example.com:8388".toList
    ∧ QJsonObject.value (getTrojanServerConfigFromUrl
        "trojan://secret@host.example:443".toList []) "serverName".toList
      = .string "secret@host.example:443".toList := by
  decide!

/-! ### Whitespace around a link -/

/-- What `dropWhile` leaves is empty or starts with a character that is kept. -/
theorem List.dropWhile_nil_or_head (p : Char → Bool) (l : List Char) :
    l.dropWhile p = [] ∨ ∃ a t, l.dropWhile p = a :: t ∧ p a = false := by
  induction l with
  | nil => exact Or.inl rfl
  | cons x xs ih =>
    cases hx : p x with
    | true => rw [List.dropWhile_cons_of_pos hx]; exact ih
    | false =>
      rw [List.dropWhile_cons_of_neg (by rw [hx]; exact Bool.false_ne_true)]
      exact Or.inr ⟨x, xs, rfl, hx⟩

/-- `trimmed` of a trimmed string changes nothing. -/
theorem QString.trimmed_trimmed (s : QString) :
    QString.trimmed (QString.trimmed s) = QString.trimmed s := by
  have hkeep : ∀ (a : Char) (t : List Char), QChar.isSpace a = false →
      (a :: t).dropWhile QChar.isSpace = a :: t := fun a t h =>
    List.dropWhile_cons_of_neg (by rw [h]; exact Bool.false_ne_true)
  unfold QString.trimmed
  rcases List.dropWhile_nil_or_head QChar.isSpace
      (s.dropWhile QChar.isSpace).reverse with hB | ⟨b, t, hB, hb⟩
  · rw [hB]; rfl
  · rw [hB]
    have hsplit := List.takeWhile_append_dropWhile QChar.isSpace
      (s.dropWhile QChar.isSpace).reverse
    rw [hB] at hsplit
    have hA : s.dropWhile QChar.isSpace
        = (b :: t).reverse ++ ((s.dropWhile QChar.isSpace).reverse.takeWhile
            QChar.isSpace).reverse := by
      have := congrArg List.reverse hsplit
      rw [List.reverse_append, List.reverse_reverse] at this
      exact this.symm
    have hR : (b :: t).reverse.dropWhile QChar.isSpace = (b :: t).reverse := by
      rcases List.dropWhile_nil_or_head QChar.isSpace s with h0 | ⟨a, u, h0, ha⟩
      · rw [h0] at hA
        have hnil := (List.append_eq_nil.mp hA.symm).1
        rw [hnil]; rfl
      · rw [h0] at hA
        cases hr : (b :: t).reverse with
        | nil => rfl
        | cons r rs =>
          rw [hr, List.cons_append] at hA
          have hhead : a = r := (List.cons.inj hA).1
          rw [← hhead]
          exact hkeep a rs ha
    rw [hR, List.reverse_reverse, hkeep b t hb]

/-- The dispatcher gives the same record for a link and for the trimmed link
whenever the protocol is not Shadowsocks, and for Shadowsocks whenever the link
as given and the trimmed link agree on starting with `ssr://`. -/
theorem getServerConfigFromUrl_trimmed (protocol : Protocol)
    (serverUrl subscriptionUrl : QString)
    (h : protocol ≠ Protocol.SHADOWSOCKS
      ∨ QString.startsWith serverUrl "ssr://".toList
        = QString.startsWith (QString.trimmed serverUrl) "ssr://".toList) :
    getServerConfigFromUrl protocol serverUrl subscriptionUrl
      = getServerConfigFromUrl protocol (QString.trimmed serverUrl) subscriptionUrl := by
  unfold getServerConfigFromUrl
  simp only [QString.trimmed_trimmed]
  rcases h with h | h
  · simp only [if_neg h]
  · rw [h]

/-- C27, at the failing input. The link
`ssr://ZXhhbXBsZS5jb206ODM4ODpvcmlnaW46YWVzLTI1Ni1jZmI6cGxhaW46Y0hjLz9yZW1hcmtzPWVB`
with one leading space is trimmed, but the test for `ssr://` is made on the link
as given, which starts with the space: the trimmed link is handed to the plain
Shadowsocks parser, and the record (serverAddr `/ZXhh…`) is not the record of
the link without the space (serverAddr `example.com`), which the SSR parser
reads. -/
theorem leading_space_ssr_link :
    QString.trimmed
        (" ssr://ZXhhbXBsZS5jb206ODM4ODpvcmlnaW46YWVzLTI1Ni1jZmI6cGxhaW46Y0hjLz9yZW1hcmtzPWVB").toList
      = ("ssr://ZXhhbXBsZS5jb206ODM4ODpvcmlnaW46YWVzLTI1Ni1jZmI6cGxhaW46Y0hjLz9yZW1hcmtzPWVB").toList
    ∧ getServerConfigFromUrl Protocol.SHADOWSOCKS
        (" ssr://ZXhhbXBsZS5jb206ODM4ODpvcmlnaW46YWVzLTI1Ni1jZmI6cGxhaW46Y0hjLz9yZW1hcmtzPWVB").toList
        []
      = getShadowsocksServerConfigFromUrl
        ("ssr://ZXhhbXBsZS5jb206ODM4ODpvcmlnaW46YWVzLTI1Ni1jZmI6cGxhaW46Y0hjLz9yZW1hcmtzPWVB").toList
        []
    ∧ getServerConfigFromUrl Protocol.SHADOWSOCKS
        ("ssr://ZXhhbXBsZS5jb206ODM4ODpvcmlnaW46YWVzLTI1Ni1jZmI6cGxhaW46Y0hjLz9yZW1hcmtzPWVB").toList
        []
      = getShadowsocksRServerConfigFromUrl
        ("ssr://ZXhhbXBsZS5jb206ODM4ODpvcmlnaW46YWVzLTI1Ni1jZmI6cGxhaW46Y0hjLz9yZW1hcmtzPWVB").toList
        []
    ∧ QJsonObject.value (getServerConfigFromUrl Protocol.SHADOWSOCKS
        (" ssr://ZXhhbXBsZS5jb206ODM4ODpvcmlnaW46YWVzLTI1Ni1jZmI6cGxhaW46Y0hjLz9yZW1hcmtzPWVB").toList
        []) "serverAddr".toList
      = .string
        ("/ZXhhbXBsZS5jb206ODM4ODpvcmlnaW46YWVzLTI1Ni1jZmI6cGxhaW46Y0hjLz9yZW1hcmtzPWVB").toList
    ∧ QJsonObject.value (getServerConfigFromUrl Protocol.SHADOWSOCKS
        ("ssr://ZXhhbXBsZS5jb206ODM4ODpvcmlnaW46YWVzLTI1Ni1jZmI6cGxhaW46Y0hjLz9yZW1hcmtzPWVB").toList
        []) "serverAddr".toList
      = .string "example.com".toList
    ∧ getServerConfigFromUrl Protocol.SHADOWSOCKS
        (" ssr://ZXhhbXBsZS5jb206ODM4ODpvcmlnaW46YWVzLTI1Ni1jZmI6cGxhaW46Y0hjLz9yZW1hcmtzPWVB").toList
        []
      ≠ getServerConfigFromUrl Protocol.SHADOWSOCKS
        (QString.trimmed
          (" ssr://ZXhhbXBsZS5jb206ODM4ODpvcmlnaW46YWVzLTI1Ni1jZmI6cGxhaW46Y0hjLz9yZW1hcmtzPWVB").toList)
        [] := by
  decide!

/-! ### Boolean Trojan options from a link to the rendered block -/

/-- The eleven entries of the initializer list of `getPrettyTrojanConfig`, as the
object stores them. -/
theorem prettyTrojan_base_entries (ac sk ud : Bool) (p : Int) (sb nm sv pw sn : QString)
    (al : QJsonArray) :
    QJsonObject.ofList [
      ("autoConnect".toList, .bool ac),
      ("subscription".toList, .string sb),
      ("name".toList, .string nm),
      ("type".toList, .string "trojan".toList),
      ("server".toList, .string sv),
      ("port".toList, .double p),
      ("password".toList, .string pw),
      ("sni".toList, .string sn),
      ("udp".toList, .bool ud),
      ("alpn".toList, .array al),
      ("skip-cert-verify".toList, .bool sk)]
    = [("alpn".toList, .array al), ("autoConnect".toList, .bool ac),
       ("name".toList, .string nm), ("password".toList, .string pw),
       ("port".toList, .double p), ("server".toList, .string sv),
       ("skip-cert-verify".toList, .bool sk), ("sni".toList, .string sn),
       ("subscription".toList, .string sb), ("type".toList, .string "trojan".toList),
       ("udp".toList, .bool ud)] := by
  rfl

/-- The two boolean entries of the block `getPrettyTrojanConfig` renders are the
record's `udp` and `allowInsecure` read with `toBool()`. -/
theorem getPrettyTrojanConfig_booleans (serverConfig : QJsonObject) :
    QJsonObject.value (getPrettyTrojanConfig serverConfig) "udp".toList
      = .bool (QJsonObject.value serverConfig "udp".toList).toBool
    ∧ QJsonObject.value (getPrettyTrojanConfig serverConfig) "skip-cert-verify".toList
      = .bool (QJsonObject.value serverConfig "allowInsecure".toList).toBool := by
  unfold getPrettyTrojanConfig
  simp only []
  rw [prettyTrojan_base_entries]
  exact ⟨rfl, rfl⟩

/-- The `udp` and `allowInsecure` of the record of a Trojan link are the values
`getTrojanOptions` gives them. -/
theorem getTrojanServerConfigFromUrl_booleans (serverUrl subscriptionUrl : QString) :
    ∃ options : QString,
      QJsonObject.value (getTrojanServerConfigFromUrl serverUrl subscriptionUrl) "udp".toList
        = QJsonObject.value (getTrojanOptions options) "udp".toList
      ∧ QJsonObject.value (getTrojanServerConfigFromUrl serverUrl subscriptionUrl)
          "allowInsecure".toList
        = QJsonObject.value (getTrojanOptions options) "allowInsecure".toList := by
  unfold getTrojanServerConfigFromUrl
  lift_lets
  intro s atIndex colonIndex sharpIndex questionMarkIndex password serverAddr serverPort
    options serverName serverConfig serverOptions
  refine ⟨options, ?_⟩
  obtain ⟨a, b, c, d, he, -, -, -, -⟩ := getTrojanOptions_shape options
  have hopt : serverOptions = [("allowInsecure".toList, a), ("alpn".toList, b),
      ("sni".toList, c), ("udp".toList, d)] := he
  rw [hopt, he]
  simp only [List.foldl_cons, List.foldl_nil]
  constructor
  · rw [QJsonObject.value_insert_same]
    rfl
  · rw [QJsonObject.value_insert_ne _ _ _ _ (by decide),
      QJsonObject.value_insert_ne _ _ _ _ (by decide),
      QJsonObject.value_insert_ne _ _ _ _ (by decide), QJsonObject.value_insert_same]
    rfl

/-- A value that starts as one reading `false` and is only ever replaced by a
string reads `false` with `toBool()`. -/
theorem lastValue_toBool (k : QString) (items : List (QString × QString)) (x : QJsonValue)
    (hx : x.toBool = false) :
    (items.foldl (fun x p => if p.1 = k then QJsonValue.string p.2 else x) x).toBool
      = false := by
  induction items generalizing x with
  | nil => exact hx
  | cons p rest ih =>
    rw [List.foldl_cons]
    apply ih
    split_ifs
    · rfl
    · exact hx

/-- The rendered block of the record of any Trojan link has `udp` = false and
`skip-cert-verify` = false: the parser stores the option texts as strings, and
`toBool()` of a string is `false`. -/
theorem trojan_link_rendered_booleans (serverUrl subscriptionUrl : QString) :
    QJsonObject.value (getPrettyTrojanConfig
        (getTrojanServerConfigFromUrl serverUrl subscriptionUrl)) "udp".toList = .bool false
    ∧ QJsonObject.value (getPrettyTrojanConfig
        (getTrojanServerConfigFromUrl serverUrl subscriptionUrl)) "skip-cert-verify".toList
      = .bool false := by
  obtain ⟨options, hu, ha⟩ := getTrojanServerConfigFromUrl_booleans serverUrl subscriptionUrl
  rw [(getPrettyTrojanConfig_booleans _).1, (getPrettyTrojanConfig_booleans _).2, hu, ha,
    getTrojanOptions_values]
  constructor
  · exact congrArg QJsonValue.bool (lastValue_toBool _ _ _ rfl)
  · exact congrArg QJsonValue.bool (lastValue_toBool _ _ _ rfl)

/-- C28, at the failing input. The link
`trojan://secret@host.example:443?udp=true&allowInsecure=true#node` parses to a
record whose `udp` and `allowInsecure` are the strings `true`; the rendered block
has `udp` = false and `skip-cert-verify` = false. -/
theorem trojan_true_options_rendered_false :
    QJsonObject.value (getTrojanServerConfigFromUrl
        "trojan://secret@host.example:443?udp=true&allowInsecure=true#node".toList [])
        "udp".toList = .string "true".toList
    ∧ QJsonObject.value (getTrojanServerConfigFromUrl
        "trojan://secret@host.example:443?udp=true&allowInsecure=true#node".toList [])
        "allowInsecure".toList = .string "true".toList
    ∧ QJsonObject.value (getPrettyTrojanConfig (getTrojanServerConfigFromUrl
        "trojan://secret@host.example:443?udp=true&allowInsecure=true#node".toList []))
        "udp".toList = .bool false
    ∧ QJsonObject.value (getPrettyTrojanConfig (getTrojanServerConfigFromUrl
        "trojan://secret@host.example:443?udp=true&allowInsecure=true#node".toList []))
        "skip-cert-verify".toList = .bool false := by
  decide!

/-! ### An SSR payload without a tail -/

/-- The SSR parser on a decoded text that holds no `/?` and splits into the six
fields `f0 .. f5`: `sepIndex` is `-1`, the head is the whole text, and the text
read as the tail is `mid(1)`, the text without its first character; its pairs
are written into the record of the head. -/
theorem getShadowsocksRServerConfigFromText_no_separator
    (T subscriptionUrl f0 f1 f2 f3 f4 f5 : QString)
    (hsep : QString.indexOfStr T "/?".toList = -1)
    (hsix : QString.split T ':' = [f0, f1, f2, f3, f4, f5]) :
    getShadowsocksRServerConfigFromText T subscriptionUrl
      = (QUrlQuery.queryItems (QString.midFrom T 1)).foldl
        (fun serverConfig p => QJsonObject.insert serverConfig p.1 (.string p.2))
        [("autoConnect".toList, .bool false),
         ("encryption".toList, .string f3),
         ("password".toList, .string f5),
         ("plugins".toList, .object [("obfs".toList, .string f4),
           ("protocol".toList, .string f2)]),
         ("serverAddr".toList, .string f0),
         ("serverName".toList, .string (f0 ++ ':' :: QString.number (QString.toInt f1))),
         ("serverPort".toList, .double (QString.toInt f1)),
         ("subscription".toList, .string subscriptionUrl)] := by
  have hleft : QString.left T (QString.indexOfStr T "/?".toList) = T := by
    rw [hsep]
    unfold QString.left
    rw [if_pos (Or.inl (by decide))]
  rw [getShadowsocksRServerConfigFromText_six T subscriptionUrl f0 f1 f2 f3 f4 f5
    (by rw [hleft]; exact hsix), hsep]
  rfl

/-- C29, at the failing input. The payload `aDoxOnA6ZTpvOnB3` decodes to
`h:1:p:e:o:pw`, six fields and no `/?`; the text read as the tail is
`:1:p:e:o:pw`, and the record has nine keys: the eight of the head and the key
`:1:p:e:o:pw`, with an empty value. -/
theorem ssr_no_tail_extra_key :
    getShadowsocksRPayloadText "aDoxOnA6ZTpvOnB3".toList = "h:1:p:e:o:pw".toList
    ∧ QString.indexOfStr "h:1:p:e:o:pw".toList "/?".toList = -1
    ∧ QString.split "h:1:p:e:o:pw".toList ':'
      = ["h".toList, "1".toList, "p".toList, "e".toList, "o".toList, "pw".toList]
    ∧ QJsonObject.keys (getShadowsocksRServerConfigFromUrl "ssr://aDoxOnA6ZTpvOnB3".toList [])
      = [":1:p:e:o:pw".toList, "autoConnect".toList, "encryption".toList, "password".toList,
         "plugins".toList, "serverAddr".toList, "serverName".toList, "serverPort".toList,
         "subscription".toList]
    ∧ QJsonObject.value (getShadowsocksRServerConfigFromUrl "ssr://aDoxOnA6ZTpvOnB3".toList [])
        ":1:p:e:o:pw".toList = .string [] := by
  decide!
